import Mathlib

/-!
# Lightweight promise / future pair (`include/boost/spinlock/future.hpp`)

A shallow embedding of `basic_promise`, `basic_future`, `detail::lock_guard` and the
`future_policy` / `shared_future_policy` accessors, run by one thread.

* Objects live in a `World`: a promise heap and a future heap, both indexed by address.
  A back-pointer is an address.  Constructors take the address at which the new object is
  built; `get_future` builds the returned future directly at the caller's address.
* An operation maps a world to an `Outcome` and the world it leaves behind.  Besides a
  normal return an operation can throw, call `abort()`, spin forever (`hang`: a lock or a
  `wait()` that only another thread could release) or have undefined behaviour
  (dangling pointer, use of a lock that was never constructed).
* `World.lock_constructions` and `World.lock_acquisitions` are counting hooks: they change
  nothing in the behaviour.
-/

namespace lightweight_futures

/-! ## Error codes and exceptions -/

/-- Identity of a `std::error_category` singleton. -/
inductive error_category
  | system
  | generic
  | future
  | monad
  | user (id : Nat)
  deriving DecidableEq, Repr

/-- A `std::error_code`: an integer and the category it belongs to. -/
structure error_code where
  value : Int
  category : error_category
  deriving DecidableEq, Repr

/-- The default constructed `std::error_code()`: value 0 in the system category. -/
def error_code.default : error_code := ⟨0, .system⟩

/-- The enumeration `std::future_errc`. -/
inductive future_errc
  | broken_promise
  | future_already_retrieved
  | promise_already_satisfied
  | no_state
  deriving DecidableEq, Repr

/-- Integer behind a `std::future_errc` (implementation defined; the libstdc++ numbering). -/
def future_errc.toInt : future_errc → Int
  | .future_already_retrieved => 1
  | .promise_already_satisfied => 2
  | .no_state => 3
  | .broken_promise => 4

/-- The conversion `std::make_error_code(std::future_errc)`. -/
def make_error_code (e : future_errc) : error_code := ⟨e.toInt, .future⟩

/-- Modelled from the spec: the enumeration `monad_errc` of `monad.hpp`, which is not among
the sources; the spec names its three members. -/
inductive monad_errc
  | already_set
  | no_state
  | exception_present
  deriving DecidableEq, Repr

/-- Modelled from the spec: integer behind a `monad_errc` (declaration order, from 1). -/
def monad_errc.toInt : monad_errc → Int
  | .already_set => 1
  | .no_state => 2
  | .exception_present => 3

/-- A `std::exception_ptr`: null, a reference to some user exception, or the reference made
by `std::make_exception_ptr(std::system_error(ec))`. -/
inductive exception_ptr
  | null
  | ref (id : Nat)
  | of_system_error (ec : error_code)
  deriving DecidableEq, Repr

/-- An exception in flight. -/
inductive thrown_exception
  | future_error (ec : error_code)
  | system_error (ec : error_code)
  | rethrown (e : exception_ptr)
  deriving DecidableEq, Repr

/-- How a call ends. -/
inductive Outcome (α : Type)
  | returned (a : α)
  | thrown (e : thrown_exception)
  | aborted
  | hang
  | undefined
  deriving DecidableEq, Repr

/-- The call `std::rethrow_exception(e)`; a null `e` is outside its contract. -/
def rethrow_exception {α : Type} (e : exception_ptr) : Outcome α :=
  if e = .null then .undefined else .thrown (.rethrown e)

/-! ## The value carrier (`value_storage`, from `monad.hpp`) -/

/-- The discriminator `value_storage::storage_type`. -/
inductive storage_type
  | empty
  | value
  | error
  | exception
  | pointer
  deriving DecidableEq, Repr

/-- Modelled from the spec: the carrier `value_storage` of `monad.hpp` (not among the
sources), a tagged union of nothing, a value, an error code, an exception reference, or a
pointer to a future (an address). -/
inductive value_storage (T : Type)
  | empty
  | value (v : T)
  | error (e : error_code)
  | exception (x : exception_ptr)
  | pointer (f : Nat)
  deriving DecidableEq, Repr

namespace value_storage

variable {T : Type}

/-- The member `type`. -/
def type : value_storage T → storage_type
  | .empty => .empty
  | .value _ => .value
  | .error _ => .error
  | .exception _ => .exception
  | .pointer _ => .pointer

/-- Modelled from the spec: `clear()` destroys whatever is live and leaves `Empty`. -/
def clear (_s : value_storage T) : value_storage T := .empty

/-- Modelled from the spec: `is_ready` is anything other than `Empty` and not `Pointer`. -/
def is_ready : value_storage T → Bool
  | .value _ => true
  | .error _ => true
  | .exception _ => true
  | _ => false

/-- Modelled from the spec: `has_value`. -/
def has_value : value_storage T → Bool
  | .value _ => true
  | _ => false

/-- Modelled from the spec: `has_error`. -/
def has_error : value_storage T → Bool
  | .error _ => true
  | _ => false

/-- Modelled from the spec: `has_exception`. -/
def has_exception : value_storage T → Bool
  | .exception _ => true
  | _ => false

/-- Modelled from the spec: `set_value(v)` needs tag `Empty` (`none`: the carrier aborts). -/
def set_value (s : value_storage T) (v : T) : Option (value_storage T) :=
  match s with
  | .empty => some (.value v)
  | _ => none

/-- Modelled from the spec: `set_error(e)` needs tag `Empty` (`none`: the carrier aborts). -/
def set_error (s : value_storage T) (e : error_code) : Option (value_storage T) :=
  match s with
  | .empty => some (.error e)
  | _ => none

/-- Modelled from the spec: `set_exception(x)` needs tag `Empty` (`none`: abort). -/
def set_exception (s : value_storage T) (x : exception_ptr) : Option (value_storage T) :=
  match s with
  | .empty => some (.exception x)
  | _ => none

/-- Modelled from the spec: `set_pointer(f)` needs tag `Empty` (`none`: abort). -/
def set_pointer (s : value_storage T) (f : Nat) : Option (value_storage T) :=
  match s with
  | .empty => some (.pointer f)
  | _ => none

end value_storage

/-! ## Objects and the world -/

/-- The inline lock member `union { spinlock<bool> _lock; }`, whose construction is
delayed. -/
inductive spinlock
  | unconstructed
  | unlocked
  | locked
  deriving DecidableEq, Repr

/-- The class `basic_promise`; `is_consuming` is the flag of its policy type. -/
structure basic_promise (T : Type) where
  _storage : value_storage T
  _need_locks : Bool
  _detached : Bool
  _lock : spinlock
  is_consuming : Bool
  deriving DecidableEq, Repr

/-- The class `basic_future`; `is_consuming` is the flag of its policy type. -/
structure basic_future (T : Type) where
  _storage : value_storage T
  _need_locks : Bool
  _lock : spinlock
  _promise : Option Nat
  is_consuming : Bool
  deriving DecidableEq, Repr

/-- All live promises and futures by address, and the two counting hooks. -/
structure World (T : Type) where
  promises : Nat → Option (basic_promise T)
  futures : Nat → Option (basic_future T)
  lock_constructions : Nat
  lock_acquisitions : Nat

namespace World

variable {T : Type}

/-- No object at all. -/
def empty : World T :=
  { promises := fun _ => none, futures := fun _ => none,
    lock_constructions := 0, lock_acquisitions := 0 }

/-- Store (or with `none` remove) the promise at address `p`. -/
def set_promise (w : World T) (p : Nat) (P : Option (basic_promise T)) : World T :=
  { w with promises := fun k => if k = p then P else w.promises k }

/-- Store (or with `none` remove) the future at address `f`. -/
def set_future (w : World T) (f : Nat) (F : Option (basic_future T)) : World T :=
  { w with futures := fun k => if k = f then F else w.futures k }

/-- Count one `new (&_lock) spinlock<bool>()`. -/
def count_construction (w : World T) : World T :=
  { w with lock_constructions := w.lock_constructions + 1 }

/-- Count one successful `lock()` or `try_lock()`. -/
def count_acquisition (w : World T) : World T :=
  { w with lock_acquisitions := w.lock_acquisitions + 1 }

end World


variable {T : Type}

/-! ## The two-object lock guard (`detail::lock_guard`) -/

/-- The members `_p` and `_f` of a `detail::lock_guard`. -/
structure lock_guard where
  _p : Option Nat
  _f : Option Nat
  deriving DecidableEq, Repr

/-- Result of constructing a `lock_guard`: the guard and the world with the locks taken,
or a loop that never ends, or undefined behaviour. -/
inductive Acquire (T : Type)
  | acquired (h : lock_guard) (w : World T)
  | hang
  | undefined

/-- The constructor `lock_guard(promise_type *p)`.  With `_need_locks` off it records the
promise and, when the carrier is a pointer, the future, and touches no lock.  Otherwise it
locks the promise, then tries the lock of the future it points to; when the try fails it
unlocks and loops, which one thread alone repeats forever. -/
def lock_guard.of_promise (w : World T) (p : Nat) : Acquire T :=
  match w.promises p with
  | none => .undefined
  | some P =>
    if !P._need_locks then
      match P._storage with
      | .pointer f => .acquired ⟨some p, some f⟩ w
      | _ => .acquired ⟨some p, none⟩ w
    else
      match P._lock with
      | .unconstructed => .undefined
      | .locked => .hang
      | .unlocked =>
        let w1 := (w.set_promise p (some { P with _lock := .locked })).count_acquisition
        match P._storage with
        | .pointer f =>
          match w1.futures f with
          | none => .undefined
          | some F =>
            match F._lock with
            | .unconstructed => .undefined
            | .locked => .hang
            | .unlocked =>
              .acquired ⟨some p, some f⟩
                (w1.set_future f (some { F with _lock := .locked })).count_acquisition
        | _ => .acquired ⟨some p, none⟩ w1

/-- The constructor `lock_guard(future_type *f)`, the mirror image: lock the future, then
try the lock of the promise it points back to. -/
def lock_guard.of_future (w : World T) (f : Nat) : Acquire T :=
  match w.futures f with
  | none => .undefined
  | some F =>
    if !F._need_locks then
      .acquired ⟨F._promise, some f⟩ w
    else
      match F._lock with
      | .unconstructed => .undefined
      | .locked => .hang
      | .unlocked =>
        let w1 := (w.set_future f (some { F with _lock := .locked })).count_acquisition
        match F._promise with
        | some p =>
          match w1.promises p with
          | none => .undefined
          | some P =>
            match P._lock with
            | .unconstructed => .undefined
            | .locked => .hang
            | .unlocked =>
              .acquired ⟨some p, some f⟩
                (w1.set_promise p (some { P with _lock := .locked })).count_acquisition
        | none => .acquired ⟨none, some f⟩ w1

/-- The promise half of `lock_guard::unlock()`: if `_p` is set and that promise has
`_need_locks` on, unlock its lock (`none`: undefined behaviour). -/
def lock_guard.unlock_p (h : lock_guard) (w : World T) : Option (World T) :=
  match h._p with
  | none => some w
  | some p =>
    match w.promises p with
    | none => none
    | some P =>
      if P._need_locks then
        match P._lock with
        | .unconstructed => none
        | _ => some (w.set_promise p (some { P with _lock := .unlocked }))
      else some w

/-- The future half of `lock_guard::unlock()`. -/
def lock_guard.unlock_f (h : lock_guard) (w : World T) : Option (World T) :=
  match h._f with
  | none => some w
  | some f =>
    match w.futures f with
    | none => none
    | some F =>
      if F._need_locks then
        match F._lock with
        | .unconstructed => none
        | _ => some (w.set_future f (some { F with _lock := .unlocked }))
      else some w

/-- The member `lock_guard::unlock()`: first the promise, then the future. -/
def lock_guard.unlock (h : lock_guard) (w : World T) : Option (World T) :=
  match h.unlock_p w with
  | none => none
  | some w1 => h.unlock_f w1

/-- Leaving the scope of a guard with outcome `o` (a return or an exception unwinding
through it): the destructor `~lock_guard()` unlocks. -/
def lock_guard.leave {α : Type} (h : lock_guard) (w : World T) (o : Outcome α) :
    Outcome α × World T :=
  match h.unlock w with
  | none => (.undefined, w)
  | some w1 => (o, w1)

/-! ## Policy helpers -/

/-- The function `future_policy<void>::_throw_error`. -/
def _throw_error {α : Type} (ec : monad_errc) : Outcome α :=
  match ec with
  | .already_set => .thrown (.future_error (make_error_code .promise_already_satisfied))
  | .no_state => .thrown (.future_error (make_error_code .no_state))
  | _ => .aborted

/-! ## `basic_future`: observers and construction -/

namespace basic_future

/-- Modelled from the spec: the observer `is_ready()` inherited from `basic_monad`. -/
def is_ready (F : basic_future T) : Bool := F._storage.is_ready

/-- Modelled from the spec: the observer `empty()` inherited from `basic_monad`. -/
def empty (F : basic_future T) : Bool := F._storage.type == .empty

/-- Modelled from the spec: the observer `has_value()` inherited from `basic_monad`. -/
def has_value (F : basic_future T) : Bool := F._storage.has_value

/-- Modelled from the spec: the observer `has_error()` inherited from `basic_monad`. -/
def has_error (F : basic_future T) : Bool := F._storage.has_error

/-- Modelled from the spec: the observer `has_exception()` inherited from `basic_monad`. -/
def has_exception (F : basic_future T) : Bool := F._storage.has_exception

/-- The member `valid()`: a promise is attached or the state is set. -/
def valid (F : basic_future T) : Bool :=
  if F._promise.isSome then true
  else if F.is_ready then true
  else false

/-- The default constructor `basic_future()`, building at address `a`. -/
def construct (w : World T) (a : Nat) (is_consuming : Bool) : World T :=
  w.set_future a (some { _storage := .empty, _need_locks := false, _lock := .unconstructed,
                         _promise := none, is_consuming := is_consuming })

/-- Modelled from the spec: construction from a ready value, which `make_ready_future`
calls and `future.hpp` does not define: an already ready future with no promise; no
`get_future` ran, so `_need_locks` is off and no lock is built. -/
def construct_value (w : World T) (a : Nat) (v : T) (is_consuming : Bool) : World T :=
  w.set_future a (some { _storage := .value v, _need_locks := false, _lock := .unconstructed,
                         _promise := none, is_consuming := is_consuming })

/-- The protected constructor `basic_future(promise_type *p)`, building at address `a`:
take over the promise's carrier and `_need_locks`, build the lock if needed, clear the
promise's carrier, then either detach (a state was taken over) or make the promise point
here. -/
def of_promise (w : World T) (p a : Nat) : Outcome Unit × World T :=
  match w.promises p with
  | none => (.undefined, w)
  | some P =>
    let F : basic_future T :=
      { _storage := P._storage, _need_locks := P._need_locks,
        _lock := if P._need_locks then .unlocked else .unconstructed,
        _promise := some p, is_consuming := P.is_consuming }
    let w1 := if P._need_locks then w.count_construction else w
    let P1 := { P with _storage := P._storage.clear }
    if !F.empty then
      (.returned (),
        (w1.set_promise p (some { P1 with _detached := true })).set_future a
          (some { F with _promise := none }))
    else
      match P1._storage.set_pointer a with
      | none => (.aborted, w1)
      | some s =>
        (.returned (), (w1.set_promise p (some { P1 with _storage := s })).set_future a (some F))

/-- The member `wait()`: return if ready, throw `no_state` if not valid, else spin until
ready, which one thread alone never leaves.  It changes nothing. -/
def wait (w : World T) (f : Nat) : Outcome Unit :=
  match w.futures f with
  | none => .undefined
  | some F =>
    if F.is_ready then .returned ()
    else if !F.valid then .thrown (.future_error (make_error_code .no_state))
    else .hang

/-- The destructor `~basic_future()`: when valid, under the guard clear the carrier of the
attached promise and the own carrier; the object is gone afterwards. -/
def destroy (w : World T) (f : Nat) : Outcome Unit × World T :=
  match w.futures f with
  | none => (.undefined, w)
  | some F =>
    if F.valid then
      match lock_guard.of_future w f with
      | .hang => (.hang, w)
      | .undefined => (.undefined, w)
      | .acquired h w1 =>
        let cleared : Option (World T) :=
          match h._p with
          | none => some w1
          | some p =>
            match w1.promises p with
            | none => none
            | some P => some (w1.set_promise p (some { P with _storage := P._storage.clear }))
        match cleared with
        | none => (.undefined, w1)
        | some w2 =>
          match w2.futures f with
          | none => (.undefined, w2)
          | some F2 =>
            let w3 := w2.set_future f (some { F2 with _storage := F2._storage.clear })
            match h.unlock w3 with
            | none => (.undefined, w3)
            | some w4 => (.returned (), w4.set_future f none)
    else (.returned (), w.set_future f none)

end basic_future

/-! ## `basic_promise` -/

namespace basic_promise

/-- The constructor `basic_promise()`, building at address `p`. -/
def construct (w : World T) (p : Nat) (is_consuming : Bool) : World T :=
  w.set_promise p (some { _storage := .empty, _need_locks := false, _detached := false,
                          _lock := .unconstructed, is_consuming := is_consuming })

/-- The member `get_future()`, the future being built at address `a`. -/
def get_future (w : World T) (p a : Nat) : Outcome Unit × World T :=
  match w.promises p with
  | none => (.undefined, w)
  | some P =>
    let w0 :=
      if !P._need_locks && P._storage.type == .empty then
        (w.set_promise p (some { P with _need_locks := true, _lock := .unlocked })).count_construction
      else w
    match lock_guard.of_promise w0 p with
    | .hang => (.hang, w0)
    | .undefined => (.undefined, w0)
    | .acquired h w1 =>
      match w1.promises p with
      | none => (.undefined, w1)
      | some P1 =>
        if P1._need_locks && P1._lock != .locked then (.aborted, w1)
        else if h._f.isSome || P1._detached then
          h.leave w1 (.thrown (.future_error (make_error_code .future_already_retrieved)))
        else
          match basic_future.of_promise w1 p a with
          | (.returned _, w2) => h.leave w2 (.returned ())
          | r => r

/-- The macro `BOOST_SPINLOCK_FUTURE_IMPL(name, function)`, the body shared by every
setter; `function` is the carrier setter applied to the future's or the own carrier. -/
def BOOST_SPINLOCK_FUTURE_IMPL (function : value_storage T → Option (value_storage T))
    (w : World T) (p : Nat) : Outcome Unit × World T :=
  match lock_guard.of_promise w p with
  | .hang => (.hang, w)
  | .undefined => (.undefined, w)
  | .acquired h w1 =>
    match w1.promises p with
    | none => (.undefined, w1)
    | some P =>
      if P._need_locks && P._lock != .locked then (.aborted, w1)
      else if P._detached then h.leave w1 (_throw_error .already_set)
      else
        match h._f with
        | some f =>
          match w1.futures f with
          | none => (.undefined, w1)
          | some F =>
            if P._need_locks && F._lock != .locked then (.aborted, w1)
            else if !F.empty then h.leave w1 (_throw_error .already_set)
            else
              match function F._storage with
              | none => (.aborted, w1)
              | some s =>
                h.leave
                  ((w1.set_future f (some { F with _storage := s, _promise := none })).set_promise p
                    (some { P with _storage := P._storage.clear, _detached := true }))
                  (.returned ())
        | none =>
          if P._storage.type != .empty then h.leave w1 (_throw_error .already_set)
          else
            match function P._storage with
            | none => (.aborted, w1)
            | some s => h.leave (w1.set_promise p (some { P with _storage := s })) (.returned ())

/-- The members `set_value(const value_type &)` and `set_value(value_type &&)`. -/
def set_value (w : World T) (p : Nat) (v : T) : Outcome Unit × World T :=
  BOOST_SPINLOCK_FUTURE_IMPL (fun s => s.set_value v) w p

/-- The member `emplace_value(args...)`, `v` being the value built from the arguments. -/
def emplace_value (w : World T) (p : Nat) (v : T) : Outcome Unit × World T :=
  BOOST_SPINLOCK_FUTURE_IMPL (fun s => s.set_value v) w p

/-- The member `set_error(error_type e)`. -/
def set_error (w : World T) (p : Nat) (e : error_code) : Outcome Unit × World T :=
  BOOST_SPINLOCK_FUTURE_IMPL (fun s => s.set_error e) w p

/-- The member `set_exception(exception_type e)`. -/
def set_exception (w : World T) (p : Nat) (e : exception_ptr) : Outcome Unit × World T :=
  BOOST_SPINLOCK_FUTURE_IMPL (fun s => s.set_exception e) w p

/-- The destructor `~basic_promise()`: unless detached, under the guard give an attached
future that is not ready the error `broken_promise`, null its back-pointer and clear the
own carrier; the object is gone afterwards. -/
def destroy (w : World T) (p : Nat) : Outcome Unit × World T :=
  match w.promises p with
  | none => (.undefined, w)
  | some P =>
    if !P._detached then
      match lock_guard.of_promise w p with
      | .hang => (.hang, w)
      | .undefined => (.undefined, w)
      | .acquired h w1 =>
        let broken : Outcome Unit × World T :=
          match h._f with
          | none => (.returned (), w1)
          | some f =>
            match w1.futures f with
            | none => (.undefined, w1)
            | some F =>
              if !F.is_ready then
                match F._storage.set_error (make_error_code .broken_promise) with
                | none => (.aborted, w1)
                | some s =>
                  (.returned (), w1.set_future f (some { F with _storage := s, _promise := none }))
              else (.returned (), w1.set_future f (some { F with _promise := none }))
        match broken with
        | (.returned _, w2) =>
          match w2.promises p with
          | none => (.undefined, w2)
          | some P2 =>
            let w3 := w2.set_promise p (some { P2 with _storage := P2._storage.clear })
            match h.unlock w3 with
            | none => (.undefined, w3)
            | some w4 => (.returned (), w4.set_promise p none)
        | r => r
    else (.returned (), w.set_promise p none)

end basic_promise

/-! ## The policies `future_policy` and `shared_future_policy` -/

/-- The helper `future_policy<void>::_pre_get_value<is_consuming>(self)`, the preamble of
every `_get_value`: `none` when it returns, else how it ends.  It throws `no_state` when
the future is not valid, a `future_error` or `system_error` built from a stored error code
(by category), and rethrows a stored exception.  Its statement
`auto _self=detail::rebind_cast<monad_type>(self);` declares a local object, a copy of the
future's monad, and the clearing `if(is_consuming) _self.clear();` acts on that local: the
future itself is left as it is, whence no world is returned. -/
def future_policy._pre_get_value {α : Type} (is_consuming : Bool) (F : basic_future T) :
    Option (Outcome α) :=
  if !F.valid then some (_throw_error .no_state)
  else if F.has_error || F.has_exception then
    let _self := F._storage
    match _self with
    | .error ec =>
      let _cleared := if is_consuming then _self.clear else _self
      if ec.category = .future then some (.thrown (.future_error ec))
      else some (.thrown (.system_error ec))
    | .exception e =>
      let _cleared := if is_consuming then _self.clear else _self
      some (rethrow_exception e)
    | _ => none
  else none

/-- The accessor `future_policy<R>::_get_value(self)` (consuming): wait, take the guard,
run the preamble, move the value out, clear the carrier, return the value. -/
def future_policy._get_value (w : World T) (f : Nat) : Outcome T × World T :=
  match basic_future.wait w f with
  | .returned _ =>
    match lock_guard.of_future w f with
    | .hang => (.hang, w)
    | .undefined => (.undefined, w)
    | .acquired h w1 =>
      match w1.futures f with
      | none => (.undefined, w1)
      | some F =>
        match future_policy._pre_get_value true F with
        | some o => h.leave w1 o
        | none =>
          match F._storage with
          | .value v =>
            h.leave (w1.set_future f (some { F with _storage := F._storage.clear })) (.returned v)
          | _ => (.undefined, w1)
  | .thrown e => (.thrown e, w)
  | .aborted => (.aborted, w)
  | .hang => (.hang, w)
  | .undefined => (.undefined, w)

/-- The accessor `shared_future_policy<R>::_get_value(self)` (not consuming): wait, take
the guard, run the preamble, return the stored value and leave it in place. -/
def shared_future_policy._get_value (w : World T) (f : Nat) : Outcome T × World T :=
  match basic_future.wait w f with
  | .returned _ =>
    match lock_guard.of_future w f with
    | .hang => (.hang, w)
    | .undefined => (.undefined, w)
    | .acquired h w1 =>
      match w1.futures f with
      | none => (.undefined, w1)
      | some F =>
        match future_policy._pre_get_value false F with
        | some o => h.leave w1 o
        | none =>
          match F._storage with
          | .value v => h.leave w1 (.returned v)
          | _ => (.undefined, w1)
  | .thrown e => (.thrown e, w)
  | .aborted => (.aborted, w)
  | .hang => (.hang, w)
  | .undefined => (.undefined, w)

/-- The statements of the function template
`future_policy<void>::_get_error_impl<is_consuming, U>(U &&self)`, as an instantiation with
`U` an object type runs them: wait, take the guard, throw `no_state` when not valid, hand
out a stored error (clearing the carrier when consuming), the code `exception_present` for
a stored exception, and the default error code otherwise. -/
def future_policy._get_error_impl_statements (is_consuming : Bool) (w : World T) (f : Nat) :
    Outcome error_code × World T :=
  match basic_future.wait w f with
  | .returned _ =>
    match lock_guard.of_future w f with
    | .hang => (.hang, w)
    | .undefined => (.undefined, w)
    | .acquired h w1 =>
      match w1.futures f with
      | none => (.undefined, w1)
      | some F =>
        if !F.valid then h.leave w1 (_throw_error .no_state)
        else
          match F._storage with
          | .error ec =>
            h.leave
              (if is_consuming then w1.set_future f (some { F with _storage := F._storage.clear })
               else w1)
              (.returned ec)
          | .exception _ =>
            h.leave w1 (.returned ⟨monad_errc.exception_present.toInt, .monad⟩)
          | _ => h.leave w1 (.returned error_code.default)
  | .thrown e => (.thrown e, w)
  | .aborted => (.aborted, w)
  | .hang => (.hang, w)
  | .undefined => (.undefined, w)

/-- The statements of the function template
`future_policy<void>::_get_exception_impl<is_consuming, U>(U &&self)`, as an instantiation
with `U` an object type runs them: wait, take the guard, throw `no_state` when not valid,
hand out the null reference when neither an error nor an exception is stored, a reference
made from `system_error(e)` for a stored error and the stored exception (clearing the
carrier when consuming). -/
def future_policy._get_exception_impl_statements (is_consuming : Bool) (w : World T) (f : Nat) :
    Outcome exception_ptr × World T :=
  match basic_future.wait w f with
  | .returned _ =>
    match lock_guard.of_future w f with
    | .hang => (.hang, w)
    | .undefined => (.undefined, w)
    | .acquired h w1 =>
      match w1.futures f with
      | none => (.undefined, w1)
      | some F =>
        if !F.valid then h.leave w1 (_throw_error .no_state)
        else
          match F._storage with
          | .error ec =>
            h.leave
              (if is_consuming then w1.set_future f (some { F with _storage := F._storage.clear })
               else w1)
              (.returned (.of_system_error ec))
          | .exception e =>
            h.leave
              (if is_consuming then w1.set_future f (some { F with _storage := F._storage.clear })
               else w1)
              (.returned e)
          | _ => h.leave w1 (.returned .null)
  | .thrown e => (.thrown e, w)
  | .aborted => (.aborted, w)
  | .hang => (.hang, w)
  | .undefined => (.undefined, w)

/-! ## The accessors of `basic_future` and the factory -/

/-- Modelled from the spec: the member `get()` inherited from `basic_monad` (`monad.hpp`),
which hands over to the `_get_value` of the future's policy. -/
def basic_future.get (w : World T) (f : Nat) : Outcome T × World T :=
  match w.futures f with
  | none => (.undefined, w)
  | some F =>
    if F.is_consuming then future_policy._get_value w f
    else shared_future_policy._get_value w f

/-- The statements of `_get_error_impl` run on the future at address `f`, with the
`is_consuming` of its policy. -/
def basic_future.get_error_statements (w : World T) (f : Nat) : Outcome error_code × World T :=
  match w.futures f with
  | none => (.undefined, w)
  | some F => future_policy._get_error_impl_statements F.is_consuming w f

/-- The statements of `_get_exception_impl` run on the future at address `f`, with the
`is_consuming` of its policy. -/
def basic_future.get_exception_statements (w : World T) (f : Nat) :
    Outcome exception_ptr × World T :=
  match w.futures f with
  | none => (.undefined, w)
  | some F => future_policy._get_exception_impl_statements F.is_consuming w f

/-- How an argument expression is passed to a function: as an lvalue (the name of an
object or of a reference) or as an rvalue. -/
inductive value_category
  | lvalue
  | rvalue
  deriving DecidableEq, Repr

/-- What the template parameter `U` of a forwarding reference `U &&self` stands for in an
instantiation: an object type, or an lvalue reference type. -/
inductive template_argument
  | object
  | lvalue_reference
  deriving DecidableEq, Repr

/-- Template argument deduction for a parameter `U &&self`: an lvalue argument makes `U`
an lvalue reference type, an rvalue argument makes it the object type. -/
def deduce : value_category → template_argument
  | .lvalue => .lvalue_reference
  | .rvalue => .object

/-- Whether the type `U *` can be formed: there is no pointer to a reference. -/
def template_argument.has_pointer_type : template_argument → Bool
  | .object => true
  | .lvalue_reference => false

/-- The function template `future_policy<void>::_get_error_impl<is_consuming, U>(U &&self)`
instantiated for `U`: `none` when the instantiation is ill-formed, so that a program with
it has no behaviour.  Its statement
`lock_guard_type h(const_cast<U *>(&self));` names the type `U *`. -/
def future_policy._get_error_impl (U : template_argument) (is_consuming : Bool) (w : World T)
    (f : Nat) : Option (Outcome error_code × World T) :=
  if U.has_pointer_type then some (future_policy._get_error_impl_statements is_consuming w f)
  else none

/-- The function template
`future_policy<void>::_get_exception_impl<is_consuming, U>(U &&self)` instantiated for `U`:
`none` when the instantiation is ill-formed.  Its statement
`lock_guard_type h(const_cast<U *>(&self));` names the type `U *`. -/
def future_policy._get_exception_impl (U : template_argument) (is_consuming : Bool)
    (w : World T) (f : Nat) : Option (Outcome exception_ptr × World T) :=
  if U.has_pointer_type then
    some (future_policy._get_exception_impl_statements is_consuming w f)
  else none

/-- The member `_get_error(const U &self)` of `future_policy<R>` and of
`shared_future_policy<R>`, `return _get_error_impl<is_consuming>(self);`: the argument
`self` is the name of a parameter, an lvalue, from which the `U` of `_get_error_impl` is
deduced. -/
def future_policy._get_error (is_consuming : Bool) (w : World T) (f : Nat) :
    Option (Outcome error_code × World T) :=
  future_policy._get_error_impl (deduce .lvalue) is_consuming w f

/-- The member `_get_exception(const U &self)` of `future_policy<R>` and of
`shared_future_policy<R>`, `return _get_exception_impl<is_consuming>(self);`: the argument
`self` is an lvalue. -/
def future_policy._get_exception (is_consuming : Bool) (w : World T) (f : Nat) :
    Option (Outcome exception_ptr × World T) :=
  future_policy._get_exception_impl (deduce .lvalue) is_consuming w f

/-- Modelled from the spec: the member `get_error()` inherited from `basic_monad`
(`monad.hpp`), which hands over to the `_get_error` of the future's policy; `none` when
the call is ill-formed. -/
def basic_future.get_error (w : World T) (f : Nat) : Option (Outcome error_code × World T) :=
  match w.futures f with
  | none => some (.undefined, w)
  | some F => future_policy._get_error F.is_consuming w f

/-- Modelled from the spec: the member `get_exception()` inherited from `basic_monad`
(`monad.hpp`), which hands over to the `_get_exception` of the future's policy; `none`
when the call is ill-formed. -/
def basic_future.get_exception (w : World T) (f : Nat) :
    Option (Outcome exception_ptr × World T) :=
  match w.futures f with
  | none => some (.undefined, w)
  | some F => future_policy._get_exception F.is_consuming w f

/-- The factory `make_ready_future(v)`, the future being built at address `a`. -/
def make_ready_future (w : World T) (a : Nat) (v : T) (is_consuming : Bool) : World T :=
  basic_future.construct_value w a v is_consuming

/-! ## Moves and `has_future` -/

/-- Modelled from the spec: the enumerator `storage_type::future` that `has_future()`
names.  The enumeration is declared in `monad.hpp` (not among the sources); the spec gives
the carrier five tags, of which `Pointer` is the one that refers to a future and the one
every other line of `future.hpp` calls `storage_type::pointer`. -/
def storage_type.future : storage_type := .pointer

/-- The member `has_future()`: the carrier has the tag `storage_type::future`, or the
promise is detached. -/
def basic_promise.has_future (P : basic_promise T) : Bool :=
  P._storage.type == storage_type.future || P._detached

/-- The move constructor `basic_promise(basic_promise &&o)`, building at address `a` from
the promise at address `o`: copy `_need_locks` and `_detached`, build the lock if needed,
and under the guard of `o` take its carrier (which leaves the carrier of `o` empty) and
make an attached future point here.  An object is never built on top of its source. -/
def basic_promise.move_construct (w : World T) (a o : Nat) : Outcome Unit × World T :=
  if a = o then (.undefined, w)
  else
    match w.promises o with
    | none => (.undefined, w)
    | some O =>
      let N : basic_promise T :=
        { _storage := .empty, _need_locks := O._need_locks, _detached := O._detached,
          _lock := if O._need_locks then .unlocked else .unconstructed,
          is_consuming := O.is_consuming }
      let w0 := (if O._need_locks then w.count_construction else w).set_promise a (some N)
      match lock_guard.of_promise w0 o with
      | .hang => (.hang, w0)
      | .undefined => (.undefined, w0)
      | .acquired h w1 =>
        match w1.promises o with
        | none => (.undefined, w1)
        | some O1 =>
          let w2 := (w1.set_promise a (some { N with _storage := O1._storage })).set_promise o
            (some { O1 with _storage := .empty })
          match h._f with
          | none => h.leave w2 (.returned ())
          | some f =>
            match w2.futures f with
            | none => (.undefined, w2)
            | some F => h.leave (w2.set_future f (some { F with _promise := some a })) (.returned ())

/-- The move assignment `basic_promise::operator=(basic_promise &&o)` on the promise at
address `a`: destroy it, then move construct in its place from `o`. -/
def basic_promise.move_assign (w : World T) (a o : Nat) : Outcome Unit × World T :=
  match basic_promise.destroy w a with
  | (.returned _, w1) => basic_promise.move_construct w1 a o
  | r => r

/-- The move constructor `basic_future(basic_future &&o)`, building at address `a` from
the future at address `o`: copy `_need_locks`, build the lock if needed, and under the
guard of `o` take its carrier (which leaves the carrier of `o` empty); when `o` has a
promise, take the back-pointer over, null it in `o`, and write the own address into the
pointer member of the promise's carrier (undefined when that carrier holds no pointer). -/
def basic_future.move_construct (w : World T) (a o : Nat) : Outcome Unit × World T :=
  if a = o then (.undefined, w)
  else
    match w.futures o with
    | none => (.undefined, w)
    | some O =>
      let N : basic_future T :=
        { _storage := .empty, _need_locks := O._need_locks,
          _lock := if O._need_locks then .unlocked else .unconstructed,
          _promise := none, is_consuming := O.is_consuming }
      let w0 := (if O._need_locks then w.count_construction else w).set_future a (some N)
      match lock_guard.of_future w0 o with
      | .hang => (.hang, w0)
      | .undefined => (.undefined, w0)
      | .acquired h w1 =>
        match w1.futures o with
        | none => (.undefined, w1)
        | some O1 =>
          match O1._promise with
          | none =>
            h.leave
              ((w1.set_future a (some { N with _storage := O1._storage })).set_future o
                (some { O1 with _storage := .empty }))
              (.returned ())
          | some q =>
            let w2 :=
              (w1.set_future a (some { N with _storage := O1._storage, _promise := some q })).set_future
                o (some { O1 with _storage := .empty, _promise := none })
            match h._p with
            | none => h.leave w2 (.returned ())
            | some p =>
              match w2.promises p with
              | none => (.undefined, w2)
              | some P =>
                match P._storage with
                | .pointer _ =>
                  h.leave (w2.set_promise p (some { P with _storage := .pointer a })) (.returned ())
                | _ => (.undefined, w2)

/-- The move assignment `basic_future::operator=(basic_future &&o)` on the future at
address `a`: destroy it, then move construct in its place from `o`. -/
def basic_future.move_assign (w : World T) (a o : Nat) : Outcome Unit × World T :=
  match basic_future.destroy w a with
  | (.returned _, w1) => basic_future.move_construct w1 a o
  | r => r

/-! ## Swaps, `share`, the other factories, and the carrier of the test -/

/-- The member `basic_promise::swap(basic_promise &o)` on the promise at address `a`: take
the guard of this promise, then the guard of `o`; exchange the carriers (nothing else);
make a future recorded by the first guard point to `o` and one recorded by the second
point here; the guards are released in reverse order. -/
def basic_promise.swap (w : World T) (a o : Nat) : Outcome Unit × World T :=
  match lock_guard.of_promise w a with
  | .hang => (.hang, w)
  | .undefined => (.undefined, w)
  | .acquired h1 w1 =>
    match lock_guard.of_promise w1 o with
    | .hang => (.hang, w1)
    | .undefined => (.undefined, w1)
    | .acquired h2 w2 =>
      match w2.promises a, w2.promises o with
      | some A, some O =>
        let w3 := (w2.set_promise a (some { A with _storage := O._storage })).set_promise o
          (some { O with _storage := A._storage })
        let first : Option (World T) :=
          match h1._f with
          | none => some w3
          | some f =>
            match w3.futures f with
            | none => none
            | some F => some (w3.set_future f (some { F with _promise := some o }))
        match first with
        | none => (.undefined, w3)
        | some w4 =>
          let second : Option (World T) :=
            match h2._f with
            | none => some w4
            | some f =>
              match w4.futures f with
              | none => none
              | some F => some (w4.set_future f (some { F with _promise := some a }))
          match second with
          | none => (.undefined, w4)
          | some w5 =>
            match h2.unlock w5 with
            | none => (.undefined, w5)
            | some w6 => h1.leave w6 (.returned ())
      | _, _ => (.undefined, w2)

/-- Write the address `a` into the pointer member of the carrier of the promise at `p`
(`h._p->_storage.pointer_ = ...`); `none` (undefined) when there is no such promise or its
carrier holds no pointer. -/
def World.repoint (w : World T) (p a : Nat) : Option (World T) :=
  match w.promises p with
  | none => none
  | some P =>
    match P._storage with
    | .pointer _ => some (w.set_promise p (some { P with _storage := .pointer a }))
    | _ => none

/-- The member `basic_future::swap(basic_future &o)` on the future at address `a`: take the
guard of this future, then the guard of `o`; exchange the carriers, the `_need_locks`
flags and the back-pointers (not the locks); make a promise recorded by the first guard
point to `o` and one recorded by the second point here; the guards are released in
reverse order. -/
def basic_future.swap (w : World T) (a o : Nat) : Outcome Unit × World T :=
  match lock_guard.of_future w a with
  | .hang => (.hang, w)
  | .undefined => (.undefined, w)
  | .acquired h1 w1 =>
    match lock_guard.of_future w1 o with
    | .hang => (.hang, w1)
    | .undefined => (.undefined, w1)
    | .acquired h2 w2 =>
      match w2.futures a, w2.futures o with
      | some A, some O =>
        let w3 :=
          (w2.set_future a
            (some { A with _storage := O._storage, _need_locks := O._need_locks,
                           _promise := O._promise })).set_future o
            (some { O with _storage := A._storage, _need_locks := A._need_locks,
                           _promise := A._promise })
        let first : Option (World T) :=
          match h1._p with
          | none => some w3
          | some p => w3.repoint p o
        match first with
        | none => (.undefined, w3)
        | some w4 =>
          let second : Option (World T) :=
            match h2._p with
            | none => some w4
            | some p => w4.repoint p a
          match second with
          | none => (.undefined, w4)
          | some w5 =>
            match h2.unlock w5 with
            | none => (.undefined, w5)
            | some w6 => h1.leave w6 (.returned ())
      | _, _ => (.undefined, w2)

/-- The member `share()` on the future at address `f`, the shared future being built at
address `a`: throw `no_state` when not valid; else `_share` move constructs a future of
the shared policy from this one. -/
def basic_future.share (w : World T) (a f : Nat) : Outcome Unit × World T :=
  match w.futures f with
  | none => (.undefined, w)
  | some F =>
    if !F.valid then (.thrown (.future_error (make_error_code .no_state)), w)
    else
      match basic_future.move_construct w a f with
      | (.returned _, w1) =>
        match w1.futures a with
        | none => (.undefined, w1)
        | some N => (.returned (), w1.set_future a (some { N with is_consuming := false }))
      | r => r

/-- Modelled from the spec: construction from a ready error, which `make_errored_future`
calls and `future.hpp` does not define: an already ready future with no promise. -/
def basic_future.construct_error (w : World T) (a : Nat) (e : error_code)
    (is_consuming : Bool) : World T :=
  w.set_future a (some { _storage := .error e, _need_locks := false, _lock := .unconstructed,
                         _promise := none, is_consuming := is_consuming })

/-- Modelled from the spec: construction from a ready exception, which
`make_exceptional_future` calls and `future.hpp` does not define: an already ready future
with no promise. -/
def basic_future.construct_exception (w : World T) (a : Nat) (x : exception_ptr)
    (is_consuming : Bool) : World T :=
  w.set_future a (some { _storage := .exception x, _need_locks := false,
                         _lock := .unconstructed, _promise := none,
                         is_consuming := is_consuming })

/-- The factory `make_errored_future<R>(v)`, the future being built at address `a`. -/
def make_errored_future (w : World T) (a : Nat) (e : error_code) (is_consuming : Bool) :
    World T :=
  basic_future.construct_error w a e is_consuming

/-- The factory `make_exceptional_future<R>(v)`, the future being built at address `a`. -/
def make_exceptional_future (w : World T) (a : Nat) (x : exception_ptr)
    (is_consuming : Bool) : World T :=
  basic_future.construct_exception w a x is_consuming

/-- Modelled from the spec: construction of a carrier holding a value (`option<int> m1(5)`
in the test; `option` is declared in `monad.hpp`, not among the sources): an empty carrier
on which `set_value(v)` has run. -/
def value_storage.construct_value (v : T) : value_storage T := .value v

/-- Modelled from the spec: the destructive move of a carrier, `move(other)`: the new
carrier takes the alternative of `other`, and `other` becomes `Empty`.  The result is the
new carrier and what is left of `other`. -/
def value_storage.move (other : value_storage T) : value_storage T × value_storage T :=
  (other, .empty)

/-- Modelled from the spec: `get()` on a carrier with no promise or lock about it (an
`option`): the payload when the tag is `Value`; `none` when there is no value to return. -/
def value_storage.get (s : value_storage T) : Option T :=
  match s with
  | .value v => some v
  | _ => none

namespace min_option_construct_value_move_destruct

/-- The function `test1()` of the test: build an option holding 5, move construct a second
one from it, return `get()` of the second. -/
def test1 : Option Int :=
  let m1 : value_storage Int := value_storage.construct_value 5
  let m2 := (value_storage.move m1).1
  m2.get

/-- The function `main()` of the test: 1 when `test1()` is not 5, else 0. -/
def main : Int :=
  if test1 ≠ some 5 then 1 else 0

end min_option_construct_value_move_destruct

/-! ## Runs of public operations -/

/-- Forget the value an operation returned. -/
def Outcome.void {α : Type} : Outcome α → Outcome Unit
  | .returned _ => .returned ()
  | .thrown e => .thrown e
  | .aborted => .aborted
  | .hang => .hang
  | .undefined => .undefined

/-- A public operation on the promises and futures of a world, with the addresses of the
objects it works on (for a constructing operation the first address is where the new
object is built). -/
inductive public_op (T : Type)
  | promise_construct (p : Nat) (is_consuming : Bool)
  | future_construct (a : Nat) (is_consuming : Bool)
  | make_ready_future (a : Nat) (v : T) (is_consuming : Bool)
  | make_errored_future (a : Nat) (e : error_code) (is_consuming : Bool)
  | make_exceptional_future (a : Nat) (x : exception_ptr) (is_consuming : Bool)
  | get_future (p a : Nat)
  | set_value (p : Nat) (v : T)
  | emplace_value (p : Nat) (v : T)
  | set_error (p : Nat) (e : error_code)
  | set_exception (p : Nat) (x : exception_ptr)
  | promise_move_construct (a o : Nat)
  | promise_move_assign (a o : Nat)
  | promise_swap (a o : Nat)
  | promise_destroy (p : Nat)
  | wait (f : Nat)
  | get (f : Nat)
  | get_error (f : Nat)
  | get_exception (f : Nat)
  | future_move_construct (a o : Nat)
  | future_move_assign (a o : Nat)
  | future_swap (a o : Nat)
  | share (a f : Nat)
  | future_destroy (f : Nat)

/-- Run a public operation.  For `get_error` and `get_exception` the statements of
`_get_error_impl` and `_get_exception_impl` are run on the future, so that what is proved
of every operation also holds of these statements as they are written; the calls
themselves are ill-formed (`basic_future.get_error`, `basic_future.get_exception`). -/
def public_op.run (op : public_op T) (w : World T) : Outcome Unit × World T :=
  match op with
  | .promise_construct p c => (.returned (), basic_promise.construct w p c)
  | .future_construct a c => (.returned (), basic_future.construct w a c)
  | .make_ready_future a v c => (.returned (), lightweight_futures.make_ready_future w a v c)
  | .make_errored_future a e c =>
    (.returned (), lightweight_futures.make_errored_future w a e c)
  | .make_exceptional_future a x c =>
    (.returned (), lightweight_futures.make_exceptional_future w a x c)
  | .get_future p a => basic_promise.get_future w p a
  | .set_value p v => basic_promise.set_value w p v
  | .emplace_value p v => basic_promise.emplace_value w p v
  | .set_error p e => basic_promise.set_error w p e
  | .set_exception p x => basic_promise.set_exception w p x
  | .promise_move_construct a o => basic_promise.move_construct w a o
  | .promise_move_assign a o => basic_promise.move_assign w a o
  | .promise_swap a o => basic_promise.swap w a o
  | .promise_destroy p => basic_promise.destroy w p
  | .wait f => (basic_future.wait w f, w)
  | .get f => ((basic_future.get w f).1.void, (basic_future.get w f).2)
  | .get_error f => ((basic_future.get_error_statements w f).1.void, (basic_future.get_error_statements w f).2)
  | .get_exception f =>
    ((basic_future.get_exception_statements w f).1.void, (basic_future.get_exception_statements w f).2)
  | .future_move_construct a o => basic_future.move_construct w a o
  | .future_move_assign a o => basic_future.move_assign w a o
  | .future_swap a o => basic_future.swap w a o
  | .share a f => basic_future.share w a f
  | .future_destroy f => basic_future.destroy w f

/-- The operation came to an end the program can go on from: it returned or threw. -/
def Outcome.completed {α : Type} : Outcome α → Bool
  | .returned _ => true
  | .thrown _ => true
  | _ => false

/-- The worlds a program can be in: it starts with no object and makes one public
operation after the other, going on after each that returned or threw. -/
inductive reachable : World T → Prop
  | start : reachable World.empty
  | step (w : World T) (op : public_op T) :
      reachable w → (op.run w).1.completed = true → reachable (op.run w).2

/-! ## States named in the properties -/

/-- The lock of an object nobody is working on: built and unlocked when `need_locks` is on,
never built when it is off. -/
def spinlock.at_rest (need_locks : Bool) (l : spinlock) : Prop :=
  l = if need_locks then .unlocked else .unconstructed

/-- The state of a promise `P` at address `p` whose future was already retrieved and is
still alive: either a future is attached and pending (the carrier of `P` points to it), or
`P` is detached with an empty carrier (the future took the state over).  The locks
involved are at rest. -/
def future_retrieved (w : World T) (p : Nat) (P : basic_promise T) : Prop :=
  w.promises p = some P ∧ spinlock.at_rest P._need_locks P._lock ∧
  ((∃ f F, P._storage = .pointer f ∧ w.futures f = some F ∧
      spinlock.at_rest F._need_locks F._lock ∧ (P._need_locks = true → F._need_locks = true)) ∨
   (P._detached = true ∧ P._storage = .empty))

/-- The state of a promise `P` at address `p` with a pending attached future `F` at address
`f`: the carrier of `P` points to `F`, `P` is not detached, the carrier of `F` is empty,
and the locks are at rest. -/
def pending_pair (w : World T) (p f : Nat) (P : basic_promise T) (F : basic_future T) : Prop :=
  w.promises p = some P ∧ w.futures f = some F ∧
  P._storage = .pointer f ∧ P._detached = false ∧ F._storage = .empty ∧
  spinlock.at_rest P._need_locks P._lock ∧ spinlock.at_rest F._need_locks F._lock ∧
  (P._need_locks = true → F._need_locks = true)

/-- The two-object guard can be taken from future `F` and released again: the own lock is
at rest, and so is the lock of an attached promise, which has `_need_locks` on when `F`
has. -/
def future_guard_free (w : World T) (F : basic_future T) : Prop :=
  spinlock.at_rest F._need_locks F._lock ∧
  ∀ p, F._promise = some p →
    ∃ P, w.promises p = some P ∧ spinlock.at_rest P._need_locks P._lock ∧
      (F._need_locks = true → P._need_locks = true)

/-- A world with a single consuming promise of `Nat` at address 0, just constructed. -/
def world_fresh : World Nat := basic_promise.construct World.empty 0 true

/-- The world after `p.set_value(5); f = p.get_future();` with `p` and `f` at address 0. -/
def world_value_then_future : World Nat :=
  (basic_promise.get_future (basic_promise.set_value world_fresh 0 5).2 0 0).2

/-- The world after `f = p.get_future();` with `p` and `f` at address 0. -/
def world_pending : World Nat := (basic_promise.get_future world_fresh 0 0).2

/-- A world with a single shared (not consuming) future of `Nat` at address 0, made ready
with the value 7. -/
def world_shared_ready : World Nat := make_ready_future World.empty 0 7 false

/-- A call on a promise: one of the setters, or `get_future()` with the future built at
address `a`. -/
inductive promise_call (T : Type)
  | set_value (v : T)
  | emplace_value (v : T)
  | set_error (e : error_code)
  | set_exception (x : exception_ptr)
  | get_future (a : Nat)

/-- Whether the call is one of the setters. -/
def promise_call.is_set : promise_call T → Bool
  | .get_future _ => false
  | _ => true

/-- Make the call on the promise at address `p`. -/
def promise_call.run (c : promise_call T) (w : World T) (p : Nat) : Outcome Unit × World T :=
  match c with
  | .set_value v => basic_promise.set_value w p v
  | .emplace_value v => basic_promise.emplace_value w p v
  | .set_error e => basic_promise.set_error w p e
  | .set_exception x => basic_promise.set_exception w p x
  | .get_future a => basic_promise.get_future w p a

/-- The world after a sequence of calls on the promise at address `p`. -/
def run_calls (w : World T) (p : Nat) : List (promise_call T) → World T
  | [] => w
  | c :: cs => run_calls (c.run w p).2 p cs

/-- What holds of a promise that has only seen setters and `get_future()` since its
construction: its lock is at rest, and when its carrier points to a future, that future is
alive and pending and both have `_need_locks` on. -/
def promise_inv (w : World T) (p : Nat) : Prop :=
  ∃ P, w.promises p = some P ∧ spinlock.at_rest P._need_locks P._lock ∧
    ∀ f, P._storage = .pointer f →
      P._need_locks = true ∧ P._detached = false ∧
      ∃ F, w.futures f = some F ∧ F._storage = .empty ∧ F._need_locks = true ∧
        F._lock = .unlocked

/-- A promise on which a setter has succeeded: it holds the state in its own carrier and is
not detached, or it is detached with an empty carrier. -/
def promise_set (w : World T) (p : Nat) : Prop :=
  ∃ P, w.promises p = some P ∧ spinlock.at_rest P._need_locks P._lock ∧
    ((P._detached = true ∧ P._storage = .empty) ∨
     (P._detached = false ∧ P._storage.is_ready = true))

/-- The two-object guard can be taken from promise `P` and released again: the own lock is
at rest, and when the carrier points to a future, that future is alive with its lock at
rest and has `_need_locks` on when `P` has. -/
def promise_guard_free (w : World T) (P : basic_promise T) : Prop :=
  spinlock.at_rest P._need_locks P._lock ∧
  ∀ f, P._storage = .pointer f →
    ∃ F, w.futures f = some F ∧ spinlock.at_rest F._need_locks F._lock ∧
      (P._need_locks = true → F._need_locks = true)

/-- The state of a promise `P` at address `p` and a future `F` at address `f` attached to
each other: the carrier of `P` points to `F`, the back-pointer of `F` points to `P`, both
have the same `_need_locks`, and the locks are at rest. -/
def attached_pair (w : World T) (p f : Nat) (P : basic_promise T) (F : basic_future T) : Prop :=
  w.promises p = some P ∧ w.futures f = some F ∧
  P._storage = .pointer f ∧ F._promise = some p ∧
  spinlock.at_rest P._need_locks P._lock ∧ spinlock.at_rest F._need_locks F._lock ∧
  P._need_locks = F._need_locks

/-- The world after `q = std::move(p)` as a construction: the fresh promise at address 0
has been moved into a new promise at address 1. -/
def world_moved_from : World Nat := (basic_promise.move_construct world_fresh 1 0).2

/-- The world after `p.set_error(e); f = p.get_future();` with `e` the error code 5 of the
generic category, and `p` and `f` at address 0. -/
def world_error_future : World Nat :=
  (basic_promise.get_future (basic_promise.set_error world_fresh 0 ⟨5, .generic⟩).2 0 0).2

/-- The world after `p.set_exception(x); f = p.get_future();` with `x` the exception
reference 7, and `p` and `f` at address 0. -/
def world_exception_future : World Nat :=
  (basic_promise.get_future (basic_promise.set_exception world_fresh 0 (.ref 7)).2 0 0).2

/-- What holds once the promise `P` at address `o` has been moved from, `r` being the
result of the move: the move returned; the carrier of the source is empty and all else in
it is as before (in particular the detached flag); so a source that was not detached
accepts a setter, which stores into its own carrier, and one that was detached refuses
every setter as `_throw_error(already_set)` does. -/
def moved_from (r : Outcome Unit × World T) (o : Nat) (P : basic_promise T) (v : T)
    (e : error_code) (x : exception_ptr) : Prop :=
  r.1 = .returned () ∧
  r.2.promises o = some { P with _storage := .empty } ∧
  (P._detached = false →
    ((basic_promise.set_value r.2 o v).1 = .returned () ∧
     (basic_promise.set_value r.2 o v).2.promises o = some { P with _storage := .value v }) ∧
    ((basic_promise.set_error r.2 o e).1 = .returned () ∧
     (basic_promise.set_error r.2 o e).2.promises o = some { P with _storage := .error e }) ∧
    ((basic_promise.set_exception r.2 o x).1 = .returned () ∧
     (basic_promise.set_exception r.2 o x).2.promises o
       = some { P with _storage := .exception x })) ∧
  (P._detached = true →
    (basic_promise.set_value r.2 o v).1 = _throw_error .already_set ∧
    (basic_promise.set_error r.2 o e).1 = _throw_error .already_set ∧
    (basic_promise.set_exception r.2 o x).1 = _throw_error .already_set)

/-- The future `F` can be moved from: its guard is free, and an attached promise holds a
pointer in its carrier. -/
def future_movable (w : World T) (F : basic_future T) : Prop :=
  future_guard_free w F ∧
  ∀ p P, F._promise = some p → w.promises p = some P → ∃ g, P._storage = .pointer g

/-- No future holds the pointer alternative in its carrier. -/
def no_pointer_in_future (w : World T) : Prop :=
  ∀ f F g, w.futures f = some F → F._storage ≠ .pointer g

/-- The promise `P` with its lock left out of the picture. -/
def basic_promise.lockless (P : basic_promise T) : basic_promise T :=
  { P with _lock := .unconstructed }

/-- The future `F` with its lock left out of the picture. -/
def basic_future.lockless (F : basic_future T) : basic_future T :=
  { F with _lock := .unconstructed }

/-- The worlds `w` and `w1` hold the same objects and differ at most in the states of
locks and in the counting hooks. -/
def World.same_data (w w1 : World T) : Prop :=
  (∀ q, (w1.promises q).map basic_promise.lockless = (w.promises q).map basic_promise.lockless) ∧
  (∀ g, (w1.futures g).map basic_future.lockless = (w.futures g).map basic_future.lockless)

/-- What an operation leaves alone, from the world `w` before to the world `w1` after:
every promise there is afterwards, but the one at `bp`, was there before with the same
`_need_locks`; every future there is afterwards, but the one at `bf`, was there before
with the same `_need_locks`; and when no future held a pointer before, none does after. -/
def frame (bp bf : Option Nat) (w w1 : World T) : Prop :=
  (∀ q P1, w1.promises q = some P1 → some q ≠ bp →
    ∃ P, w.promises q = some P ∧ P1._need_locks = P._need_locks) ∧
  (∀ g F1, w1.futures g = some F1 → some g ≠ bf →
    ∃ F, w.futures g = some F ∧ F1._need_locks = F._need_locks) ∧
  (no_pointer_in_future w → no_pointer_in_future w1)

/-- The address at which the operation builds a promise (for a move assignment: destroys
one and builds one in its place), if it does. -/
def public_op.builds_promise : public_op T → Option Nat
  | .promise_construct p _ => some p
  | .promise_move_construct a _ => some a
  | .promise_move_assign a _ => some a
  | _ => none

/-- The address at which the operation builds a future (for a move assignment: destroys
one and builds one in its place), if it does. -/
def public_op.builds_future : public_op T → Option Nat
  | .future_construct a _ => some a
  | .make_ready_future a _ _ => some a
  | .make_errored_future a _ _ => some a
  | .make_exceptional_future a _ _ => some a
  | .get_future _ a => some a
  | .future_move_construct a _ => some a
  | .future_move_assign a _ => some a
  | .share a _ => some a
  | _ => none

/-- Whether the operation is the swap of two futures. -/
def public_op.is_future_swap : public_op T → Bool
  | .future_swap _ _ => true
  | _ => false

/-- The world `world_pending` with a second, fresh promise at address 1. -/
def world_pending_and_fresh : World Nat := basic_promise.construct world_pending 1 true

/-- The world after `a.set_value(5); fa = a.get_future(); fb = b.get_future();` with the
promise `a` and its future `fa` at address 0 and the promise `b` and its future `fb` at
address 1: `a` is detached, `b` points to its pending future. -/
def world_detached_and_pending : World Nat :=
  (basic_promise.get_future (basic_promise.construct world_value_then_future 1 true) 1 1).2

/-- The world `world_pending` with a second future at address 1, made ready with the
value 7 (no promise, `_need_locks` off). -/
def world_pending_and_ready : World Nat := make_ready_future world_pending 1 7 true

/-! ## Two threads taking the guard of one attached pair -/

/-- The two threads of the protocol: one constructs `lock_guard(promise_type *)` on a
promise, the other `lock_guard(future_type *)` on the future attached to it. -/
inductive guard_side
  | promise
  | future
  deriving DecidableEq, Repr

/-- The other thread. -/
def guard_side.other : guard_side → guard_side
  | .promise => .future
  | .future => .promise

/-- Where a thread stands in the constructor of its guard (the `for(;;)` loop taken with
`_need_locks` on) and in `unlock()`: before `_lock.lock()` on its own object; holding its
own lock, before `try_lock()` on the peer; after a failed try, before `_lock.unlock()` on
its own object and the next turn of the loop; out of the constructor holding both locks,
before `_p->_lock.unlock()`; before `_f->_lock.unlock()`; and through with `unlock()`. -/
inductive guard_pc
  | lock_own
  | try_peer
  | unlock_own
  | holding
  | unlock_f
  | done
  deriving DecidableEq, Repr

/-- A promise and the future attached to it, both with `_need_locks` on (so both locks
are constructed), and the two threads: whether each lock is held, and where each thread
stands.  The carrier of the promise stays a pointer to the future and the future keeps
pointing back throughout. -/
structure guard_pair where
  promise_lock : Bool
  future_lock : Bool
  promise_pc : guard_pc
  future_pc : guard_pc
  deriving DecidableEq, Repr

namespace guard_pair

/-- Both locks free, both threads about to enter their constructor. -/
def start : guard_pair :=
  { promise_lock := false, future_lock := false, promise_pc := .lock_own,
    future_pc := .lock_own }

/-- One atomic step of the thread on the promise side, `lock_guard(promise_type *p)` and
then `unlock()`: `p->_lock.lock()` takes the lock of the promise when it is free and spins
otherwise; `p->_storage.pointer_->_lock.try_lock()` takes the lock of the future and leaves
the loop, or fails; after a failed try `p->_lock.unlock()` and the loop starts over;
`unlock()` releases the lock of `_p`, then the lock of `_f`. -/
def step_promise (s : guard_pair) : guard_pair :=
  match s.promise_pc with
  | .lock_own =>
    if s.promise_lock then s else { s with promise_lock := true, promise_pc := .try_peer }
  | .try_peer =>
    if s.future_lock then { s with promise_pc := .unlock_own }
    else { s with future_lock := true, promise_pc := .holding }
  | .unlock_own => { s with promise_lock := false, promise_pc := .lock_own }
  | .holding => { s with promise_lock := false, promise_pc := .unlock_f }
  | .unlock_f => { s with future_lock := false, promise_pc := .done }
  | .done => s

/-- One atomic step of the thread on the future side, `lock_guard(future_type *f)` and
then `unlock()`: `f->_lock.lock()`, then `f->_promise->_lock.try_lock()`, after a failed
try `f->_lock.unlock()` and the loop starts over; `unlock()` releases the lock of `_p`,
then the lock of `_f`. -/
def step_future (s : guard_pair) : guard_pair :=
  match s.future_pc with
  | .lock_own =>
    if s.future_lock then s else { s with future_lock := true, future_pc := .try_peer }
  | .try_peer =>
    if s.promise_lock then { s with future_pc := .unlock_own }
    else { s with promise_lock := true, future_pc := .holding }
  | .unlock_own => { s with future_lock := false, future_pc := .lock_own }
  | .holding => { s with promise_lock := false, future_pc := .unlock_f }
  | .unlock_f => { s with future_lock := false, future_pc := .done }
  | .done => s

/-- One step of the thread `t`. -/
def step (s : guard_pair) (t : guard_side) : guard_pair :=
  match t with
  | .promise => s.step_promise
  | .future => s.step_future

/-- Run an interleaving: the threads step in the order the schedule names them. -/
def run (s : guard_pair) (schedule : List guard_side) : guard_pair :=
  schedule.foldl step s

/-- The thread `t` is blocked: it stands in `_lock.lock()` on its own object and that
lock is held (`try_lock()` never blocks). -/
def blocked (s : guard_pair) (t : guard_side) : Bool :=
  match t with
  | .promise => s.promise_pc == .lock_own && s.promise_lock
  | .future => s.future_pc == .lock_own && s.future_lock

/-- Whether the thread on the promise side holds the lock of the promise, by where it
stands. -/
def promise_side_holds_promise_lock : guard_pc → Bool
  | .try_peer => true
  | .unlock_own => true
  | .holding => true
  | _ => false

/-- Whether the thread on the promise side holds the lock of the future. -/
def promise_side_holds_future_lock : guard_pc → Bool
  | .holding => true
  | .unlock_f => true
  | _ => false

/-- Whether the thread on the future side holds the lock of the future. -/
def future_side_holds_future_lock : guard_pc → Bool
  | .try_peer => true
  | .unlock_own => true
  | .holding => true
  | .unlock_f => true
  | _ => false

/-- Whether the thread on the future side holds the lock of the promise. -/
def future_side_holds_promise_lock : guard_pc → Bool
  | .holding => true
  | _ => false

/-- The locks are held by the threads that took them: each lock is held exactly when one
of the threads holds it, and never by both. -/
def consistent (s : guard_pair) : Bool :=
  (s.promise_lock == (promise_side_holds_promise_lock s.promise_pc
    || future_side_holds_promise_lock s.future_pc)) &&
  !(promise_side_holds_promise_lock s.promise_pc
    && future_side_holds_promise_lock s.future_pc) &&
  (s.future_lock == (promise_side_holds_future_lock s.promise_pc
    || future_side_holds_future_lock s.future_pc)) &&
  !(promise_side_holds_future_lock s.promise_pc
    && future_side_holds_future_lock s.future_pc)

/-- The thread to run next in order to bring both threads to the end: the thread on the
future side while it holds a lock, then the thread on the promise side until it is
through, then the thread on the future side. -/
def next (s : guard_pair) : guard_side :=
  if s.future_pc ≠ .lock_own ∧ s.future_pc ≠ .done then .future
  else if s.promise_pc ≠ .done then .promise
  else .future

/-- The schedule of `n` steps that `next` gives from `s`. -/
def finish : Nat → guard_pair → List guard_side
  | 0, _ => []
  | n + 1, s => s.next :: finish n (s.step s.next)

end guard_pair

/-! ## Auxiliary facts -/

/-- Writing back what is already stored changes nothing. -/
theorem update_eq_self {α : Type} (m : Nat → Option α) (k : Nat) (x : Option α)
    (h : m k = x) : (fun i => if i = k then x else m i) = m := by
  funext i
  by_cases hi : i = k <;> simp [hi, h]

/-- One `get()` on a shared future holding a value returns the value and leaves both heaps
as they were. -/
theorem shared_get_step (w : World T) (f : Nat) (F : basic_future T) (v : T)
    (hF : w.futures f = some F) (hc : F.is_consuming = false) (hs : F._storage = .value v)
    (hg : future_guard_free w F) :
    (basic_future.get w f).1 = .returned v ∧
    (basic_future.get w f).2.futures = w.futures ∧
    (basic_future.get w f).2.promises = w.promises := by
  obtain ⟨fs, fnl, fl, fp, fc⟩ := F
  obtain ⟨hl, hg⟩ := hg
  simp only [spinlock.at_rest] at hl hs hc hg
  cases fp with
  | none =>
    cases fnl <;>
    simp_all [lock_guard.of_future, lock_guard.leave, lock_guard.unlock,
      lock_guard.unlock_p, lock_guard.unlock_f, World.set_promise, World.set_future,
      World.count_acquisition, value_storage.is_ready,
      basic_future.is_ready, basic_future.valid, basic_future.get,
      shared_future_policy._get_value, future_policy._pre_get_value, basic_future.wait,
      basic_future.has_error, basic_future.has_exception, value_storage.has_error,
      value_storage.has_exception]
    all_goals exact update_eq_self _ _ _ hF
  | some p =>
    obtain ⟨P, hP, hPl, hn⟩ := hg p rfl
    obtain ⟨s, nl, d, l, c⟩ := P
    simp only [spinlock.at_rest] at hPl hn
    cases fnl <;> cases nl <;>
    simp_all [lock_guard.of_future, lock_guard.leave, lock_guard.unlock,
      lock_guard.unlock_p, lock_guard.unlock_f, World.set_promise, World.set_future,
      World.count_acquisition, value_storage.is_ready,
      basic_future.is_ready, basic_future.valid, basic_future.get,
      shared_future_policy._get_value, future_policy._pre_get_value, basic_future.wait,
      basic_future.has_error, basic_future.has_exception, value_storage.has_error,
      value_storage.has_exception]
    all_goals
      first
      | exact update_eq_self _ _ _ hP
      | exact ⟨update_eq_self _ _ _ hF, update_eq_self _ _ _ hP⟩

/-- Repeated `get()` on a shared future holding a value leaves both heaps as they were. -/
theorem shared_get_iterate (w : World T) (f : Nat) (F : basic_future T) (v : T)
    (hF : w.futures f = some F) (hc : F.is_consuming = false) (hs : F._storage = .value v)
    (hg : future_guard_free w F) (n : Nat) :
    ((fun u => (basic_future.get u f).2)^[n] w).futures = w.futures ∧
    ((fun u => (basic_future.get u f).2)^[n] w).promises = w.promises := by
  induction n with
  | zero => exact ⟨rfl, rfl⟩
  | succ n ih =>
    rw [Function.iterate_succ_apply']
    obtain ⟨ihf, ihp⟩ := ih
    have hF1 : ((fun u => (basic_future.get u f).2)^[n] w).futures f = some F := by
      rw [ihf]; exact hF
    have hg1 : future_guard_free ((fun u => (basic_future.get u f).2)^[n] w) F := by
      unfold future_guard_free at hg ⊢
      rw [ihp]; exact hg
    obtain ⟨_, h2, h3⟩ := shared_get_step _ f F v hF1 hc hs hg1
    exact ⟨h2.trans ihf, h3.trans ihp⟩

/-- A promise just constructed satisfies the invariant. -/
theorem promise_inv_construct (w : World T) (p : Nat) (c : Bool) :
    promise_inv (basic_promise.construct w p c) p := by
  simp [promise_inv, basic_promise.construct, World.set_promise, spinlock.at_rest]

/-- A setter keeps the invariant, returns or throws `already_set`, and when it returns the
promise is set. -/
theorem impl_inv (function : value_storage T → Option (value_storage T)) (r : value_storage T)
    (hfn : function .empty = some r) (hr : r.is_ready = true)
    (w : World T) (p : Nat) (h : promise_inv w p) :
    promise_inv (basic_promise.BOOST_SPINLOCK_FUTURE_IMPL function w p).2 p ∧
    ((basic_promise.BOOST_SPINLOCK_FUTURE_IMPL function w p).1 = .returned () ∨
     (basic_promise.BOOST_SPINLOCK_FUTURE_IMPL function w p).1 = _throw_error .already_set) ∧
    ((basic_promise.BOOST_SPINLOCK_FUTURE_IMPL function w p).1 = .returned () →
      promise_set (basic_promise.BOOST_SPINLOCK_FUTURE_IMPL function w p).2 p) := by
  obtain ⟨P, hP, hl, hf⟩ := h
  obtain ⟨s, nl, d, l, c⟩ := P
  simp only [spinlock.at_rest] at hl hf
  cases s with
  | pointer f =>
    obtain ⟨hnl, hd, F, hF, hFs, hFn, hFl⟩ := hf f rfl
    obtain ⟨fs, fnl, fl, fp, fc⟩ := F
    simp only at hnl hd hFs hFn hFl
    subst hnl hd hFs hFn hFl
    simp_all [promise_inv, promise_set, basic_promise.BOOST_SPINLOCK_FUTURE_IMPL,
      lock_guard.of_promise, lock_guard.leave, lock_guard.unlock, lock_guard.unlock_p,
      lock_guard.unlock_f, World.set_promise, World.set_future, World.count_acquisition,
      value_storage.type, value_storage.clear, basic_future.empty, spinlock.at_rest]
  | _ =>
    cases nl <;> cases d <;>
    simp_all [promise_inv, promise_set, basic_promise.BOOST_SPINLOCK_FUTURE_IMPL,
      lock_guard.of_promise, lock_guard.leave, lock_guard.unlock, lock_guard.unlock_p,
      lock_guard.unlock_f, World.set_promise, World.set_future, World.count_acquisition,
      value_storage.type, value_storage.clear, basic_future.empty, spinlock.at_rest,
      _throw_error]
    all_goals (intro f hf; subst hf; simp [value_storage.is_ready] at hr)


/-- The call `get_future()` keeps the invariant and returns or throws
`future_already_retrieved`. -/
theorem get_future_inv (w : World T) (p a : Nat) (h : promise_inv w p) :
    promise_inv (basic_promise.get_future w p a).2 p ∧
    ((basic_promise.get_future w p a).1 = .returned () ∨
     (basic_promise.get_future w p a).1
       = .thrown (.future_error (make_error_code .future_already_retrieved))) := by
  obtain ⟨P, hP, hl, hf⟩ := h
  obtain ⟨s, nl, d, l, c⟩ := P
  simp only [spinlock.at_rest] at hl hf
  cases s with
  | pointer f =>
    obtain ⟨hnl, hd, F, hF, hFs, hFn, hFl⟩ := hf f rfl
    obtain ⟨fs, fnl, fl, fp, fc⟩ := F
    simp only at hnl hd hFs hFn hFl
    subst hnl hd hFs hFn hFl
    simp_all [promise_inv, basic_promise.get_future,
      lock_guard.of_promise, lock_guard.leave, lock_guard.unlock, lock_guard.unlock_p,
      lock_guard.unlock_f, World.set_promise, World.set_future, World.count_acquisition,
      World.count_construction,
      value_storage.type, value_storage.clear, basic_future.empty, spinlock.at_rest]
  | _ =>
    cases nl <;> cases d <;>
    simp_all [promise_inv, basic_promise.get_future, basic_future.of_promise,
      lock_guard.of_promise, lock_guard.leave, lock_guard.unlock, lock_guard.unlock_p,
      lock_guard.unlock_f, World.set_promise, World.set_future, World.count_acquisition,
      World.count_construction, value_storage.set_pointer,
      value_storage.type, value_storage.clear, basic_future.empty, spinlock.at_rest]

/-- On a set promise a setter throws `already_set`, leaves the promise set and changes no
future and not the carrier of the promise. -/
theorem impl_set (function : value_storage T → Option (value_storage T))
    (w : World T) (p : Nat) (h : promise_set w p) :
    promise_set (basic_promise.BOOST_SPINLOCK_FUTURE_IMPL function w p).2 p ∧
    (basic_promise.BOOST_SPINLOCK_FUTURE_IMPL function w p).1 = _throw_error .already_set ∧
    (basic_promise.BOOST_SPINLOCK_FUTURE_IMPL function w p).2.futures = w.futures ∧
    ((basic_promise.BOOST_SPINLOCK_FUTURE_IMPL function w p).2.promises p).map
      (fun P => P._storage) = (w.promises p).map (fun P => P._storage) := by
  obtain ⟨P, hP, hl, hs⟩ := h
  obtain ⟨s, nl, d, l, c⟩ := P
  simp only [spinlock.at_rest] at hl hs
  rcases hs with ⟨hd, hs⟩ | ⟨hd, hs⟩
  · subst hd hs
    cases nl <;>
    simp_all [promise_set, basic_promise.BOOST_SPINLOCK_FUTURE_IMPL,
      lock_guard.of_promise, lock_guard.leave, lock_guard.unlock, lock_guard.unlock_p,
      lock_guard.unlock_f, World.set_promise, World.set_future, World.count_acquisition,
      value_storage.type, value_storage.clear, basic_future.empty, spinlock.at_rest,
      _throw_error]
  · subst hd
    cases s <;> cases nl <;>
    simp_all [promise_set, basic_promise.BOOST_SPINLOCK_FUTURE_IMPL,
      lock_guard.of_promise, lock_guard.leave, lock_guard.unlock, lock_guard.unlock_p,
      lock_guard.unlock_f, World.set_promise, World.set_future, World.count_acquisition,
      value_storage.type, value_storage.clear, basic_future.empty, spinlock.at_rest,
      _throw_error, value_storage.is_ready]

/-- The call `get_future()` leaves a set promise set. -/
theorem get_future_set (w : World T) (p a : Nat) (h : promise_set w p) :
    promise_set (basic_promise.get_future w p a).2 p := by
  obtain ⟨P, hP, hl, hs⟩ := h
  obtain ⟨s, nl, d, l, c⟩ := P
  simp only [spinlock.at_rest] at hl hs
  rcases hs with ⟨hd, hs⟩ | ⟨hd, hs⟩
  · subst hd hs
    cases nl <;>
    simp_all [promise_set, basic_promise.get_future, basic_future.of_promise,
      lock_guard.of_promise, lock_guard.leave, lock_guard.unlock, lock_guard.unlock_p,
      lock_guard.unlock_f, World.set_promise, World.set_future, World.count_acquisition,
      World.count_construction, value_storage.set_pointer,
      value_storage.type, value_storage.clear, basic_future.empty, spinlock.at_rest]
  · subst hd
    cases s <;> cases nl <;>
    simp_all [promise_set, basic_promise.get_future, basic_future.of_promise,
      lock_guard.of_promise, lock_guard.leave, lock_guard.unlock, lock_guard.unlock_p,
      lock_guard.unlock_f, World.set_promise, World.set_future, World.count_acquisition,
      World.count_construction, value_storage.set_pointer,
      value_storage.type, value_storage.clear, basic_future.empty, spinlock.at_rest,
      value_storage.is_ready]


/-- Every call keeps the invariant and returns or throws; a setter that returns leaves the
promise set. -/
theorem call_inv (c : promise_call T) (w : World T) (p : Nat) (h : promise_inv w p) :
    promise_inv (c.run w p).2 p ∧
    ((c.run w p).1 = .returned () ∨ ∃ e, (c.run w p).1 = .thrown e) ∧
    (c.is_set = true → (c.run w p).1 = .returned () → promise_set (c.run w p).2 p) := by
  cases c with
  | get_future a =>
    obtain ⟨h1, h2⟩ := get_future_inv w p a h
    refine ⟨h1, ?_, ?_⟩
    · rcases h2 with h2 | h2
      · exact Or.inl h2
      · exact Or.inr ⟨_, h2⟩
    · intro hs; simp [promise_call.is_set] at hs
  | set_value v =>
    obtain ⟨h1, h2, h3⟩ := impl_inv (fun s => s.set_value v) (.value v) rfl rfl w p h
    refine ⟨h1, ?_, fun _ => h3⟩
    rcases h2 with h2 | h2
    · exact Or.inl h2
    · exact Or.inr ⟨_, h2⟩
  | emplace_value v =>
    obtain ⟨h1, h2, h3⟩ := impl_inv (fun s => s.set_value v) (.value v) rfl rfl w p h
    refine ⟨h1, ?_, fun _ => h3⟩
    rcases h2 with h2 | h2
    · exact Or.inl h2
    · exact Or.inr ⟨_, h2⟩
  | set_error e =>
    obtain ⟨h1, h2, h3⟩ := impl_inv (fun s => s.set_error e) (.error e) rfl rfl w p h
    refine ⟨h1, ?_, fun _ => h3⟩
    rcases h2 with h2 | h2
    · exact Or.inl h2
    · exact Or.inr ⟨_, h2⟩
  | set_exception x =>
    obtain ⟨h1, h2, h3⟩ := impl_inv (fun s => s.set_exception x) (.exception x) rfl rfl w p h
    refine ⟨h1, ?_, fun _ => h3⟩
    rcases h2 with h2 | h2
    · exact Or.inl h2
    · exact Or.inr ⟨_, h2⟩

/-- Every call leaves a set promise set. -/
theorem call_set (c : promise_call T) (w : World T) (p : Nat) (h : promise_set w p) :
    promise_set (c.run w p).2 p := by
  cases c with
  | get_future a => exact get_future_set w p a h
  | set_value v => exact (impl_set _ w p h).1
  | emplace_value v => exact (impl_set _ w p h).1
  | set_error e => exact (impl_set _ w p h).1
  | set_exception x => exact (impl_set _ w p h).1

/-- On a set promise every setter throws `already_set` and changes no carrier. -/
theorem set_call_fails (c : promise_call T) (w : World T) (p : Nat) (h : promise_set w p)
    (hc : c.is_set = true) :
    (c.run w p).1 = _throw_error .already_set ∧
    (c.run w p).2.futures = w.futures ∧
    ((c.run w p).2.promises p).map (fun P => P._storage)
      = (w.promises p).map (fun P => P._storage) := by
  cases c with
  | get_future a => simp [promise_call.is_set] at hc
  | set_value v => exact (impl_set _ w p h).2
  | emplace_value v => exact (impl_set _ w p h).2
  | set_error e => exact (impl_set _ w p h).2
  | set_exception x => exact (impl_set _ w p h).2

/-- Running a concatenation is running the parts in turn. -/
theorem run_calls_append (w : World T) (p : Nat) (xs ys : List (promise_call T)) :
    run_calls w p (xs ++ ys) = run_calls (run_calls w p xs) p ys := by
  induction xs generalizing w with
  | nil => rfl
  | cons c cs ih => exact ih _

/-- A sequence of calls keeps the invariant. -/
theorem run_calls_inv (w : World T) (p : Nat) (cs : List (promise_call T))
    (h : promise_inv w p) : promise_inv (run_calls w p cs) p := by
  induction cs generalizing w with
  | nil => exact h
  | cons c cs ih => exact ih _ (call_inv c w p h).1

/-- A sequence of calls leaves a set promise set. -/
theorem run_calls_set (w : World T) (p : Nat) (cs : List (promise_call T))
    (h : promise_set w p) : promise_set (run_calls w p cs) p := by
  induction cs generalizing w with
  | nil => exact h
  | cons c cs ih => exact ih _ (call_set c w p h)

/-- A setter on a promise with a pending attached future writes through the pointer. -/
theorem impl_attached (function : value_storage T → Option (value_storage T))
    (r : value_storage T) (hfn : function .empty = some r)
    (w : World T) (p f : Nat) (P : basic_promise T) (F : basic_future T)
    (h : pending_pair w p f P F) :
    (basic_promise.BOOST_SPINLOCK_FUTURE_IMPL function w p).1 = .returned () ∧
    (basic_promise.BOOST_SPINLOCK_FUTURE_IMPL function w p).2.futures f
      = some { F with _storage := r, _promise := none } ∧
    (basic_promise.BOOST_SPINLOCK_FUTURE_IMPL function w p).2.promises p
      = some { P with _storage := .empty, _detached := true } := by
  obtain ⟨hP, hF, hs, hd, hfs, hl, hfl, hnl⟩ := h
  obtain ⟨s, nl, d, l, c⟩ := P
  obtain ⟨fs, fnl, fl, fp, fc⟩ := F
  simp only [spinlock.at_rest] at hl hfl hs hd hfs hnl
  cases nl <;> cases fnl <;>
    simp_all [basic_promise.BOOST_SPINLOCK_FUTURE_IMPL,
      lock_guard.of_promise, lock_guard.leave, lock_guard.unlock, lock_guard.unlock_p,
      lock_guard.unlock_f, World.set_promise, World.set_future, World.count_acquisition,
      value_storage.type, value_storage.clear, basic_future.empty]

/-- A setter on a promise with an empty carrier and not detached writes into the own
carrier. -/
theorem impl_local (function : value_storage T → Option (value_storage T))
    (r : value_storage T) (hfn : function .empty = some r)
    (w : World T) (p : Nat) (P : basic_promise T)
    (hP : w.promises p = some P) (hs : P._storage = .empty) (hd : P._detached = false)
    (hl : spinlock.at_rest P._need_locks P._lock) :
    (basic_promise.BOOST_SPINLOCK_FUTURE_IMPL function w p).1 = .returned () ∧
    (basic_promise.BOOST_SPINLOCK_FUTURE_IMPL function w p).2.promises p
      = some { P with _storage := r } ∧
    (basic_promise.BOOST_SPINLOCK_FUTURE_IMPL function w p).2.futures = w.futures := by
  obtain ⟨s, nl, d, l, c⟩ := P
  simp only [spinlock.at_rest] at hl hs hd
  cases nl <;>
    simp_all [basic_promise.BOOST_SPINLOCK_FUTURE_IMPL,
      lock_guard.of_promise, lock_guard.leave, lock_guard.unlock, lock_guard.unlock_p,
      lock_guard.unlock_f, World.set_promise, World.set_future, World.count_acquisition,
      value_storage.type, value_storage.clear, basic_future.empty]

/-- Moving from a promise whose guard is free returns and leaves the source with an empty
carrier and all else as it was; its lock is at rest again. -/
theorem move_construct_source (w : World T) (a o : Nat) (P : basic_promise T)
    (hP : w.promises o = some P) (hg : promise_guard_free w P) (ha : a ≠ o) :
    (basic_promise.move_construct w a o).1 = .returned () ∧
    (basic_promise.move_construct w a o).2.promises o = some { P with _storage := .empty } := by
  obtain ⟨hl, hg⟩ := hg
  obtain ⟨s, nl, d, l, c⟩ := P
  simp only [spinlock.at_rest] at hl hg
  have ha' : ¬ o = a := fun h => ha h.symm
  cases s with
  | pointer f =>
    obtain ⟨F, hF, hFl, hn⟩ := hg f rfl
    obtain ⟨fs, fnl, fl, fp, fc⟩ := F
    simp only [spinlock.at_rest] at hFl hn
    cases nl <;> cases fnl <;>
    simp_all [basic_promise.move_construct,
      lock_guard.of_promise, lock_guard.leave, lock_guard.unlock, lock_guard.unlock_p,
      lock_guard.unlock_f, World.set_promise, World.set_future, World.count_acquisition,
      World.count_construction]
  | _ =>
    cases nl <;>
    simp_all [basic_promise.move_construct,
      lock_guard.of_promise, lock_guard.leave, lock_guard.unlock, lock_guard.unlock_p,
      lock_guard.unlock_f, World.set_promise, World.set_future, World.count_acquisition,
      World.count_construction]

/-- A returned move that left the source empty and otherwise unchanged, with its lock at
rest, leaves it as `moved_from` says. -/
theorem moved_from_of (r : Outcome Unit × World T) (o : Nat) (P : basic_promise T) (v : T)
    (e : error_code) (x : exception_ptr) (h1 : r.1 = .returned ())
    (h2 : r.2.promises o = some { P with _storage := .empty })
    (hl : spinlock.at_rest P._need_locks P._lock) : moved_from r o P v e x := by
  refine ⟨h1, h2, fun hd => ⟨?_, ?_, ?_⟩, fun hd => ?_⟩
  · have h := impl_local (fun s => s.set_value v) (.value v) rfl r.2 o _ h2 rfl hd hl
    exact ⟨h.1, h.2.1⟩
  · have h := impl_local (fun s => s.set_error e) (.error e) rfl r.2 o _ h2 rfl hd hl
    exact ⟨h.1, h.2.1⟩
  · have h := impl_local (fun s => s.set_exception x) (.exception x) rfl r.2 o _ h2 rfl hd hl
    exact ⟨h.1, h.2.1⟩
  · have hs : promise_set r.2 o := ⟨_, h2, hl, Or.inl ⟨hd, rfl⟩⟩
    exact ⟨(impl_set _ r.2 o hs).2.1, (impl_set _ r.2 o hs).2.1, (impl_set _ r.2 o hs).2.1⟩

/-- The promise of `world_fresh`. -/
theorem world_fresh_promise :
    world_fresh.promises 0
      = some { _storage := .empty, _need_locks := false, _detached := false,
               _lock := .unconstructed, is_consuming := true } := by
  simp [world_fresh, basic_promise.construct, World.set_promise]

/-- The promise of `world_pending`. -/
theorem world_pending_promise :
    world_pending.promises 0
      = some { _storage := .pointer 0, _need_locks := true, _detached := false,
               _lock := .unlocked, is_consuming := true } := by
  simp [world_pending, world_fresh, basic_promise.construct, basic_promise.get_future,
    basic_future.of_promise, lock_guard.of_promise, lock_guard.leave, lock_guard.unlock,
    lock_guard.unlock_p, lock_guard.unlock_f, World.set_promise, World.set_future, World.empty,
    World.count_acquisition, World.count_construction,
    value_storage.set_pointer, value_storage.clear, value_storage.type, basic_future.empty]

/-- The future of `world_pending`. -/
theorem world_pending_future :
    world_pending.futures 0
      = some { _storage := .empty, _need_locks := true, _lock := .unlocked,
               _promise := some 0, is_consuming := true } := by
  simp [world_pending, world_fresh, basic_promise.construct, basic_promise.get_future,
    basic_future.of_promise, lock_guard.of_promise, lock_guard.leave, lock_guard.unlock,
    lock_guard.unlock_p, lock_guard.unlock_f, World.set_promise, World.set_future, World.empty,
    World.count_acquisition, World.count_construction,
    value_storage.set_pointer, value_storage.clear, value_storage.type, basic_future.empty]

/-- The future of `world_error_future`. -/
theorem world_error_future_future :
    world_error_future.futures 0
      = some { _storage := .error ⟨5, .generic⟩, _need_locks := false, _lock := .unconstructed,
               _promise := none, is_consuming := true } := by
  simp [world_error_future, world_fresh, basic_promise.construct, basic_promise.set_error,
    basic_promise.BOOST_SPINLOCK_FUTURE_IMPL, basic_promise.get_future,
    basic_future.of_promise, lock_guard.of_promise, lock_guard.leave, lock_guard.unlock,
    lock_guard.unlock_p, lock_guard.unlock_f, World.set_promise, World.set_future, World.empty,
    value_storage.set_error, value_storage.clear, value_storage.type, basic_future.empty]

/-- Move constructing from a future that can be moved from returns, leaves the new future
equal to the old one, the old one empty with a null back-pointer, and an attached promise
pointing to the new address. -/
theorem future_move_construct_post (w : World T) (a f : Nat) (F : basic_future T)
    (hF : w.futures f = some F) (ha : a ≠ f) (hm : future_movable w F) :
    (basic_future.move_construct w a f).1 = .returned () ∧
    (basic_future.move_construct w a f).2.futures a = some F ∧
    (basic_future.move_construct w a f).2.futures f
      = some { F with _storage := .empty, _promise := none } ∧
    (∀ p P, F._promise = some p → w.promises p = some P →
      (basic_future.move_construct w a f).2.promises p
        = some { P with _storage := .pointer a }) := by
  obtain ⟨⟨hl, hg⟩, hm⟩ := hm
  obtain ⟨fs, fnl, fl, fp, fc⟩ := F
  simp only [spinlock.at_rest] at hl hg hm
  have ha' : ¬ f = a := fun h => ha h.symm
  cases fp with
  | none =>
    clear hm hg
    have key : (basic_future.move_construct w a f).1 = .returned () ∧
        (basic_future.move_construct w a f).2.futures a
          = some { _storage := fs, _need_locks := fnl, _lock := fl, _promise := none,
                   is_consuming := fc } ∧
        (basic_future.move_construct w a f).2.futures f
          = some { _storage := .empty, _need_locks := fnl, _lock := fl, _promise := none,
                   is_consuming := fc } := by
      cases fnl <;>
      simp_all [basic_future.move_construct,
        lock_guard.of_future, lock_guard.leave, lock_guard.unlock, lock_guard.unlock_p,
        lock_guard.unlock_f, World.set_promise, World.set_future, World.count_acquisition,
        World.count_construction]
    exact ⟨key.1, key.2.1, key.2.2, fun p P hp => nomatch hp⟩
  | some p =>
    obtain ⟨P, hP, hPl, hn⟩ := hg p rfl
    obtain ⟨g, hPs⟩ := hm p P rfl hP
    clear hm hg
    obtain ⟨s, nl, d, l, c⟩ := P
    simp only [spinlock.at_rest] at hPl hn hPs
    subst hPs
    have key : (basic_future.move_construct w a f).1 = .returned () ∧
        (basic_future.move_construct w a f).2.futures a
          = some { _storage := fs, _need_locks := fnl, _lock := fl, _promise := some p,
                   is_consuming := fc } ∧
        (basic_future.move_construct w a f).2.futures f
          = some { _storage := .empty, _need_locks := fnl, _lock := fl, _promise := none,
                   is_consuming := fc } ∧
        (basic_future.move_construct w a f).2.promises p
          = some { _storage := .pointer a, _need_locks := nl, _detached := d, _lock := l,
                   is_consuming := c } := by
      cases fnl <;> cases nl <;>
      simp_all [basic_future.move_construct,
        lock_guard.of_future, lock_guard.leave, lock_guard.unlock, lock_guard.unlock_p,
        lock_guard.unlock_f, World.set_promise, World.set_future, World.count_acquisition,
        World.count_construction]
    refine ⟨key.1, key.2.1, key.2.2.1, ?_⟩
    intro p' P' hp' hP'
    cases hp'
    rw [hP] at hP'
    cases hP'
    exact key.2.2.2

set_option maxHeartbeats 1600000 in
/-- Promise swap when both carriers point to (distinct) futures. -/
theorem promise_swap_both (w : World T) (a b fa fb : Nat) (nla da ca nlb db cb : Bool)
    (FA FB : basic_future T) (hab : a ≠ b) (hf : fa ≠ fb)
    (hA : w.promises a
      = some { _storage := .pointer fa, _need_locks := nla, _detached := da,
               _lock := (if nla then .unlocked else .unconstructed), is_consuming := ca })
    (hB : w.promises b
      = some { _storage := .pointer fb, _need_locks := nlb, _detached := db,
               _lock := (if nlb then .unlocked else .unconstructed), is_consuming := cb })
    (hFA : w.futures fa = some FA) (hFB : w.futures fb = some FB)
    (hlA : spinlock.at_rest FA._need_locks FA._lock)
    (hlB : spinlock.at_rest FB._need_locks FB._lock)
    (hna : nla = true → FA._need_locks = true) (hnb : nlb = true → FB._need_locks = true) :
    (basic_promise.swap w a b).1 = .returned () ∧
    (basic_promise.swap w a b).2.promises a
      = some { _storage := .pointer fb, _need_locks := nla, _detached := da,
               _lock := (if nla then .unlocked else .unconstructed), is_consuming := ca } ∧
    (basic_promise.swap w a b).2.promises b
      = some { _storage := .pointer fa, _need_locks := nlb, _detached := db,
               _lock := (if nlb then .unlocked else .unconstructed), is_consuming := cb } ∧
    (basic_promise.swap w a b).2.futures fa = some { FA with _promise := some b } ∧
    (basic_promise.swap w a b).2.futures fb = some { FB with _promise := some a } := by
  obtain ⟨fas, fanl, fal, fap, fac⟩ := FA
  obtain ⟨fbs, fbnl, fbl, fbp, fbc⟩ := FB
  simp only [spinlock.at_rest] at hlA hlB hna hnb
  have hba : ¬ b = a := fun h => hab h.symm
  have hf' : ¬ fb = fa := fun h => hf h.symm
  cases nla <;> cases nlb <;> cases fanl <;> cases fbnl <;>
  simp_all [basic_promise.swap,
    lock_guard.of_promise, lock_guard.leave, lock_guard.unlock, lock_guard.unlock_p,
    lock_guard.unlock_f, World.set_promise, World.set_future, World.count_acquisition]

set_option maxHeartbeats 1600000 in
/-- Promise swap when only the first carrier points to a future. -/
theorem promise_swap_first (w : World T) (a b fa : Nat) (nla da ca nlb db cb : Bool)
    (sb : value_storage T) (FA : basic_future T) (hab : a ≠ b)
    (hsb : ∀ f, sb ≠ .pointer f)
    (hA : w.promises a
      = some { _storage := .pointer fa, _need_locks := nla, _detached := da,
               _lock := (if nla then .unlocked else .unconstructed), is_consuming := ca })
    (hB : w.promises b
      = some { _storage := sb, _need_locks := nlb, _detached := db,
               _lock := (if nlb then .unlocked else .unconstructed), is_consuming := cb })
    (hFA : w.futures fa = some FA)
    (hlA : spinlock.at_rest FA._need_locks FA._lock)
    (hna : nla = true → FA._need_locks = true) :
    (basic_promise.swap w a b).1 = .returned () ∧
    (basic_promise.swap w a b).2.promises a
      = some { _storage := sb, _need_locks := nla, _detached := da,
               _lock := (if nla then .unlocked else .unconstructed), is_consuming := ca } ∧
    (basic_promise.swap w a b).2.promises b
      = some { _storage := .pointer fa, _need_locks := nlb, _detached := db,
               _lock := (if nlb then .unlocked else .unconstructed), is_consuming := cb } ∧
    (basic_promise.swap w a b).2.futures fa = some { FA with _promise := some b } := by
  obtain ⟨fas, fanl, fal, fap, fac⟩ := FA
  simp only [spinlock.at_rest] at hlA hna
  have hba : ¬ b = a := fun h => hab h.symm
  cases sb <;> cases nla <;> cases nlb <;> cases fanl <;>
  simp_all [basic_promise.swap,
    lock_guard.of_promise, lock_guard.leave, lock_guard.unlock, lock_guard.unlock_p,
    lock_guard.unlock_f, World.set_promise, World.set_future, World.count_acquisition]

set_option maxHeartbeats 1600000 in
/-- Promise swap when only the second carrier points to a future. -/
theorem promise_swap_second (w : World T) (a b fb : Nat) (nla da ca nlb db cb : Bool)
    (sa : value_storage T) (FB : basic_future T) (hab : a ≠ b)
    (hsa : ∀ f, sa ≠ .pointer f)
    (hA : w.promises a
      = some { _storage := sa, _need_locks := nla, _detached := da,
               _lock := (if nla then .unlocked else .unconstructed), is_consuming := ca })
    (hB : w.promises b
      = some { _storage := .pointer fb, _need_locks := nlb, _detached := db,
               _lock := (if nlb then .unlocked else .unconstructed), is_consuming := cb })
    (hFB : w.futures fb = some FB)
    (hlB : spinlock.at_rest FB._need_locks FB._lock)
    (hnb : nlb = true → FB._need_locks = true) :
    (basic_promise.swap w a b).1 = .returned () ∧
    (basic_promise.swap w a b).2.promises a
      = some { _storage := .pointer fb, _need_locks := nla, _detached := da,
               _lock := (if nla then .unlocked else .unconstructed), is_consuming := ca } ∧
    (basic_promise.swap w a b).2.promises b
      = some { _storage := sa, _need_locks := nlb, _detached := db,
               _lock := (if nlb then .unlocked else .unconstructed), is_consuming := cb } ∧
    (basic_promise.swap w a b).2.futures fb = some { FB with _promise := some a } := by
  obtain ⟨fbs, fbnl, fbl, fbp, fbc⟩ := FB
  simp only [spinlock.at_rest] at hlB hnb
  have hba : ¬ b = a := fun h => hab h.symm
  cases sa <;> cases nla <;> cases nlb <;> cases fbnl <;>
  simp_all [basic_promise.swap,
    lock_guard.of_promise, lock_guard.leave, lock_guard.unlock, lock_guard.unlock_p,
    lock_guard.unlock_f, World.set_promise, World.set_future, World.count_acquisition]

set_option maxHeartbeats 1600000 in
/-- Promise swap when neither carrier points to a future. -/
theorem promise_swap_neither (w : World T) (a b : Nat) (nla da ca nlb db cb : Bool)
    (sa sb : value_storage T) (hab : a ≠ b)
    (hsa : ∀ f, sa ≠ .pointer f) (hsb : ∀ f, sb ≠ .pointer f)
    (hA : w.promises a
      = some { _storage := sa, _need_locks := nla, _detached := da,
               _lock := (if nla then .unlocked else .unconstructed), is_consuming := ca })
    (hB : w.promises b
      = some { _storage := sb, _need_locks := nlb, _detached := db,
               _lock := (if nlb then .unlocked else .unconstructed), is_consuming := cb }) :
    (basic_promise.swap w a b).1 = .returned () ∧
    (basic_promise.swap w a b).2.promises a
      = some { _storage := sb, _need_locks := nla, _detached := da,
               _lock := (if nla then .unlocked else .unconstructed), is_consuming := ca } ∧
    (basic_promise.swap w a b).2.promises b
      = some { _storage := sa, _need_locks := nlb, _detached := db,
               _lock := (if nlb then .unlocked else .unconstructed), is_consuming := cb } := by
  have hba : ¬ b = a := fun h => hab h.symm
  cases nla <;> cases nlb <;> cases sa <;> cases sb <;>
  simp_all [basic_promise.swap,
    lock_guard.of_promise, lock_guard.leave, lock_guard.unlock, lock_guard.unlock_p,
    lock_guard.unlock_f, World.set_promise, World.set_future, World.count_acquisition]

/-- What `same_data` says of one promise. -/
theorem same_data_promise {w w1 : World T} (h : w.same_data w1) {q : Nat}
    {P1 : basic_promise T} (h1 : w1.promises q = some P1) :
    ∃ P, w.promises q = some P ∧ P1._storage = P._storage ∧
      P1._need_locks = P._need_locks ∧ P1._detached = P._detached ∧
      P1.is_consuming = P.is_consuming := by
  have hq := h.1 q
  rw [h1] at hq
  cases hP : w.promises q with
  | none => rw [hP] at hq; simp at hq
  | some P =>
    rw [hP] at hq
    simp only [Option.map_some', Option.some.injEq, basic_promise.lockless] at hq
    obtain ⟨s, nl, d, l, c⟩ := P
    obtain ⟨s1, nl1, d1, l1, c1⟩ := P1
    simp only [basic_promise.mk.injEq] at hq
    exact ⟨_, rfl, hq.1, hq.2.1, hq.2.2.1, hq.2.2.2.2⟩

/-- What `same_data` says of one future. -/
theorem same_data_future {w w1 : World T} (h : w.same_data w1) {g : Nat}
    {F1 : basic_future T} (h1 : w1.futures g = some F1) :
    ∃ F, w.futures g = some F ∧ F1._storage = F._storage ∧
      F1._need_locks = F._need_locks ∧ F1._promise = F._promise ∧
      F1.is_consuming = F.is_consuming := by
  have hq := h.2 g
  rw [h1] at hq
  cases hF : w.futures g with
  | none => rw [hF] at hq; simp at hq
  | some F =>
    rw [hF] at hq
    simp only [Option.map_some', Option.some.injEq, basic_future.lockless] at hq
    obtain ⟨s, nl, l, p, c⟩ := F
    obtain ⟨s1, nl1, l1, p1, c1⟩ := F1
    simp only [basic_future.mk.injEq] at hq
    exact ⟨_, rfl, hq.1, hq.2.1, hq.2.2.2.1, hq.2.2.2.2⟩

/-- The relation `same_data` is reflexive. -/
theorem same_data_refl (w : World T) : w.same_data w := ⟨fun _ => rfl, fun _ => rfl⟩

/-- The relation `same_data` is transitive. -/
theorem same_data_trans {w w1 w2 : World T} (h1 : w.same_data w1) (h2 : w1.same_data w2) :
    w.same_data w2 :=
  ⟨fun q => (h2.1 q).trans (h1.1 q), fun g => (h2.2 g).trans (h1.2 g)⟩

/-- Setting the lock of a promise keeps the data. -/
theorem same_data_lock_promise (w : World T) (p : Nat) (P : basic_promise T) (l : spinlock)
    (hP : w.promises p = some P) :
    w.same_data (w.set_promise p (some { P with _lock := l })) := by
  refine ⟨fun q => ?_, fun _ => rfl⟩
  by_cases hq : q = p
  · subst hq; simp [World.set_promise, hP, basic_promise.lockless]
  · simp [World.set_promise, hq]

/-- Setting the lock of a future keeps the data. -/
theorem same_data_lock_future (w : World T) (f : Nat) (F : basic_future T) (l : spinlock)
    (hF : w.futures f = some F) :
    w.same_data (w.set_future f (some { F with _lock := l })) := by
  refine ⟨fun _ => rfl, fun g => ?_⟩
  by_cases hg : g = f
  · subst hg; simp [World.set_future, hF, basic_future.lockless]
  · simp [World.set_future, hg]

/-- Counting an acquisition keeps the data. -/
theorem same_data_count (w : World T) : w.same_data w.count_acquisition :=
  ⟨fun _ => rfl, fun _ => rfl⟩

/-- Taking the guard from a promise keeps the data; the guard records the promise, and a
future exactly when the carrier of the promise points to one. -/
theorem of_promise_spec {w w1 : World T} {p : Nat} {h : lock_guard}
    (hacq : lock_guard.of_promise w p = .acquired h w1) :
    w.same_data w1 ∧ h._p = some p ∧
    ∃ P, w.promises p = some P ∧
      h._f = (match P._storage with | .pointer f => some f | _ => none) := by
  unfold lock_guard.of_promise at hacq
  cases hP : w.promises p with
  | none => simp [hP] at hacq
  | some P =>
    obtain ⟨s, nl, d, l, c⟩ := P
    simp only [hP] at hacq
    cases nl with
    | false =>
      cases s <;> simp at hacq <;> obtain ⟨rfl, rfl⟩ := hacq <;>
        exact ⟨same_data_refl _, rfl, _, rfl, rfl⟩
    | true =>
      cases l with
      | unconstructed => simp at hacq
      | locked => simp at hacq
      | unlocked =>
        have h1 := same_data_trans
          (same_data_lock_promise w p _ .locked hP) (same_data_count _)
        cases s with
        | pointer f =>
          simp only [Bool.not_true, Bool.false_eq_true, ↓reduceIte] at hacq
          split at hacq
          · cases hacq
          · rename_i F hF
            split at hacq
            · cases hacq
            · cases hacq
            · simp only [Acquire.acquired.injEq] at hacq
              obtain ⟨rfl, rfl⟩ := hacq
              exact ⟨same_data_trans h1 (same_data_trans
                (same_data_lock_future _ f F .locked hF) (same_data_count _)), rfl, _, rfl, rfl⟩
        | _ =>
          simp at hacq
          obtain ⟨rfl, rfl⟩ := hacq
          exact ⟨h1, rfl, _, rfl, rfl⟩

/-- Taking the guard from a future keeps the data; the guard records the future and the
promise the future points back to. -/
theorem of_future_spec {w w1 : World T} {f : Nat} {h : lock_guard}
    (hacq : lock_guard.of_future w f = .acquired h w1) :
    w.same_data w1 ∧ h._f = some f ∧ ∃ F, w.futures f = some F ∧ h._p = F._promise := by
  unfold lock_guard.of_future at hacq
  cases hF : w.futures f with
  | none => simp [hF] at hacq
  | some F =>
    obtain ⟨s, nl, l, fp, c⟩ := F
    simp only [hF] at hacq
    cases nl with
    | false =>
      simp at hacq
      obtain ⟨rfl, rfl⟩ := hacq
      exact ⟨same_data_refl _, rfl, _, rfl, rfl⟩
    | true =>
      cases l with
      | unconstructed => simp at hacq
      | locked => simp at hacq
      | unlocked =>
        have h1 := same_data_trans
          (same_data_lock_future w f _ .locked hF) (same_data_count _)
        cases fp with
        | some p =>
          simp only [Bool.not_true, Bool.false_eq_true, ↓reduceIte] at hacq
          split at hacq
          · cases hacq
          · rename_i P hP
            split at hacq
            · cases hacq
            · cases hacq
            · simp only [Acquire.acquired.injEq] at hacq
              obtain ⟨rfl, rfl⟩ := hacq
              exact ⟨same_data_trans h1 (same_data_trans
                (same_data_lock_promise _ p P .locked hP) (same_data_count _)), rfl, _, rfl, rfl⟩
        | none =>
          simp at hacq
          obtain ⟨rfl, rfl⟩ := hacq
          exact ⟨h1, rfl, _, rfl, rfl⟩

/-- Releasing the promise half of a guard keeps the data. -/
theorem unlock_p_same_data {w w1 : World T} {h : lock_guard}
    (hu : h.unlock_p w = some w1) : w.same_data w1 := by
  unfold lock_guard.unlock_p at hu
  split at hu
  · cases hu; exact same_data_refl _
  · split at hu
    · cases hu
    · rename_i P hP
      split at hu
      · split at hu
        · cases hu
        · cases hu; exact same_data_lock_promise _ _ P .unlocked hP
      · cases hu; exact same_data_refl _

/-- Releasing the future half of a guard keeps the data. -/
theorem unlock_f_same_data {w w1 : World T} {h : lock_guard}
    (hu : h.unlock_f w = some w1) : w.same_data w1 := by
  unfold lock_guard.unlock_f at hu
  split at hu
  · cases hu; exact same_data_refl _
  · split at hu
    · cases hu
    · rename_i F hF
      split at hu
      · split at hu
        · cases hu
        · cases hu; exact same_data_lock_future _ _ F .unlocked hF
      · cases hu; exact same_data_refl _

/-- Releasing a guard keeps the data. -/
theorem unlock_same_data {w w1 : World T} {h : lock_guard}
    (hu : h.unlock w = some w1) : w.same_data w1 := by
  unfold lock_guard.unlock at hu
  split at hu
  · cases hu
  · rename_i w0 h0
    exact same_data_trans (unlock_p_same_data h0) (unlock_f_same_data hu)

/-- Leaving the scope of a guard keeps the data. -/
theorem leave_same_data {α : Type} (h : lock_guard) (w : World T) (o : Outcome α) :
    w.same_data (h.leave w o).2 := by
  unfold lock_guard.leave
  split
  · exact same_data_refl _
  · rename_i w1 h1
    exact unlock_same_data h1

/-- Nothing changed: the frame holds. -/
theorem frame_refl (bp bf : Option Nat) (w : World T) : frame bp bf w w :=
  ⟨fun _ P1 h1 _ => ⟨P1, h1, rfl⟩, fun _ F1 h1 _ => ⟨F1, h1, rfl⟩, fun h => h⟩

/-- Frames compose. -/
theorem frame_trans {bp bf : Option Nat} {w w1 w2 : World T} (h1 : frame bp bf w w1)
    (h2 : frame bp bf w1 w2) : frame bp bf w w2 := by
  refine ⟨fun q P2 hq hb => ?_, fun g F2 hg hb => ?_, fun h => h2.2.2 (h1.2.2 h)⟩
  · obtain ⟨P1, hP1, e1⟩ := h2.1 q P2 hq hb
    obtain ⟨P, hP, e⟩ := h1.1 q P1 hP1 hb
    exact ⟨P, hP, e1.trans e⟩
  · obtain ⟨F1, hF1, e1⟩ := h2.2.1 g F2 hg hb
    obtain ⟨F, hF, e⟩ := h1.2.1 g F1 hF1 hb
    exact ⟨F, hF, e1.trans e⟩

/-- Worlds with the same data are in every frame. -/
theorem frame_of_same_data (bp bf : Option Nat) {w w1 : World T} (h : w.same_data w1) :
    frame bp bf w w1 := by
  refine ⟨fun q P1 hq _ => ?_, fun g F1 hg _ => ?_, fun hn g F1 k hg => ?_⟩
  · obtain ⟨P, hP, _, e, _⟩ := same_data_promise h hq
    exact ⟨P, hP, e⟩
  · obtain ⟨F, hF, _, e, _⟩ := same_data_future h hg
    exact ⟨F, hF, e⟩
  · obtain ⟨F, hF, e, _⟩ := same_data_future h hg
    rw [e]
    exact hn g F k hF

/-- Leaving the scope of a guard is in every frame. -/
theorem frame_leave {α : Type} (bp bf : Option Nat) (h : lock_guard) (w : World T)
    (o : Outcome α) : frame bp bf w (h.leave w o).2 :=
  frame_of_same_data bp bf (leave_same_data h w o)

/-- Rewriting a promise without touching its `_need_locks`. -/
theorem frame_set_promise (bp bf : Option Nat) (w : World T) (p : Nat)
    (P P1 : basic_promise T) (hP : w.promises p = some P)
    (e : P1._need_locks = P._need_locks) : frame bp bf w (w.set_promise p (some P1)) := by
  refine ⟨fun q Q hq _ => ?_, fun g F1 hg _ => ⟨F1, hg, rfl⟩, fun h => h⟩
  by_cases hqp : q = p
  · subst hqp
    simp only [World.set_promise, ↓reduceIte, Option.some.injEq] at hq
    subst hq
    exact ⟨P, hP, e⟩
  · simp only [World.set_promise, hqp, ↓reduceIte] at hq
    exact ⟨Q, hq, rfl⟩

/-- Writing the promise that the frame exempts. -/
theorem frame_build_promise (bf : Option Nat) (w : World T) (p : Nat)
    (X : Option (basic_promise T)) : frame (some p) bf w (w.set_promise p X) := by
  refine ⟨fun q Q hq hb => ?_, fun g F1 hg _ => ⟨F1, hg, rfl⟩, fun h => h⟩
  have hqp : ¬ q = p := fun h => hb (by rw [h])
  simp only [World.set_promise, hqp, ↓reduceIte] at hq
  exact ⟨Q, hq, rfl⟩

/-- Removing a promise. -/
theorem frame_remove_promise (bp bf : Option Nat) (w : World T) (p : Nat) :
    frame bp bf w (w.set_promise p none) := by
  refine ⟨fun q Q hq _ => ?_, fun g F1 hg _ => ⟨F1, hg, rfl⟩, fun h => h⟩
  by_cases hqp : q = p
  · subst hqp
    simp [World.set_promise] at hq
  · simp only [World.set_promise, hqp, ↓reduceIte] at hq
    exact ⟨Q, hq, rfl⟩

/-- Rewriting a future without touching its `_need_locks` and without putting a pointer
into its carrier. -/
theorem frame_set_future (bp bf : Option Nat) (w : World T) (f : Nat)
    (F F1 : basic_future T) (hF : w.futures f = some F)
    (e : F1._need_locks = F._need_locks)
    (hs : no_pointer_in_future w → ∀ g, F1._storage ≠ .pointer g) :
    frame bp bf w (w.set_future f (some F1)) := by
  refine ⟨fun q Q hq _ => ⟨Q, hq, rfl⟩, fun g G hg _ => ?_, fun hn g G k hg => ?_⟩
  · by_cases hgf : g = f
    · subst hgf
      simp only [World.set_future, ↓reduceIte, Option.some.injEq] at hg
      subst hg
      exact ⟨F, hF, e⟩
    · simp only [World.set_future, hgf, ↓reduceIte] at hg
      exact ⟨G, hg, rfl⟩
  · by_cases hgf : g = f
    · subst hgf
      simp only [World.set_future, ↓reduceIte, Option.some.injEq] at hg
      subst hg
      exact hs hn k
    · simp only [World.set_future, hgf, ↓reduceIte] at hg
      exact hn g G k hg

/-- Writing the future that the frame exempts, without a pointer in its carrier. -/
theorem frame_build_future (bp : Option Nat) (w : World T) (f : Nat) (X : basic_future T)
    (hs : no_pointer_in_future w → ∀ g, X._storage ≠ .pointer g) :
    frame bp (some f) w (w.set_future f (some X)) := by
  refine ⟨fun q Q hq _ => ⟨Q, hq, rfl⟩, fun g G hg hb => ?_, fun hn g G k hg => ?_⟩
  · have hgf : ¬ g = f := fun h => hb (by rw [h])
    simp only [World.set_future, hgf, ↓reduceIte] at hg
    exact ⟨G, hg, rfl⟩
  · by_cases hgf : g = f
    · subst hgf
      simp only [World.set_future, ↓reduceIte, Option.some.injEq] at hg
      subst hg
      exact hs hn k
    · simp only [World.set_future, hgf, ↓reduceIte] at hg
      exact hn g G k hg

/-- Removing a future. -/
theorem frame_remove_future (bp bf : Option Nat) (w : World T) (f : Nat) :
    frame bp bf w (w.set_future f none) := by
  refine ⟨fun q Q hq _ => ⟨Q, hq, rfl⟩, fun g G hg _ => ?_, fun hn g G k hg => ?_⟩
  · by_cases hgf : g = f
    · subst hgf
      simp [World.set_future] at hg
    · simp only [World.set_future, hgf, ↓reduceIte] at hg
      exact ⟨G, hg, rfl⟩
  · by_cases hgf : g = f
    · subst hgf
      simp [World.set_future] at hg
    · simp only [World.set_future, hgf, ↓reduceIte] at hg
      exact hn g G k hg

/-- Counting a construction is in every frame. -/
theorem frame_count_construction (bp bf : Option Nat) (w : World T) :
    frame bp bf w w.count_construction :=
  ⟨fun _ P1 h1 _ => ⟨P1, h1, rfl⟩, fun _ F1 h1 _ => ⟨F1, h1, rfl⟩, fun h => h⟩

/-- A setter stays in every frame. -/
theorem impl_frame (bp bf : Option Nat) (function : value_storage T → Option (value_storage T))
    (hfn : ∀ s r g, function s = some r → r ≠ .pointer g) (w : World T) (p : Nat) :
    frame bp bf w (basic_promise.BOOST_SPINLOCK_FUTURE_IMPL function w p).2 := by
  unfold basic_promise.BOOST_SPINLOCK_FUTURE_IMPL
  cases hacq : lock_guard.of_promise w p with
  | hang => exact frame_refl _ _ _
  | undefined => exact frame_refl _ _ _
  | acquired h w1 =>
    obtain ⟨hs, -, -⟩ := of_promise_spec hacq
    refine frame_trans (frame_of_same_data bp bf hs) ?_
    simp only
    split
    · exact frame_refl _ _ _
    · rename_i P hP
      split
      · exact frame_refl _ _ _
      · split
        · exact frame_leave _ _ _ _ _
        · split
          · rename_i f hf
            split
            · exact frame_refl _ _ _
            · rename_i F hF
              split
              · exact frame_refl _ _ _
              · split
                · exact frame_leave _ _ _ _ _
                · split
                  · exact frame_refl _ _ _
                  · rename_i s hfs
                    have h1 : frame bp bf w1
                        (w1.set_future f (some { F with _storage := s, _promise := none })) :=
                      frame_set_future bp bf w1 f F _ hF rfl (fun _ g => hfn _ _ g hfs)
                    have h2 : frame bp bf
                        (w1.set_future f (some { F with _storage := s, _promise := none }))
                        ((w1.set_future f
                          (some { F with _storage := s, _promise := none })).set_promise p
                          (some { P with _storage := P._storage.clear, _detached := true })) :=
                      frame_set_promise bp bf _ p P _ hP rfl
                    exact frame_trans h1 (frame_trans h2 (frame_leave _ _ _ _ _))
          · split
            · exact frame_leave _ _ _ _ _
            · split
              · exact frame_refl _ _ _
              · rename_i s hfs
                have h1 : frame bp bf w1 (w1.set_promise p (some { P with _storage := s })) :=
                  frame_set_promise bp bf _ p P _ hP rfl
                exact frame_trans h1 (frame_leave _ _ _ _ _)

/-- The destructor of a promise stays in every frame. -/
theorem promise_destroy_frame (bp bf : Option Nat) (w : World T) (p : Nat) :
    frame bp bf w (basic_promise.destroy w p).2 := by
  unfold basic_promise.destroy
  split
  · exact frame_refl _ _ _
  · rename_i P hP
    split
    · cases hacq : lock_guard.of_promise w p with
      | hang => exact frame_refl _ _ _
      | undefined => exact frame_refl _ _ _
      | acquired h w1 =>
        obtain ⟨hs, -, -⟩ := of_promise_spec hacq
        refine frame_trans (frame_of_same_data bp bf hs) ?_
        simp only
        generalize hbr : (match h._f with
          | none => ((Outcome.returned (), w1) : Outcome Unit × World T)
          | some f =>
            match w1.futures f with
            | none => (.undefined, w1)
            | some F =>
              if !F.is_ready then
                match F._storage.set_error (make_error_code .broken_promise) with
                | none => (.aborted, w1)
                | some s =>
                  (.returned (), w1.set_future f (some { F with _storage := s, _promise := none }))
              else (.returned (), w1.set_future f (some { F with _promise := none }))) = broken
        have hb : frame bp bf w1 broken.2 := by
          rw [← hbr]
          split
          · exact frame_refl _ _ _
          · rename_i f hf
            split
            · exact frame_refl _ _ _
            · rename_i F hF
              split
              · split
                · exact frame_refl _ _ _
                · rename_i s hse
                  refine frame_set_future bp bf w1 f F _ hF rfl (fun _ g => ?_)
                  cases hFs : F._storage <;> rw [hFs] at hse <;>
                    simp [value_storage.set_error] at hse
                  subst hse
                  simp
              · exact frame_set_future bp bf w1 f F _ hF rfl (fun hn g => hn f F g hF)
        obtain ⟨o, w2⟩ := broken
        simp only at hb
        cases o with
        | returned u =>
          simp only
          split
          · exact hb
          · rename_i P2 hP2
            have h3 : frame bp bf w2
                (w2.set_promise p (some { P2 with _storage := P2._storage.clear })) :=
              frame_set_promise bp bf w2 p P2 _ hP2 rfl
            split
            · exact frame_trans hb h3
            · rename_i w4 hu
              exact frame_trans hb (frame_trans h3 (frame_trans
                (frame_of_same_data bp bf (unlock_same_data hu))
                (frame_remove_promise bp bf w4 p)))
        | thrown e => exact hb
        | aborted => exact hb
        | hang => exact hb
        | undefined => exact hb
    · exact frame_remove_promise bp bf w p

/-- The destructor of a future stays in every frame. -/
theorem future_destroy_frame (bp bf : Option Nat) (w : World T) (f : Nat) :
    frame bp bf w (basic_future.destroy w f).2 := by
  unfold basic_future.destroy
  split
  · exact frame_refl _ _ _
  · rename_i F hF
    split
    · cases hacq : lock_guard.of_future w f with
      | hang => exact frame_refl _ _ _
      | undefined => exact frame_refl _ _ _
      | acquired h w1 =>
        obtain ⟨hs, -, -⟩ := of_future_spec hacq
        refine frame_trans (frame_of_same_data bp bf hs) ?_
        simp only
        generalize hcl : (match h._p with
          | none => some w1
          | some p =>
            match w1.promises p with
            | none => none
            | some P => some (w1.set_promise p (some { P with _storage := P._storage.clear })))
          = cleared
        cases cleared with
        | none => exact frame_refl _ _ _
        | some w2 =>
          have hc : frame bp bf w1 w2 := by
            split at hcl
            · cases hcl; exact frame_refl _ _ _
            · rename_i p hp
              split at hcl
              · cases hcl
              · rename_i P hP
                cases hcl
                exact frame_set_promise bp bf w1 p P _ hP rfl
          simp only
          split
          · exact hc
          · rename_i F2 hF2
            have h3 : frame bp bf w2
                (w2.set_future f (some { F2 with _storage := F2._storage.clear })) :=
              frame_set_future bp bf w2 f F2 _ hF2 rfl
                (fun _ g => by simp [value_storage.clear])
            split
            · exact frame_trans hc h3
            · rename_i w4 hu
              exact frame_trans hc (frame_trans h3 (frame_trans
                (frame_of_same_data bp bf (unlock_same_data hu))
                (frame_remove_future bp bf w4 f)))
    · exact frame_remove_future bp bf w f

/-- The consuming `_get_value` stays in every frame. -/
theorem consuming_get_frame (bp bf : Option Nat) (w : World T) (f : Nat) :
    frame bp bf w (future_policy._get_value w f).2 := by
  unfold future_policy._get_value
  split
  · cases hacq : lock_guard.of_future w f with
    | hang => exact frame_refl _ _ _
    | undefined => exact frame_refl _ _ _
    | acquired h w1 =>
      obtain ⟨hs, -, -⟩ := of_future_spec hacq
      refine frame_trans (frame_of_same_data bp bf hs) ?_
      simp only
      split
      · exact frame_refl _ _ _
      · rename_i F hF
        split
        · exact frame_leave _ _ _ _ _
        · split
          · have h3 : frame bp bf w1
                (w1.set_future f (some { F with _storage := F._storage.clear })) :=
              frame_set_future bp bf w1 f F _ hF rfl
                (fun _ g => by simp [value_storage.clear])
            exact frame_trans h3 (frame_leave _ _ _ _ _)
          · exact frame_refl _ _ _
  all_goals exact frame_refl _ _ _

/-- The shared `_get_value` stays in every frame. -/
theorem shared_get_frame (bp bf : Option Nat) (w : World T) (f : Nat) :
    frame bp bf w (shared_future_policy._get_value w f).2 := by
  unfold shared_future_policy._get_value
  split
  · cases hacq : lock_guard.of_future w f with
    | hang => exact frame_refl _ _ _
    | undefined => exact frame_refl _ _ _
    | acquired h w1 =>
      obtain ⟨hs, -, -⟩ := of_future_spec hacq
      refine frame_trans (frame_of_same_data bp bf hs) ?_
      simp only
      split
      · exact frame_refl _ _ _
      · split
        · exact frame_leave _ _ _ _ _
        · split
          · exact frame_leave _ _ _ _ _
          · exact frame_refl _ _ _
  all_goals exact frame_refl _ _ _

/-- The member `get()` stays in every frame. -/
theorem get_frame (bp bf : Option Nat) (w : World T) (f : Nat) :
    frame bp bf w (basic_future.get w f).2 := by
  unfold basic_future.get
  split
  · exact frame_refl _ _ _
  · split
    · exact consuming_get_frame bp bf w f
    · exact shared_get_frame bp bf w f

/-- The statements of `_get_error_impl` stay in every frame. -/
theorem get_error_impl_frame (bp bf : Option Nat) (c : Bool) (w : World T) (f : Nat) :
    frame bp bf w (future_policy._get_error_impl_statements c w f).2 := by
  unfold future_policy._get_error_impl_statements
  split
  · cases hacq : lock_guard.of_future w f with
    | hang => exact frame_refl _ _ _
    | undefined => exact frame_refl _ _ _
    | acquired h w1 =>
      obtain ⟨hs, -, -⟩ := of_future_spec hacq
      refine frame_trans (frame_of_same_data bp bf hs) ?_
      simp only
      split
      · exact frame_refl _ _ _
      · rename_i F hF
        split
        · exact frame_leave _ _ _ _ _
        · split
          · refine frame_trans ?_ (frame_leave _ _ _ _ _)
            split
            · exact frame_set_future bp bf w1 f F _ hF rfl
                (fun _ g => by simp [value_storage.clear])
            · exact frame_refl _ _ _
          · exact frame_leave _ _ _ _ _
          · exact frame_leave _ _ _ _ _
  all_goals exact frame_refl _ _ _

/-- The statements of `_get_exception_impl` stay in every frame. -/
theorem get_exception_impl_frame (bp bf : Option Nat) (c : Bool) (w : World T) (f : Nat) :
    frame bp bf w (future_policy._get_exception_impl_statements c w f).2 := by
  unfold future_policy._get_exception_impl_statements
  split
  · cases hacq : lock_guard.of_future w f with
    | hang => exact frame_refl _ _ _
    | undefined => exact frame_refl _ _ _
    | acquired h w1 =>
      obtain ⟨hs, -, -⟩ := of_future_spec hacq
      refine frame_trans (frame_of_same_data bp bf hs) ?_
      simp only
      split
      · exact frame_refl _ _ _
      · rename_i F hF
        split
        · exact frame_leave _ _ _ _ _
        · split
          · refine frame_trans ?_ (frame_leave _ _ _ _ _)
            split
            · exact frame_set_future bp bf w1 f F _ hF rfl
                (fun _ g => by simp [value_storage.clear])
            · exact frame_refl _ _ _
          · refine frame_trans ?_ (frame_leave _ _ _ _ _)
            split
            · exact frame_set_future bp bf w1 f F _ hF rfl
                (fun _ g => by simp [value_storage.clear])
            · exact frame_refl _ _ _
          · exact frame_leave _ _ _ _ _
  all_goals exact frame_refl _ _ _

/-- The statements of `_get_error_impl`, run on a future, stay in every frame. -/
theorem get_error_frame (bp bf : Option Nat) (w : World T) (f : Nat) :
    frame bp bf w (basic_future.get_error_statements w f).2 := by
  unfold basic_future.get_error_statements
  split
  · exact frame_refl _ _ _
  · exact get_error_impl_frame bp bf _ w f

/-- The statements of `_get_exception_impl`, run on a future, stay in every frame. -/
theorem get_exception_frame (bp bf : Option Nat) (w : World T) (f : Nat) :
    frame bp bf w (basic_future.get_exception_statements w f).2 := by
  unfold basic_future.get_exception_statements
  split
  · exact frame_refl _ _ _
  · exact get_exception_impl_frame bp bf _ w f

/-- When the guard taken from a promise records no future, the carrier of the promise
holds no pointer. -/
theorem of_promise_no_future {w w1 : World T} {p : Nat} {h : lock_guard}
    (hacq : lock_guard.of_promise w p = .acquired h w1) (hf : h._f = none)
    {P1 : basic_promise T} (hP1 : w1.promises p = some P1) (g : Nat) :
    P1._storage ≠ .pointer g := by
  obtain ⟨hs, -, P, hP, hhf⟩ := of_promise_spec hacq
  obtain ⟨P0, hP0, e, -⟩ := same_data_promise hs hP1
  rw [hP] at hP0
  cases hP0
  rw [e]
  intro hp
  rw [hp, hf] at hhf
  cases hhf

/-- The constructor of a future from a promise whose carrier holds no pointer exempts the
new future and leaves all else alone. -/
theorem of_promise_frame (w : World T) (p a : Nat) (P : basic_promise T)
    (hP : w.promises p = some P) (hn : ∀ g, P._storage ≠ .pointer g) :
    frame none (some a) w (basic_future.of_promise w p a).2 := by
  unfold basic_future.of_promise
  rw [hP]
  obtain ⟨s, nl, d, l, c⟩ := P
  simp only at hn
  cases nl
  · simp only [Bool.false_eq_true, ↓reduceIte]
    split
    · exact frame_trans (frame_set_promise _ _ w p _ _ hP (by rfl))
        (frame_build_future _ _ a _ (fun _ g => by exact hn g))
    · split
      · exact frame_refl _ _ _
      · exact frame_trans (frame_set_promise _ _ w p _ _ hP (by rfl))
          (frame_build_future _ _ a _ (fun _ g => by exact hn g))
  · simp only [↓reduceIte]
    split
    · exact frame_trans (frame_count_construction _ _ w)
        (frame_trans (frame_set_promise _ _ w.count_construction p _ _ hP (by rfl))
          (frame_build_future _ _ a _ (fun _ g => by exact hn g)))
    · split
      · exact frame_count_construction _ _ w
      · exact frame_trans (frame_count_construction _ _ w)
          (frame_trans (frame_set_promise _ _ w.count_construction p _ _ hP (by rfl))
            (frame_build_future _ _ a _ (fun _ g => by exact hn g)))

/-- The member `get_future()` in two steps: first it may switch `_need_locks` on, in a
promise that has it off and an empty carrier; what follows exempts the new future and
leaves all else alone. -/
theorem get_future_steps (w : World T) (p a : Nat) :
    ∃ w0, (w0 = w ∨ ∃ P, w.promises p = some P ∧ P._need_locks = false ∧
        P._storage.type = .empty ∧
        w0 = (w.set_promise p
          (some { P with _need_locks := true, _lock := .unlocked })).count_construction) ∧
      frame none (some a) w0 (basic_promise.get_future w p a).2 := by
  unfold basic_promise.get_future
  split
  · exact ⟨w, Or.inl rfl, frame_refl _ _ _⟩
  · rename_i P hP
    simp only
    generalize hw0 : (if (!P._need_locks && P._storage.type == storage_type.empty) = true then
        (w.set_promise p (some { P with _need_locks := true, _lock := .unlocked })).count_construction
      else w) = w0
    refine ⟨w0, ?_, ?_⟩
    · rw [← hw0]
      split
      · rename_i hc
        simp only [Bool.and_eq_true, Bool.not_eq_eq_eq_not, Bool.not_true, beq_iff_eq] at hc
        exact Or.inr ⟨P, hP, hc.1, hc.2, rfl⟩
      · exact Or.inl rfl
    · cases hacq : lock_guard.of_promise w0 p with
      | hang => exact frame_refl _ _ _
      | undefined => exact frame_refl _ _ _
      | acquired h w1 =>
        obtain ⟨hs, -, -⟩ := of_promise_spec hacq
        refine frame_trans (frame_of_same_data _ _ hs) ?_
        simp only
        split
        · exact frame_refl _ _ _
        · rename_i P1 hP1
          split
          · exact frame_refl _ _ _
          · split
            · exact frame_leave _ _ _ _ _
            · rename_i hc
              have hf : h._f = none := by
                cases hh : h._f with
                | none => rfl
                | some f => simp [hh] at hc
              have hof := of_promise_frame w1 p a P1 hP1
                (fun g => of_promise_no_future hacq hf hP1 g)
              generalize basic_future.of_promise w1 p a = r at hof
              obtain ⟨o, w2⟩ := r
              cases o with
              | returned u => exact frame_trans hof (frame_leave _ _ _ _ _)
              | thrown e => exact hof
              | aborted => exact hof
              | hang => exact hof
              | undefined => exact hof

/-- The member `get_future()` exempts the promise and the new future and leaves all else
alone. -/
theorem get_future_frame (w : World T) (p a : Nat) :
    frame (some p) (some a) w (basic_promise.get_future w p a).2 := by
  obtain ⟨w0, h0, hf⟩ := get_future_steps w p a
  have hf1 : frame (some p) (some a) w0 (basic_promise.get_future w p a).2 :=
    ⟨fun q P1 hq _ => hf.1 q P1 hq (by simp), hf.2.1, hf.2.2⟩
  refine frame_trans ?_ hf1
  rcases h0 with rfl | ⟨P, -, -, -, rfl⟩
  · exact frame_refl _ _ _
  · exact frame_trans (frame_build_promise _ _ p _) (frame_count_construction _ _ _)

/-- The flag of the promise across `get_future()`: unchanged, or switched on from off with
the carrier empty. -/
theorem get_future_flag (w : World T) (p a : Nat) (P P1 : basic_promise T)
    (hP : w.promises p = some P) (hP1 : (basic_promise.get_future w p a).2.promises p = some P1) :
    P1._need_locks = P._need_locks ∨
      (P._need_locks = false ∧ P1._need_locks = true ∧ P._storage = .empty) := by
  obtain ⟨w0, h0, hf⟩ := get_future_steps w p a
  obtain ⟨P0, hP0, e⟩ := hf.1 p P1 hP1 (by simp)
  rcases h0 with rfl | ⟨Q, hQ, hnl, hs, rfl⟩
  · rw [hP] at hP0
    cases hP0
    exact Or.inl e
  · rw [hP] at hQ
    cases hQ
    simp only [World.count_construction, World.set_promise, ↓reduceIte, Option.some.injEq] at hP0
    subst hP0
    refine Or.inr ⟨hnl, e, ?_⟩
    cases hPs : P._storage <;> rw [hPs] at hs <;> simp [value_storage.type] at hs

/-- The move constructor of a promise exempts the new promise and leaves all else alone. -/
theorem promise_move_construct_frame (bf : Option Nat) (w : World T) (a o : Nat) :
    frame (some a) bf w (basic_promise.move_construct w a o).2 := by
  unfold basic_promise.move_construct
  split
  · exact frame_refl _ _ _
  · rename_i hao
    split
    · exact frame_refl _ _ _
    · rename_i O hO
      simp only
      have h0 : frame (some a) bf w
          ((if O._need_locks = true then w.count_construction else w).set_promise a
            (some { _storage := .empty, _need_locks := O._need_locks, _detached := O._detached,
                    _lock := if O._need_locks = true then .unlocked else .unconstructed,
                    is_consuming := O.is_consuming })) := by
        split
        · exact frame_trans (frame_count_construction _ _ _) (frame_build_promise _ _ a _)
        · exact frame_build_promise _ _ a _
      split
      · exact h0
      · exact h0
      · rename_i h w1 hacq
        obtain ⟨hs, -, -⟩ := of_promise_spec hacq
        refine frame_trans h0 (frame_trans (frame_of_same_data _ _ hs) ?_)
        split
        · exact frame_refl _ _ _
        · rename_i O1 hO1
          have hoa : ¬ o = a := fun e => hao e.symm
          have h2 : frame (some a) bf w1
              ((w1.set_promise a
                (some { _storage := O1._storage, _need_locks := O._need_locks,
                        _detached := O._detached,
                        _lock := if O._need_locks = true then .unlocked else .unconstructed,
                        is_consuming := O.is_consuming })).set_promise o
                (some { O1 with _storage := .empty })) := by
            exact frame_trans (frame_build_promise _ _ a _)
              (frame_set_promise _ _ _ o O1 _ (by simp [World.set_promise, hoa, hO1]) (by rfl))
          split
          · exact frame_trans h2 (frame_leave _ _ _ _ _)
          · rename_i f hf
            split
            · exact h2
            · rename_i F hF
              refine frame_trans h2 (frame_trans ?_ (frame_leave _ _ _ _ _))
              exact frame_set_future _ _ _ f F _ hF (by rfl) (fun hn g => by exact hn f F g hF)

/-- The move assignment of a promise exempts the destination and leaves all else alone. -/
theorem promise_move_assign_frame (bf : Option Nat) (w : World T) (a o : Nat) :
    frame (some a) bf w (basic_promise.move_assign w a o).2 := by
  unfold basic_promise.move_assign
  have hd := promise_destroy_frame (some a) bf w a
  generalize basic_promise.destroy w a = r at hd
  obtain ⟨oc, w1⟩ := r
  cases oc with
  | returned u => exact frame_trans hd (promise_move_construct_frame bf w1 a o)
  | thrown e => exact hd
  | aborted => exact hd
  | hang => exact hd
  | undefined => exact hd

/-- The move constructor of a future exempts the new future and leaves all else alone. -/
theorem future_move_construct_frame (bp : Option Nat) (w : World T) (a o : Nat) :
    frame bp (some a) w (basic_future.move_construct w a o).2 := by
  unfold basic_future.move_construct
  split
  · exact frame_refl _ _ _
  · rename_i hao
    split
    · exact frame_refl _ _ _
    · rename_i O hO
      simp only
      have h0 : frame bp (some a) w
          ((if O._need_locks = true then w.count_construction else w).set_future a
            (some { _storage := .empty, _need_locks := O._need_locks,
                    _lock := if O._need_locks = true then .unlocked else .unconstructed,
                    _promise := none, is_consuming := O.is_consuming })) := by
        split
        · exact frame_trans (frame_count_construction _ _ _)
            (frame_build_future _ _ a _ (fun _ g => by simp))
        · exact frame_build_future _ _ a _ (fun _ g => by simp)
      split
      · exact h0
      · exact h0
      · rename_i h w1 hacq
        obtain ⟨hs, -, -⟩ := of_future_spec hacq
        refine frame_trans h0 (frame_trans (frame_of_same_data _ _ hs) ?_)
        split
        · exact frame_refl _ _ _
        · rename_i O1 hO1
          have hoa : ¬ o = a := fun e => hao e.symm
          split
          · refine frame_trans ?_ (frame_leave _ _ _ _ _)
            exact frame_trans
              (frame_build_future _ w1 a _ (fun hn g => by exact hn o O1 g hO1))
              (frame_set_future _ _ _ o O1 _ (by simp [World.set_future, hoa, hO1]) (by rfl)
                (fun _ g => by simp))
          · rename_i q hq
            have h2 : frame bp (some a) w1
                ((w1.set_future a
                  (some { _storage := O1._storage, _need_locks := O._need_locks,
                          _lock := if O._need_locks = true then .unlocked else .unconstructed,
                          _promise := some q, is_consuming := O.is_consuming })).set_future o
                  (some { O1 with _storage := .empty, _promise := none })) := by
              exact frame_trans
                (frame_build_future _ w1 a _ (fun hn g => by exact hn o O1 g hO1))
                (frame_set_future _ _ _ o O1 _ (by simp [World.set_future, hoa, hO1]) (by rfl)
                  (fun _ g => by simp))
            split
            · exact frame_trans h2 (frame_leave _ _ _ _ _)
            · rename_i p hp
              split
              · exact h2
              · rename_i P hP
                split
                · refine frame_trans h2 (frame_trans ?_ (frame_leave _ _ _ _ _))
                  exact frame_set_promise _ _ _ p P _ hP (by rfl)
                · exact h2

/-- The move assignment of a future exempts the destination and leaves all else alone. -/
theorem future_move_assign_frame (bp : Option Nat) (w : World T) (a o : Nat) :
    frame bp (some a) w (basic_future.move_assign w a o).2 := by
  unfold basic_future.move_assign
  have hd := future_destroy_frame bp (some a) w a
  generalize basic_future.destroy w a = r at hd
  obtain ⟨oc, w1⟩ := r
  cases oc with
  | returned u => exact frame_trans hd (future_move_construct_frame bp w1 a o)
  | thrown e => exact hd
  | aborted => exact hd
  | hang => exact hd
  | undefined => exact hd

/-- The member `share()` exempts the new future and leaves all else alone. -/
theorem share_frame (bp : Option Nat) (w : World T) (a f : Nat) :
    frame bp (some a) w (basic_future.share w a f).2 := by
  unfold basic_future.share
  split
  · exact frame_refl _ _ _
  · split
    · exact frame_refl _ _ _
    · have hm := future_move_construct_frame bp w a f
      generalize basic_future.move_construct w a f = r at hm
      obtain ⟨oc, w1⟩ := r
      cases oc with
      | returned u =>
        simp only
        split
        · exact hm
        · rename_i N hN
          exact frame_trans hm
            (frame_build_future _ w1 a _ (fun hn g => by exact hn a N g hN))
      | thrown e => exact hm
      | aborted => exact hm
      | hang => exact hm
      | undefined => exact hm

/-- The swap of two promises stays in every frame. -/
theorem promise_swap_frame (bp bf : Option Nat) (w : World T) (a o : Nat) :
    frame bp bf w (basic_promise.swap w a o).2 := by
  unfold basic_promise.swap
  cases hacq1 : lock_guard.of_promise w a with
  | hang => exact frame_refl _ _ _
  | undefined => exact frame_refl _ _ _
  | acquired h1 w1 =>
    obtain ⟨hs1, -, -⟩ := of_promise_spec hacq1
    refine frame_trans (frame_of_same_data _ _ hs1) ?_
    simp only
    cases hacq2 : lock_guard.of_promise w1 o with
    | hang => exact frame_refl _ _ _
    | undefined => exact frame_refl _ _ _
    | acquired h2 w2 =>
      obtain ⟨hs2, -, -⟩ := of_promise_spec hacq2
      refine frame_trans (frame_of_same_data _ _ hs2) ?_
      simp only
      split
      · rename_i A O hA hO
        have h3 : frame bp bf w2
            ((w2.set_promise a (some { A with _storage := O._storage })).set_promise o
              (some { O with _storage := A._storage })) := by
          by_cases hoa : o = a
          · subst hoa
            rw [hA] at hO
            cases hO
            exact frame_trans (frame_set_promise _ _ w2 o A _ hA (by rfl))
              (frame_set_promise _ _ _ o { A with _storage := A._storage } _
                (by simp [World.set_promise]) (by rfl))
          · exact frame_trans (frame_set_promise _ _ w2 a A _ hA (by rfl))
              (frame_set_promise _ _ _ o O _ (by simp [World.set_promise, hoa, hO]) (by rfl))
        generalize hw3 : ((w2.set_promise a (some { A with _storage := O._storage })).set_promise o
              (some { O with _storage := A._storage })) = w3 at h3
        generalize hfirst : (match h1._f with
          | none => some w3
          | some f =>
            match w3.futures f with
            | none => none
            | some F => some (w3.set_future f (some { F with _promise := some o }))) = first
        cases first with
        | none => exact h3
        | some w4 =>
          have h4 : frame bp bf w3 w4 := by
            split at hfirst
            · cases hfirst; exact frame_refl _ _ _
            · split at hfirst
              · cases hfirst
              · rename_i f hf _ F hF
                cases hfirst
                exact frame_set_future _ _ _ f F _ hF (by rfl)
                  (fun hn g => by exact hn f F g hF)
          simp only
          generalize hsecond : (match h2._f with
            | none => some w4
            | some f =>
              match w4.futures f with
              | none => none
              | some F => some (w4.set_future f (some { F with _promise := some a }))) = second
          cases second with
          | none => exact frame_trans h3 h4
          | some w5 =>
            have h5 : frame bp bf w4 w5 := by
              split at hsecond
              · cases hsecond; exact frame_refl _ _ _
              · split at hsecond
                · cases hsecond
                · rename_i f hf _ F hF
                  cases hsecond
                  exact frame_set_future _ _ _ f F _ hF (by rfl)
                    (fun hn g => by exact hn f F g hF)
            simp only
            split
            · exact frame_trans h3 (frame_trans h4 h5)
            · rename_i w6 hu
              exact frame_trans h3 (frame_trans h4 (frame_trans h5 (frame_trans
                (frame_of_same_data _ _ (unlock_same_data hu)) (frame_leave _ _ _ _ _))))
      · exact frame_refl _ _ _

/-- Writing a pointer into a promise changes no future. -/
theorem repoint_futures {w w1 : World T} {p a : Nat} (h : w.repoint p a = some w1) :
    w1.futures = w.futures := by
  unfold World.repoint at h
  split at h
  · cases h
  · split at h
    · cases h; rfl
    · cases h

/-- Worlds with the same futures agree on whether a future holds a pointer. -/
theorem no_pointer_of_futures_eq {w w1 : World T} (h : w1.futures = w.futures)
    (hn : no_pointer_in_future w) : no_pointer_in_future w1 := by
  intro f F g hF
  rw [h] at hF
  exact hn f F g hF

/-- The swap of two futures puts no pointer into a future. -/
theorem future_swap_no_pointer (w : World T) (a o : Nat) (hn : no_pointer_in_future w) :
    no_pointer_in_future (basic_future.swap w a o).2 := by
  unfold basic_future.swap
  cases hacq1 : lock_guard.of_future w a with
  | hang => exact hn
  | undefined => exact hn
  | acquired h1 w1 =>
    obtain ⟨hs1, -, -⟩ := of_future_spec hacq1
    have hn1 := (frame_of_same_data none none hs1).2.2 hn
    simp only
    cases hacq2 : lock_guard.of_future w1 o with
    | hang => exact hn1
    | undefined => exact hn1
    | acquired h2 w2 =>
      obtain ⟨hs2, -, -⟩ := of_future_spec hacq2
      have hn2 := (frame_of_same_data none none hs2).2.2 hn1
      simp only
      split
      · rename_i A O hA hO
        have hn3 : no_pointer_in_future
            ((w2.set_future a
              (some { A with _storage := O._storage, _need_locks := O._need_locks,
                             _promise := O._promise })).set_future o
              (some { O with _storage := A._storage, _need_locks := A._need_locks,
                             _promise := A._promise })) :=
          (frame_build_future none _ o _ (fun _ g => by exact hn2 a A g hA)).2.2
            ((frame_build_future none w2 a _ (fun _ g => by exact hn2 o O g hO)).2.2 hn2)
        generalize hw3 : ((w2.set_future a
              (some { A with _storage := O._storage, _need_locks := O._need_locks,
                             _promise := O._promise })).set_future o
              (some { O with _storage := A._storage, _need_locks := A._need_locks,
                             _promise := A._promise })) = w3 at hn3
        generalize hfirst : (match h1._p with
          | none => some w3
          | some p => w3.repoint p o) = first
        cases first with
        | none => exact hn3
        | some w4 =>
          have hn4 : no_pointer_in_future w4 := by
            split at hfirst
            · cases hfirst; exact hn3
            · exact no_pointer_of_futures_eq (repoint_futures hfirst) hn3
          simp only
          generalize hsecond : (match h2._p with
            | none => some w4
            | some p => w4.repoint p a) = second
          cases second with
          | none => exact hn4
          | some w5 =>
            have hn5 : no_pointer_in_future w5 := by
              split at hsecond
              · cases hsecond; exact hn4
              · exact no_pointer_of_futures_eq (repoint_futures hsecond) hn4
            simp only
            split
            · exact hn5
            · rename_i w6 hu
              exact (frame_leave none none _ _ _).2.2
                ((frame_of_same_data none none (unlock_same_data hu)).2.2 hn5)
      · exact hn2

/-- Every operation but the swap of futures exempts the promise at `p` it is a
`get_future()` on and the objects it builds, and leaves all else alone. -/
theorem run_frame (op : public_op T) (w : World T) (hop : ∀ a o, op ≠ .future_swap a o) :
    ∃ bp, (bp = op.builds_promise ∨ ∃ p a, op = .get_future p a ∧ bp = some p) ∧
      frame bp op.builds_future w (op.run w).2 := by
  cases op with
  | promise_construct p c => exact ⟨_, Or.inl rfl, frame_build_promise _ _ _ _⟩
  | future_construct a c => exact ⟨_, Or.inl rfl, frame_build_future _ _ _ _ (fun _ g => by simp)⟩
  | make_ready_future a v c =>
    exact ⟨_, Or.inl rfl, frame_build_future _ _ _ _ (fun _ g => by simp)⟩
  | make_errored_future a e c =>
    exact ⟨_, Or.inl rfl, frame_build_future _ _ _ _ (fun _ g => by simp)⟩
  | make_exceptional_future a x c =>
    exact ⟨_, Or.inl rfl, frame_build_future _ _ _ _ (fun _ g => by simp)⟩
  | get_future p a => exact ⟨some p, Or.inr ⟨p, a, rfl, rfl⟩, get_future_frame w p a⟩
  | set_value p v =>
    exact ⟨_, Or.inl rfl, impl_frame _ _ _
      (fun s r g h => by cases s <;> simp [value_storage.set_value] at h; simp [← h]) w p⟩
  | emplace_value p v =>
    exact ⟨_, Or.inl rfl, impl_frame _ _ _
      (fun s r g h => by cases s <;> simp [value_storage.set_value] at h; simp [← h]) w p⟩
  | set_error p e =>
    exact ⟨_, Or.inl rfl, impl_frame _ _ _
      (fun s r g h => by cases s <;> simp [value_storage.set_error] at h; simp [← h]) w p⟩
  | set_exception p x =>
    exact ⟨_, Or.inl rfl, impl_frame _ _ _
      (fun s r g h => by cases s <;> simp [value_storage.set_exception] at h; simp [← h])
      w p⟩
  | promise_move_construct a o => exact ⟨_, Or.inl rfl, promise_move_construct_frame _ w a o⟩
  | promise_move_assign a o => exact ⟨_, Or.inl rfl, promise_move_assign_frame _ w a o⟩
  | promise_swap a o => exact ⟨_, Or.inl rfl, promise_swap_frame _ _ w a o⟩
  | promise_destroy p => exact ⟨_, Or.inl rfl, promise_destroy_frame _ _ w p⟩
  | wait f => exact ⟨_, Or.inl rfl, frame_refl _ _ _⟩
  | get f => exact ⟨_, Or.inl rfl, get_frame _ _ w f⟩
  | get_error f => exact ⟨_, Or.inl rfl, get_error_frame _ _ w f⟩
  | get_exception f => exact ⟨_, Or.inl rfl, get_exception_frame _ _ w f⟩
  | future_move_construct a o => exact ⟨_, Or.inl rfl, future_move_construct_frame _ w a o⟩
  | future_move_assign a o => exact ⟨_, Or.inl rfl, future_move_assign_frame _ w a o⟩
  | future_swap a o => exact absurd rfl (hop a o)
  | share a f => exact ⟨_, Or.inl rfl, share_frame _ w a f⟩
  | future_destroy f => exact ⟨_, Or.inl rfl, future_destroy_frame _ _ w f⟩

/-- No operation puts a pointer into the carrier of a future. -/
theorem run_no_pointer (op : public_op T) (w : World T) (hn : no_pointer_in_future w) :
    no_pointer_in_future (op.run w).2 := by
  by_cases hop : ∀ a o, op ≠ .future_swap a o
  · obtain ⟨bp, -, hf⟩ := run_frame op w hop
    exact hf.2.2 hn
  · simp only [not_forall, not_not] at hop
    obtain ⟨a, o, rfl⟩ := hop
    exact future_swap_no_pointer w a o hn

/-- In a reachable world no future holds a pointer. -/
theorem reachable_no_pointer (w : World T) (h : reachable w) : no_pointer_in_future w := by
  induction h with
  | start => intro f F g hF; simp [World.empty] at hF
  | step w op _ _ ih => exact run_no_pointer op w ih

/-- The world `world_pending` is reachable. -/
theorem world_pending_reachable : reachable world_pending :=
  reachable.step _ (.get_future 0 0)
    (reachable.step _ (.promise_construct 0 true) reachable.start rfl)
    (by
      show (basic_promise.get_future world_fresh 0 0).1.completed = true
      simp [world_fresh, basic_promise.construct, basic_promise.get_future,
        basic_future.of_promise, lock_guard.of_promise, lock_guard.leave, lock_guard.unlock,
        lock_guard.unlock_p, lock_guard.unlock_f, World.set_promise, World.set_future,
        World.empty, World.count_acquisition, World.count_construction,
        value_storage.set_pointer, value_storage.clear, value_storage.type,
        basic_future.empty, Outcome.completed])

/-- The world `world_pending_and_fresh` is reachable. -/
theorem world_pending_and_fresh_reachable : reachable world_pending_and_fresh :=
  reachable.step _ (.promise_construct 1 true) world_pending_reachable rfl

/-- The world `world_detached_and_pending` is reachable. -/
theorem world_detached_and_pending_reachable : reachable world_detached_and_pending :=
  reachable.step _ (.get_future 1 1)
    (reachable.step _ (.promise_construct 1 true)
      (reachable.step _ (.get_future 0 0)
        (reachable.step _ (.set_value 0 5)
          (reachable.step _ (.promise_construct 0 true) reachable.start rfl) rfl) rfl) rfl) rfl

/-- The world `world_pending_and_ready` is reachable. -/
theorem world_pending_and_ready_reachable : reachable world_pending_and_ready :=
  reachable.step _ (.make_ready_future 1 7 true) world_pending_reachable rfl

/-- A step of either thread keeps the locks consistent with where the threads stand. -/
theorem guard_consistent_step (s : guard_pair) (t : guard_side)
    (h : s.consistent = true) : (s.step t).consistent = true := by
  obtain ⟨pl, fl, pp, fp⟩ := s
  revert h
  cases t <;> cases pl <;> cases fl <;> cases pp <;> cases fp <;> decide

/-- Every interleaving from the start keeps the locks consistent. -/
theorem guard_consistent_run (schedule : List guard_side) (s : guard_pair)
    (h : s.consistent = true) : (s.run schedule).consistent = true := by
  induction schedule generalizing s with
  | nil => exact h
  | cons t rest ih => exact ih (s.step t) (guard_consistent_step s t h)

/-- With consistent locks the two threads are never both blocked. -/
theorem guard_not_both_blocked (s : guard_pair) (h : s.consistent = true) :
    ¬ (s.blocked .promise = true ∧ s.blocked .future = true) := by
  obtain ⟨pl, fl, pp, fp⟩ := s
  revert h
  cases pl <;> cases fl <;> cases pp <;> cases fp <;> decide

/-- With consistent locks a blocked thread is no longer blocked after two steps of the
other thread. -/
theorem guard_unblocked (s : guard_pair) (t : guard_side) (h : s.consistent = true)
    (hb : s.blocked t = true) : ((s.step t.other).step t.other).blocked t = false := by
  obtain ⟨pl, fl, pp, fp⟩ := s
  revert h hb
  cases t <;> cases pl <;> cases fl <;> cases pp <;> cases fp <;> decide

/-- With consistent locks twelve steps chosen by `next` bring both threads to the end. -/
theorem guard_finish (s : guard_pair) (h : s.consistent = true) :
    (s.run (guard_pair.finish 12 s)).promise_pc = .done ∧
    (s.run (guard_pair.finish 12 s)).future_pc = .done ∧
    (s.run (guard_pair.finish 12 s)).promise_lock = false ∧
    (s.run (guard_pair.finish 12 s)).future_lock = false := by
  obtain ⟨pl, fl, pp, fp⟩ := s
  revert h
  cases pl <;> cases fl <;> cases pp <;> cases fp <;> decide

/-- The protocol gives no guarantee of progress under every schedule: when the threads
alternate step by step, each takes its own lock, fails the try on the lock of the peer and
releases its own lock again, and after six steps the pair is back at the start. -/
theorem guard_retry_cycle :
    guard_pair.start.run [.promise, .future, .promise, .future, .promise, .future]
      = guard_pair.start := by
  decide

/-- A blocked thread does occur: after the thread on the promise side has taken both
locks, the thread on the future side is blocked in `lock()`. -/
theorem guard_blocked_reachable :
    (guard_pair.start.run [.promise, .promise]).blocked .future = true := by
  decide

/-! ## Properties -/

/-- C1: a value set on a fresh promise comes back from `get()` of its consuming future,
both when `set_value(v)` runs before `get_future()` (the value is first kept in the
promise's own carrier and then moved into the future) and when it runs after (the value is
written through the pointer into the future's carrier). -/
theorem C1_round_trip (w : World T) (p a : Nat) (v : T) :
    (basic_promise.set_value (basic_promise.construct w p true) p v).1 = .returned () ∧
    ((basic_promise.set_value (basic_promise.construct w p true) p v).2.promises p).map
      (fun P => P._storage) = some (.value v) ∧
    (basic_promise.get_future
      (basic_promise.set_value (basic_promise.construct w p true) p v).2 p a).1 = .returned () ∧
    ((basic_promise.get_future
      (basic_promise.set_value (basic_promise.construct w p true) p v).2 p a).2.futures a).map
      (fun F => F._storage) = some (.value v) ∧
    (basic_future.get (basic_promise.get_future
      (basic_promise.set_value (basic_promise.construct w p true) p v).2 p a).2 a).1
      = .returned v ∧
    (basic_promise.get_future (basic_promise.construct w p true) p a).1 = .returned () ∧
    ((basic_promise.get_future (basic_promise.construct w p true) p a).2.promises p).map
      (fun P => P._storage) = some (.pointer a) ∧
    (basic_promise.set_value
      (basic_promise.get_future (basic_promise.construct w p true) p a).2 p v).1
      = .returned () ∧
    ((basic_promise.set_value
      (basic_promise.get_future (basic_promise.construct w p true) p a).2 p v).2.futures a).map
      (fun F => F._storage) = some (.value v) ∧
    (basic_future.get (basic_promise.set_value
      (basic_promise.get_future (basic_promise.construct w p true) p a).2 p v).2 a).1
      = .returned v := by
  simp [basic_promise.construct, basic_promise.set_value, basic_promise.BOOST_SPINLOCK_FUTURE_IMPL,
    basic_promise.get_future, basic_future.get, future_policy._get_value,
    future_policy._pre_get_value, basic_future.wait, basic_future.of_promise,
    lock_guard.of_promise, lock_guard.of_future, lock_guard.leave, lock_guard.unlock,
    lock_guard.unlock_p, lock_guard.unlock_f, World.set_promise, World.set_future,
    World.count_acquisition, World.count_construction, value_storage.set_value,
    value_storage.set_pointer, value_storage.clear, value_storage.type, value_storage.is_ready,
    basic_future.empty, basic_future.is_ready, basic_future.valid, basic_future.has_error,
    basic_future.has_exception, value_storage.has_error, value_storage.has_exception]

/-- C2 as stated fails: after `p.set_value(5); f = p.get_future();` the promise is
detached and the future holds the value; the second `get_future()` throws
`future_already_retrieved`, yet the promise is not left unchanged: its `_need_locks` went
from off to on and its lock got built. -/
theorem C2_counterexample :
    (basic_promise.get_future (basic_promise.set_value world_fresh 0 5).2 0 0).1
      = .returned () ∧
    world_value_then_future.promises 0
      = some { _storage := .empty, _need_locks := false, _detached := true,
               _lock := .unconstructed, is_consuming := true } ∧
    world_value_then_future.futures 0
      = some { _storage := .value 5, _need_locks := false, _lock := .unconstructed,
               _promise := none, is_consuming := true } ∧
    ¬ ((basic_promise.get_future world_value_then_future 0 1).1
          = .thrown (.future_error (make_error_code .future_already_retrieved)) ∧
       (basic_promise.get_future world_value_then_future 0 1).2.promises 0
          = world_value_then_future.promises 0 ∧
       (basic_promise.get_future world_value_then_future 0 1).2.futures 0
          = world_value_then_future.futures 0) := by
  simp [world_value_then_future, world_fresh, basic_promise.construct, basic_promise.set_value,
    basic_promise.BOOST_SPINLOCK_FUTURE_IMPL, basic_promise.get_future, basic_future.of_promise,
    lock_guard.of_promise, lock_guard.leave, lock_guard.unlock,
    lock_guard.unlock_p, lock_guard.unlock_f, World.set_promise, World.set_future, World.empty,
    World.count_acquisition, World.count_construction, value_storage.set_value,
    value_storage.set_pointer, value_storage.clear, value_storage.type, basic_future.empty]

/-- C2, amended: on a promise whose future was retrieved and is still alive (attached and
pending, or the promise detached), a second `get_future()` throws
`future_already_retrieved`; it leaves every future, every other promise, and the carrier
and the detached flag of the promise unchanged; and the promise is unchanged altogether
when its `_need_locks` was already on or its carrier is not empty (the pending case). -/
theorem C2_second_get_future (w : World T) (p a : Nat) (P : basic_promise T)
    (h : future_retrieved w p P) :
    (basic_promise.get_future w p a).1
      = .thrown (.future_error (make_error_code .future_already_retrieved)) ∧
    (basic_promise.get_future w p a).2.futures = w.futures ∧
    (∀ q, q ≠ p → (basic_promise.get_future w p a).2.promises q = w.promises q) ∧
    (∃ P1, (basic_promise.get_future w p a).2.promises p = some P1 ∧
      P1._storage = P._storage ∧ P1._detached = P._detached ∧
      (P._need_locks = true ∨ P._storage ≠ .empty → P1 = P)) := by
  obtain ⟨hP, hl, hs⟩ := h
  obtain ⟨s, nl, d, l, c⟩ := P
  simp only [spinlock.at_rest] at hl hs
  rcases hs with ⟨f, F, hs, hF, hFl, hnl⟩ | ⟨hd, hs⟩
  · obtain ⟨fs, fnl, fl, fp, fc⟩ := F
    simp only at hs hFl hnl hl
    cases nl <;> cases fnl <;>
    simp_all [basic_promise.get_future, lock_guard.of_promise, lock_guard.leave, lock_guard.unlock,
      lock_guard.unlock_p, lock_guard.unlock_f, World.set_promise, World.set_future,
      World.count_acquisition, World.count_construction, value_storage.type]
    all_goals exact update_eq_self _ _ _ hF
  · cases nl <;>
    simp_all [basic_promise.get_future, lock_guard.of_promise, lock_guard.leave, lock_guard.unlock,
      lock_guard.unlock_p, lock_guard.unlock_f, World.set_promise, World.set_future,
      World.count_acquisition, World.count_construction, value_storage.type]

/-- C2, amended, at the pending world: the promise at 0 points to its pending future at 0,
and asking for a second future at address 1 throws and changes no future. -/
theorem C2_second_get_future_witness :
    future_retrieved world_pending 0
      { _storage := .pointer 0, _need_locks := true, _detached := false, _lock := .unlocked,
        is_consuming := true } ∧
    (basic_promise.get_future world_pending 0 1).1
      = .thrown (.future_error (make_error_code .future_already_retrieved)) ∧
    (basic_promise.get_future world_pending 0 1).2.futures = world_pending.futures :=
  have h : future_retrieved world_pending 0
      { _storage := .pointer 0, _need_locks := true, _detached := false, _lock := .unlocked,
        is_consuming := true } := by
    simp [future_retrieved, spinlock.at_rest, world_pending, world_fresh,
      basic_promise.construct, basic_promise.get_future, basic_future.of_promise,
      lock_guard.of_promise, lock_guard.leave, lock_guard.unlock,
      lock_guard.unlock_p, lock_guard.unlock_f, World.set_promise, World.set_future, World.empty,
      World.count_acquisition, World.count_construction,
      value_storage.set_pointer, value_storage.clear, value_storage.type, basic_future.empty]
  ⟨h, (C2_second_get_future world_pending 0 1 _ h).1,
    (C2_second_get_future world_pending 0 1 _ h).2.1⟩

/-- C3 fails on the code: `f = p.get_future()` on a fresh promise (both at address 0),
then the still pending `f` is destroyed, which empties the carrier of `p` and leaves it
not detached; a second `p.get_future()` (future at address 1) then succeeds and attaches a
second future, where the documentation of `get_future` promises `future_already_retrieved`. -/
theorem C3_second_future_after_destroy :
    (basic_promise.get_future world_fresh 0 0).1 = .returned () ∧
    (basic_future.destroy world_pending 0).1 = .returned () ∧
    (basic_future.destroy world_pending 0).2.promises 0
      = some { _storage := .empty, _need_locks := true, _detached := false, _lock := .unlocked,
               is_consuming := true } ∧
    (basic_promise.get_future (basic_future.destroy world_pending 0).2 0 1).1 = .returned () ∧
    (basic_promise.get_future (basic_future.destroy world_pending 0).2 0 1).2.futures 1
      = some { _storage := .empty, _need_locks := true, _lock := .unlocked, _promise := some 0,
               is_consuming := true } := by
  simp [world_pending, world_fresh, basic_promise.construct, basic_promise.get_future,
    basic_future.of_promise, basic_future.destroy, basic_future.valid,
    lock_guard.of_promise, lock_guard.of_future, lock_guard.leave, lock_guard.unlock,
    lock_guard.unlock_p, lock_guard.unlock_f, World.set_promise, World.set_future, World.empty,
    World.count_acquisition, World.count_construction,
    value_storage.set_pointer, value_storage.clear, value_storage.type, basic_future.empty]

/-- C4: on a fresh promise driven by any sequence of setters and `get_future()` calls, once
a setter `s1` has returned normally every later setter `s2` throws what
`_throw_error(already_set)` throws and changes neither the carrier of the promise nor any
future; so at most one setter ever succeeds.  Every call in every such sequence returns or
throws (none hangs, aborts or is undefined). -/
theorem C4_set_once (w : World T) (p : Nat) (c : Bool) (pre mid : List (promise_call T))
    (s1 s2 : promise_call T) (h1 : s1.is_set = true) (h2 : s2.is_set = true)
    (hok : (s1.run (run_calls (basic_promise.construct w p c) p pre) p).1 = .returned ()) :
    (s2.run (run_calls (basic_promise.construct w p c) p (pre ++ s1 :: mid)) p).1
      = _throw_error .already_set ∧
    ((s2.run (run_calls (basic_promise.construct w p c) p (pre ++ s1 :: mid)) p).2.promises p).map
      (fun P => P._storage)
      = ((run_calls (basic_promise.construct w p c) p (pre ++ s1 :: mid)).promises p).map
          (fun P => P._storage) ∧
    (s2.run (run_calls (basic_promise.construct w p c) p (pre ++ s1 :: mid)) p).2.futures
      = (run_calls (basic_promise.construct w p c) p (pre ++ s1 :: mid)).futures ∧
    (∀ (cs : List (promise_call T)) (s : promise_call T),
      (s.run (run_calls (basic_promise.construct w p c) p cs) p).1 = .returned () ∨
      ∃ e, (s.run (run_calls (basic_promise.construct w p c) p cs) p).1 = .thrown e) := by
  have hinv := run_calls_inv _ p pre (promise_inv_construct w p c)
  have hset := (call_inv s1 _ p hinv).2.2 h1 hok
  have hset2 : promise_set (run_calls (basic_promise.construct w p c) p (pre ++ s1 :: mid)) p := by
    rw [run_calls_append]
    exact run_calls_set _ p mid hset
  obtain ⟨r1, r2, r3⟩ := set_call_fails s2 _ p hset2 h2
  exact ⟨r1, r3, r2, fun cs s =>
    (call_inv s _ p (run_calls_inv _ p cs (promise_inv_construct w p c))).2.1⟩

/-- C4 at `f = p.get_future(); p.set_value(1); p.set_value(2);` on a fresh promise at
address 0: the first setter returns, the second throws what `_throw_error(already_set)`
throws. -/
theorem C4_set_once_witness :
    (promise_call.set_value 1 : promise_call Nat).is_set = true ∧
    (promise_call.set_value 2 : promise_call Nat).is_set = true ∧
    ((promise_call.set_value 1).run
      (run_calls (basic_promise.construct (World.empty : World Nat) 0 true) 0
        [promise_call.get_future 0]) 0).1 = .returned () ∧
    ((promise_call.set_value 2).run
      (run_calls (basic_promise.construct (World.empty : World Nat) 0 true) 0
        ([promise_call.get_future 0] ++ promise_call.set_value 1 :: [])) 0).1
      = _throw_error .already_set :=
  have hok : ((promise_call.set_value 1).run
      (run_calls (basic_promise.construct (World.empty : World Nat) 0 true) 0
        [promise_call.get_future 0]) 0).1 = .returned () := by
    simp [run_calls, promise_call.run, basic_promise.construct, basic_promise.set_value,
      basic_promise.BOOST_SPINLOCK_FUTURE_IMPL, basic_promise.get_future,
      basic_future.of_promise, lock_guard.of_promise, lock_guard.leave, lock_guard.unlock,
      lock_guard.unlock_p, lock_guard.unlock_f, World.set_promise, World.set_future,
      World.empty, World.count_acquisition, World.count_construction, value_storage.set_value,
      value_storage.set_pointer, value_storage.clear, value_storage.type, basic_future.empty]
  ⟨rfl, rfl, hok,
    (C4_set_once World.empty 0 true [promise_call.get_future 0] []
      (promise_call.set_value 1) (promise_call.set_value 2) rfl rfl hok).1⟩

/-- C5: destroying a promise whose attached future is pending returns normally and leaves
the future with carrier `Error(broken_promise)` and a null back-pointer, all else in it as
before; that future is valid and ready, and a following `get()` throws a `future_error`
carrying `broken_promise`. -/
theorem C5_broken_promise (w : World T) (p f : Nat) (P : basic_promise T) (F : basic_future T)
    (h : pending_pair w p f P F) :
    (basic_promise.destroy w p).1 = .returned () ∧
    (basic_promise.destroy w p).2.promises p = none ∧
    (basic_promise.destroy w p).2.futures f
      = some { F with _storage := .error (make_error_code .broken_promise), _promise := none } ∧
    basic_future.valid
      ({ F with _storage := .error (make_error_code .broken_promise), _promise := none } :
        basic_future T) = true ∧
    basic_future.is_ready
      ({ F with _storage := .error (make_error_code .broken_promise), _promise := none } :
        basic_future T) = true ∧
    (basic_future.get (basic_promise.destroy w p).2 f).1
      = .thrown (.future_error (make_error_code .broken_promise)) := by
  obtain ⟨hP, hF, hs, hd, hfs, hl, hfl, hnl⟩ := h
  obtain ⟨s, nl, d, l, c⟩ := P
  obtain ⟨fs, fnl, fl, fp, fc⟩ := F
  simp only [spinlock.at_rest] at hl hfl hs hd hfs hnl
  cases nl <;> cases fnl <;> cases fc <;>
    simp_all [basic_promise.destroy, lock_guard.of_promise, lock_guard.of_future, lock_guard.leave,
      lock_guard.unlock, lock_guard.unlock_p, lock_guard.unlock_f, World.set_promise,
      World.set_future, World.count_acquisition, value_storage.set_error, value_storage.clear,
      value_storage.is_ready, basic_future.is_ready, basic_future.valid, basic_future.get,
      future_policy._get_value, shared_future_policy._get_value, future_policy._pre_get_value,
      basic_future.wait, basic_future.has_error, basic_future.has_exception,
      value_storage.has_error, value_storage.has_exception, make_error_code]

/-- C5 at the pending world: promise and future at address 0; after the promise is
destroyed, `get()` on the future throws `broken_promise`. -/
theorem C5_broken_promise_witness :
    pending_pair world_pending 0 0
      { _storage := .pointer 0, _need_locks := true, _detached := false, _lock := .unlocked,
        is_consuming := true }
      { _storage := .empty, _need_locks := true, _lock := .unlocked, _promise := some 0,
        is_consuming := true } ∧
    (basic_future.get (basic_promise.destroy world_pending 0).2 0).1
      = .thrown (.future_error (make_error_code .broken_promise)) :=
  have h : pending_pair world_pending 0 0
      { _storage := .pointer 0, _need_locks := true, _detached := false, _lock := .unlocked,
        is_consuming := true }
      { _storage := .empty, _need_locks := true, _lock := .unlocked, _promise := some 0,
        is_consuming := true } := by
    simp [pending_pair, spinlock.at_rest, world_pending, world_fresh,
      basic_promise.construct, basic_promise.get_future, basic_future.of_promise,
      lock_guard.of_promise, lock_guard.leave, lock_guard.unlock,
      lock_guard.unlock_p, lock_guard.unlock_f, World.set_promise, World.set_future, World.empty,
      World.count_acquisition, World.count_construction,
      value_storage.set_pointer, value_storage.clear, value_storage.type, basic_future.empty]
  ⟨h, (C5_broken_promise world_pending 0 0 _ _ h).2.2.2.2.2⟩

/-- C6: on a consuming future that holds `Value(v)`, has no promise attached and whose lock
is at rest, `get()` returns `v`; afterwards the carrier is empty, all else in the future as
before, `valid()` is false, and the next `get()` throws `no_state`. -/
theorem C6_consuming_get (w : World T) (f : Nat) (F : basic_future T) (v : T)
    (hF : w.futures f = some F) (hc : F.is_consuming = true) (hs : F._storage = .value v)
    (hp : F._promise = none) (hl : spinlock.at_rest F._need_locks F._lock) :
    (basic_future.get w f).1 = .returned v ∧
    (basic_future.get w f).2.futures f = some { F with _storage := .empty } ∧
    basic_future.valid ({ F with _storage := .empty } : basic_future T) = false ∧
    (basic_future.get (basic_future.get w f).2 f).1
      = .thrown (.future_error (make_error_code .no_state)) := by
  obtain ⟨fs, fnl, fl, fp, fc⟩ := F
  simp only [spinlock.at_rest] at hl hs hc hp
  cases fnl <;>
    simp_all [lock_guard.of_future, lock_guard.leave, lock_guard.unlock,
      lock_guard.unlock_p, lock_guard.unlock_f, World.set_promise, World.set_future,
      World.count_acquisition, value_storage.clear, value_storage.is_ready,
      basic_future.is_ready, basic_future.valid, basic_future.get, future_policy._get_value,
      future_policy._pre_get_value, basic_future.wait,
      basic_future.has_error, basic_future.has_exception, value_storage.has_error,
      value_storage.has_exception]

/-- C6 at the world after `p.set_value(5); f = p.get_future();`: the future at address 0
holds 5 with no promise attached; `get()` returns 5 and a second `get()` throws
`no_state`. -/
theorem C6_consuming_get_witness :
    world_value_then_future.futures 0
      = some { _storage := .value 5, _need_locks := false, _lock := .unconstructed,
               _promise := none, is_consuming := true } ∧
    (basic_future.get world_value_then_future 0).1 = .returned 5 ∧
    (basic_future.get (basic_future.get world_value_then_future 0).2 0).1
      = .thrown (.future_error (make_error_code .no_state)) :=
  have h : world_value_then_future.futures 0
      = some { _storage := .value 5, _need_locks := false, _lock := .unconstructed,
               _promise := none, is_consuming := true } := by
    simp [world_value_then_future, world_fresh, basic_promise.construct,
      basic_promise.set_value, basic_promise.BOOST_SPINLOCK_FUTURE_IMPL,
      basic_promise.get_future, basic_future.of_promise,
      lock_guard.of_promise, lock_guard.leave, lock_guard.unlock,
      lock_guard.unlock_p, lock_guard.unlock_f, World.set_promise, World.set_future, World.empty,
      value_storage.set_value, value_storage.clear, value_storage.type, basic_future.empty]
  ⟨h, (C6_consuming_get world_value_then_future 0 _ 5 h rfl rfl rfl rfl).1,
    (C6_consuming_get world_value_then_future 0 _ 5 h rfl rfl rfl rfl).2.2.2⟩

/-- C7: on a shared (not consuming) future that holds `Value(v)` and whose guard is free,
`get()` returns `v` and leaves the future object (carrier, back-pointer, `_need_locks`) as
it was, and so does every further `get()`: after any number `n` of calls the next one still
returns `v` and leaves the same object; the future is valid and ready throughout. -/
theorem C7_shared_get (w : World T) (f : Nat) (F : basic_future T) (v : T)
    (hF : w.futures f = some F) (hc : F.is_consuming = false) (hs : F._storage = .value v)
    (hg : future_guard_free w F) (n : Nat) :
    (basic_future.get ((fun u => (basic_future.get u f).2)^[n] w) f).1 = .returned v ∧
    (basic_future.get ((fun u => (basic_future.get u f).2)^[n] w) f).2.futures f = some F ∧
    F.valid = true ∧ F.is_ready = true := by
  obtain ⟨ihf, ihp⟩ := shared_get_iterate w f F v hF hc hs hg n
  have hF1 : ((fun u => (basic_future.get u f).2)^[n] w).futures f = some F := by
    rw [ihf]; exact hF
  have hg1 : future_guard_free ((fun u => (basic_future.get u f).2)^[n] w) F := by
    unfold future_guard_free at hg ⊢
    rw [ihp]; exact hg
  obtain ⟨h1, h2, _⟩ := shared_get_step _ f F v hF1 hc hs hg1
  refine ⟨h1, ?_, ?_, ?_⟩
  · rw [h2]; exact hF1
  · simp [basic_future.valid, basic_future.is_ready, hs, value_storage.is_ready]
  · simp [basic_future.is_ready, hs, value_storage.is_ready]

/-- C7 at a shared future made ready with 7: the fourth `get()` in a row returns 7. -/
theorem C7_shared_get_witness :
    world_shared_ready.futures 0
      = some { _storage := .value 7, _need_locks := false, _lock := .unconstructed,
               _promise := none, is_consuming := false } ∧
    (basic_future.get ((fun u => (basic_future.get u 0).2)^[3] world_shared_ready) 0).1
      = .returned 7 :=
  have h : world_shared_ready.futures 0
      = some { _storage := .value 7, _need_locks := false, _lock := .unconstructed,
               _promise := none, is_consuming := false } := by
    simp [world_shared_ready, make_ready_future, basic_future.construct_value,
      World.set_future]
  ⟨h, (C7_shared_get world_shared_ready 0 _ 7 h rfl rfl
        ⟨rfl, fun _ hp => nomatch hp⟩ 3).1⟩

/-- C8: fails in the code for `get_exception()`.  On a fresh promise with its future
retrieved, after `set_exception(x)` with `x` a reference to an exception (not null),
`get()` on the future rethrows exactly `x`, and so it does when `set_exception(x)` ran
before `get_future()`.  The call `get_exception()` on such a future is ill-formed and has
no behaviour; the statements of `_get_exception_impl`, run on the future, return `x`. -/
theorem C8_exception_round_trip (w : World T) (p a : Nat) (c : Bool) (x : exception_ptr)
    (hx : x ≠ .null) :
    (basic_promise.get_future (basic_promise.construct w p c) p a).1 = .returned () ∧
    (basic_promise.set_exception
      (basic_promise.get_future (basic_promise.construct w p c) p a).2 p x).1 = .returned () ∧
    (basic_future.get (basic_promise.set_exception
      (basic_promise.get_future (basic_promise.construct w p c) p a).2 p x).2 a).1
      = .thrown (.rethrown x) ∧
    basic_future.get_exception (basic_promise.set_exception
      (basic_promise.get_future (basic_promise.construct w p c) p a).2 p x).2 a = none ∧
    (basic_future.get_exception_statements (basic_promise.set_exception
      (basic_promise.get_future (basic_promise.construct w p c) p a).2 p x).2 a).1
      = .returned x ∧
    (basic_future.get (basic_promise.get_future (basic_promise.set_exception
      (basic_promise.construct w p c) p x).2 p a).2 a).1 = .thrown (.rethrown x) ∧
    basic_future.get_exception (basic_promise.get_future (basic_promise.set_exception
      (basic_promise.construct w p c) p x).2 p a).2 a = none ∧
    (basic_future.get_exception_statements (basic_promise.get_future
      (basic_promise.set_exception (basic_promise.construct w p c) p x).2 p a).2 a).1
      = .returned x := by
  cases c <;>
  simp [hx, basic_promise.construct, basic_promise.set_exception,
    basic_promise.BOOST_SPINLOCK_FUTURE_IMPL,
    basic_promise.get_future, basic_future.get, basic_future.get_exception_statements,
    basic_future.get_exception, future_policy._get_exception,
    future_policy._get_exception_impl, deduce, template_argument.has_pointer_type,
    future_policy._get_value, shared_future_policy._get_value,
    future_policy._get_exception_impl_statements, rethrow_exception,
    future_policy._pre_get_value, basic_future.wait, basic_future.of_promise,
    lock_guard.of_promise, lock_guard.of_future, lock_guard.leave, lock_guard.unlock,
    lock_guard.unlock_p, lock_guard.unlock_f, World.set_promise, World.set_future,
    World.count_acquisition, World.count_construction, value_storage.set_exception,
    value_storage.set_pointer, value_storage.clear, value_storage.type, value_storage.is_ready,
    basic_future.empty, basic_future.is_ready, basic_future.valid, basic_future.has_error,
    basic_future.has_exception, value_storage.has_error, value_storage.has_exception]

/-- C8 at the fresh promise at address 0 with the exception reference 7: `get()` on its
future rethrows that reference, and the call `get_exception()` is ill-formed. -/
theorem C8_exception_round_trip_witness :
    exception_ptr.ref 7 ≠ .null ∧
    (basic_future.get (basic_promise.set_exception
      (basic_promise.get_future (basic_promise.construct (World.empty : World Nat) 0 true)
        0 0).2 0 (.ref 7)).2 0).1
      = .thrown (.rethrown (.ref 7)) ∧
    basic_future.get_exception (basic_promise.set_exception
      (basic_promise.get_future (basic_promise.construct (World.empty : World Nat) 0 true)
        0 0).2 0 (.ref 7)).2 0 = none :=
  ⟨by decide, (C8_exception_round_trip World.empty 0 0 true (.ref 7) (by decide)).2.2.1,
    (C8_exception_round_trip World.empty 0 0 true (.ref 7) (by decide)).2.2.2.1⟩

/-- C10: on a fresh promise, `set_value(v)` followed by `get_future()` leaves `_need_locks`
off and the lock unbuilt on the promise and on the future, and neither counting hook has
moved (no lock was built, none was taken); the following `get()` returns `v`, again with
both hooks unmoved and the lock of the future still unbuilt. -/
theorem C10_fast_path (w : World T) (p a : Nat) (v : T) :
    (basic_promise.get_future
      (basic_promise.set_value (basic_promise.construct w p true) p v).2 p a).1
      = .returned () ∧
    (basic_promise.get_future
      (basic_promise.set_value (basic_promise.construct w p true) p v).2 p a).2.promises p
      = some { _storage := .empty, _need_locks := false, _detached := true,
               _lock := .unconstructed, is_consuming := true } ∧
    (basic_promise.get_future
      (basic_promise.set_value (basic_promise.construct w p true) p v).2 p a).2.futures a
      = some { _storage := .value v, _need_locks := false, _lock := .unconstructed,
               _promise := none, is_consuming := true } ∧
    (basic_promise.get_future
      (basic_promise.set_value (basic_promise.construct w p true) p v).2 p a).2.lock_constructions
      = w.lock_constructions ∧
    (basic_promise.get_future
      (basic_promise.set_value (basic_promise.construct w p true) p v).2 p a).2.lock_acquisitions
      = w.lock_acquisitions ∧
    (basic_future.get (basic_promise.get_future
      (basic_promise.set_value (basic_promise.construct w p true) p v).2 p a).2 a).1
      = .returned v ∧
    (basic_future.get (basic_promise.get_future
      (basic_promise.set_value (basic_promise.construct w p true) p v).2 p a).2 a).2.futures a
      = some { _storage := .empty, _need_locks := false, _lock := .unconstructed,
               _promise := none, is_consuming := true } ∧
    (basic_future.get (basic_promise.get_future
      (basic_promise.set_value (basic_promise.construct w p true) p v).2 p a).2 a).2.lock_constructions
      = w.lock_constructions ∧
    (basic_future.get (basic_promise.get_future
      (basic_promise.set_value (basic_promise.construct w p true) p v).2 p a).2 a).2.lock_acquisitions
      = w.lock_acquisitions := by
  simp [basic_promise.construct, basic_promise.set_value, basic_promise.BOOST_SPINLOCK_FUTURE_IMPL,
    basic_promise.get_future, basic_future.get, future_policy._get_value,
    future_policy._pre_get_value, basic_future.wait, basic_future.of_promise,
    lock_guard.of_promise, lock_guard.of_future, lock_guard.leave, lock_guard.unlock,
    lock_guard.unlock_p, lock_guard.unlock_f, World.set_promise, World.set_future,
    World.count_acquisition, World.count_construction, value_storage.set_value,
    value_storage.set_pointer, value_storage.clear, value_storage.type, value_storage.is_ready,
    basic_future.empty, basic_future.is_ready, basic_future.valid, basic_future.has_error,
    basic_future.has_exception, value_storage.has_error, value_storage.has_exception]

/-- C11: on a promise that is not detached and whose lock is at rest, `get_future()`
returns normally; when the carrier is empty it leaves the promise with `_need_locks` on,
its lock built, carrier `Pointer` to the new future and not detached, and the new future
with an empty carrier, `_need_locks` on and back-pointer to the promise; when the carrier
holds a value, error or exception, the new future holds exactly that carrier with a null
back-pointer and the `_need_locks` of the promise, and the promise is left with an empty
carrier and detached. -/
theorem C11_get_future_post_state (w : World T) (p a : Nat) (P : basic_promise T)
    (hP : w.promises p = some P) (hd : P._detached = false)
    (hl : spinlock.at_rest P._need_locks P._lock) :
    (P._storage = .empty →
      (basic_promise.get_future w p a).1 = .returned () ∧
      (basic_promise.get_future w p a).2.promises p
        = some { P with _storage := .pointer a, _need_locks := true, _lock := .unlocked,
                        _detached := false } ∧
      (basic_promise.get_future w p a).2.futures a
        = some { _storage := .empty, _need_locks := true, _lock := .unlocked,
                 _promise := some p, is_consuming := P.is_consuming }) ∧
    (P._storage.is_ready = true →
      (basic_promise.get_future w p a).1 = .returned () ∧
      (basic_promise.get_future w p a).2.promises p
        = some { P with _storage := .empty, _detached := true } ∧
      (basic_promise.get_future w p a).2.futures a
        = some { _storage := P._storage, _need_locks := P._need_locks, _lock := P._lock,
                 _promise := none, is_consuming := P.is_consuming }) := by
  obtain ⟨s, nl, d, l, c⟩ := P
  simp only [spinlock.at_rest] at hl hd
  subst hd
  cases s <;> cases nl <;>
    simp_all [basic_promise.get_future, basic_future.of_promise,
      lock_guard.of_promise, lock_guard.leave, lock_guard.unlock, lock_guard.unlock_p,
      lock_guard.unlock_f, World.set_promise, World.set_future, World.count_acquisition,
      World.count_construction, value_storage.set_pointer, value_storage.is_ready,
      value_storage.type, value_storage.clear, basic_future.empty]

/-- C11 at the fresh promise at address 0: `get_future()` builds a pending future that
points back to it. -/
theorem C11_get_future_post_state_witness :
    world_fresh.promises 0
      = some { _storage := .empty, _need_locks := false, _detached := false,
               _lock := .unconstructed, is_consuming := true } ∧
    (basic_promise.get_future world_fresh 0 0).2.futures 0
      = some { _storage := .empty, _need_locks := true, _lock := .unlocked,
               _promise := some 0, is_consuming := true } :=
  ⟨world_fresh_promise,
    ((C11_get_future_post_state world_fresh 0 0 _ world_fresh_promise rfl rfl).1 rfl).2.2⟩

/-- C12: on a promise with a pending attached future, each of `set_value`, `emplace_value`,
`set_error` and `set_exception` returns and leaves the future with the carrier `Value(v)`,
`Error(e)`, `Exception(x)` respectively and a null back-pointer, and the promise with an
empty carrier and detached; on a promise that is not detached and has an empty carrier
(no future attached), each of them stores the payload in the promise's own carrier,
leaves it not detached and changes no future. -/
theorem C12_set_post_state (w : World T) (p : Nat) (P : basic_promise T)
    (hP : w.promises p = some P) (hd : P._detached = false)
    (hl : spinlock.at_rest P._need_locks P._lock)
    (v : T) (e : error_code) (x : exception_ptr) :
    (∀ f F, pending_pair w p f P F →
      ((basic_promise.set_value w p v).1 = .returned () ∧
       (basic_promise.set_value w p v).2.futures f
         = some { F with _storage := .value v, _promise := none } ∧
       (basic_promise.set_value w p v).2.promises p
         = some { P with _storage := .empty, _detached := true }) ∧
      ((basic_promise.emplace_value w p v).1 = .returned () ∧
       (basic_promise.emplace_value w p v).2.futures f
         = some { F with _storage := .value v, _promise := none } ∧
       (basic_promise.emplace_value w p v).2.promises p
         = some { P with _storage := .empty, _detached := true }) ∧
      ((basic_promise.set_error w p e).1 = .returned () ∧
       (basic_promise.set_error w p e).2.futures f
         = some { F with _storage := .error e, _promise := none } ∧
       (basic_promise.set_error w p e).2.promises p
         = some { P with _storage := .empty, _detached := true }) ∧
      ((basic_promise.set_exception w p x).1 = .returned () ∧
       (basic_promise.set_exception w p x).2.futures f
         = some { F with _storage := .exception x, _promise := none } ∧
       (basic_promise.set_exception w p x).2.promises p
         = some { P with _storage := .empty, _detached := true })) ∧
    (P._storage = .empty →
      ((basic_promise.set_value w p v).1 = .returned () ∧
       (basic_promise.set_value w p v).2.promises p
         = some { P with _storage := .value v, _detached := false } ∧
       (basic_promise.set_value w p v).2.futures = w.futures) ∧
      ((basic_promise.emplace_value w p v).1 = .returned () ∧
       (basic_promise.emplace_value w p v).2.promises p
         = some { P with _storage := .value v, _detached := false } ∧
       (basic_promise.emplace_value w p v).2.futures = w.futures) ∧
      ((basic_promise.set_error w p e).1 = .returned () ∧
       (basic_promise.set_error w p e).2.promises p
         = some { P with _storage := .error e, _detached := false } ∧
       (basic_promise.set_error w p e).2.futures = w.futures) ∧
      ((basic_promise.set_exception w p x).1 = .returned () ∧
       (basic_promise.set_exception w p x).2.promises p
         = some { P with _storage := .exception x, _detached := false } ∧
       (basic_promise.set_exception w p x).2.futures = w.futures)) := by
  have hPd : ∀ r : value_storage T,
      ({ P with _storage := r, _detached := false } : basic_promise T)
        = { P with _storage := r } := by
    intro r; cases P; simp_all
  refine ⟨fun f F h => ⟨?_, ?_, ?_, ?_⟩, fun hs => ⟨?_, ?_, ?_, ?_⟩⟩
  · exact impl_attached (fun s => s.set_value v) (.value v) rfl w p f P F h
  · exact impl_attached (fun s => s.set_value v) (.value v) rfl w p f P F h
  · exact impl_attached (fun s => s.set_error e) (.error e) rfl w p f P F h
  · exact impl_attached (fun s => s.set_exception x) (.exception x) rfl w p f P F h
  · rw [hPd]; exact impl_local (fun s => s.set_value v) (.value v) rfl w p P hP hs hd hl
  · rw [hPd]; exact impl_local (fun s => s.set_value v) (.value v) rfl w p P hP hs hd hl
  · rw [hPd]; exact impl_local (fun s => s.set_error e) (.error e) rfl w p P hP hs hd hl
  · rw [hPd]; exact impl_local (fun s => s.set_exception x) (.exception x) rfl w p P hP hs hd hl

/-- C12 at the pending world: `set_value(5)` on the promise leaves the future holding 5
with a null back-pointer. -/
theorem C12_set_post_state_witness :
    pending_pair world_pending 0 0
      { _storage := .pointer 0, _need_locks := true, _detached := false, _lock := .unlocked,
        is_consuming := true }
      { _storage := .empty, _need_locks := true, _lock := .unlocked, _promise := some 0,
        is_consuming := true } ∧
    (basic_promise.set_value world_pending 0 5).2.futures 0
      = some { _storage := .value 5, _need_locks := true, _lock := .unlocked, _promise := none,
               is_consuming := true } :=
  have h : pending_pair world_pending 0 0
      { _storage := .pointer 0, _need_locks := true, _detached := false, _lock := .unlocked,
        is_consuming := true }
      { _storage := .empty, _need_locks := true, _lock := .unlocked, _promise := some 0,
        is_consuming := true } :=
    ⟨world_pending_promise, world_pending_future, rfl, rfl, rfl, rfl, rfl, fun _ => rfl⟩
  ⟨h, ((C12_set_post_state world_pending 0 _ world_pending_promise rfl rfl 5 ⟨0, .generic⟩
        .null).1 0 _ h).1.2.1⟩

/-- C13: for a promise and a future attached to each other, move constructing a promise
at another address from the promise leaves the new promise equal to the old one (carrier
`Pointer` to the future), the old one with an empty carrier, and the future unchanged but
for its back-pointer, which is the new address; move constructing a future at another
address from the future leaves the new future equal to the old one (same carrier, same
back-pointer), the old one empty with a null back-pointer, and the promise unchanged but
for its carrier, which is `Pointer` to the new address. -/
theorem C13_move_preserves_association (w : World T) (p f a : Nat) (P : basic_promise T)
    (F : basic_future T) (h : attached_pair w p f P F) :
    (a ≠ p →
      (basic_promise.move_construct w a p).1 = .returned () ∧
      (basic_promise.move_construct w a p).2.promises a = some P ∧
      (basic_promise.move_construct w a p).2.promises p = some { P with _storage := .empty } ∧
      (basic_promise.move_construct w a p).2.futures f = some { F with _promise := some a }) ∧
    (a ≠ f →
      (basic_future.move_construct w a f).1 = .returned () ∧
      (basic_future.move_construct w a f).2.futures a = some F ∧
      (basic_future.move_construct w a f).2.futures f
        = some { F with _storage := .empty, _promise := none } ∧
      (basic_future.move_construct w a f).2.promises p
        = some { P with _storage := .pointer a }) := by
  obtain ⟨hP, hF, hs, hp, hl, hfl, hnl⟩ := h
  obtain ⟨s, nl, d, l, c⟩ := P
  obtain ⟨fs, fnl, fl, fp, fc⟩ := F
  simp only [spinlock.at_rest] at hl hfl hs hp hnl
  subst hs hp hnl
  constructor
  · intro ha
    have ha' : ¬ p = a := fun h => ha h.symm
    cases nl <;>
    simp_all [basic_promise.move_construct,
      lock_guard.of_promise, lock_guard.leave, lock_guard.unlock, lock_guard.unlock_p,
      lock_guard.unlock_f, World.set_promise, World.set_future, World.count_acquisition,
      World.count_construction]
  · intro ha
    have ha' : ¬ f = a := fun h => ha h.symm
    cases nl <;>
    simp_all [basic_future.move_construct,
      lock_guard.of_future, lock_guard.leave, lock_guard.unlock, lock_guard.unlock_p,
      lock_guard.unlock_f, World.set_promise, World.set_future, World.count_acquisition,
      World.count_construction]

/-- C13 at the pending world: moving the promise to address 1 makes the future point to 1,
and moving the future to address 1 makes the promise point to 1. -/
theorem C13_move_preserves_association_witness :
    attached_pair world_pending 0 0
      { _storage := .pointer 0, _need_locks := true, _detached := false, _lock := .unlocked,
        is_consuming := true }
      { _storage := .empty, _need_locks := true, _lock := .unlocked, _promise := some 0,
        is_consuming := true } ∧
    (basic_promise.move_construct world_pending 1 0).2.futures 0
      = some { _storage := .empty, _need_locks := true, _lock := .unlocked, _promise := some 1,
               is_consuming := true } ∧
    (basic_future.move_construct world_pending 1 0).2.promises 0
      = some { _storage := .pointer 1, _need_locks := true, _detached := false,
               _lock := .unlocked, is_consuming := true } :=
  have h : attached_pair world_pending 0 0
      { _storage := .pointer 0, _need_locks := true, _detached := false, _lock := .unlocked,
        is_consuming := true }
      { _storage := .empty, _need_locks := true, _lock := .unlocked, _promise := some 0,
        is_consuming := true } :=
    ⟨world_pending_promise, world_pending_future, rfl, rfl, rfl, rfl, rfl⟩
  ⟨h, ((C13_move_preserves_association world_pending 0 0 1 _ _ h).1 (by decide)).2.2.2,
    ((C13_move_preserves_association world_pending 0 0 1 _ _ h).2 (by decide)).2.2.2⟩

/-- C14 as stated fails: a fresh promise at address 0 is moved into a new promise at
address 1; the moved-from promise has an empty carrier but is not detached, and
`set_value(5)` on it returns normally instead of failing with `already_set`. -/
theorem C14_counterexample :
    (basic_promise.move_construct world_fresh 1 0).1 = .returned () ∧
    world_moved_from.promises 0
      = some { _storage := .empty, _need_locks := false, _detached := false,
               _lock := .unconstructed, is_consuming := true } ∧
    ¬ ((world_moved_from.promises 0).map (fun P => P._detached) = some true) ∧
    (basic_promise.set_value world_moved_from 0 5).1 = .returned () ∧
    ¬ ((basic_promise.set_value world_moved_from 0 5).1 = _throw_error .already_set) := by
  simp [world_moved_from, world_fresh, basic_promise.construct, basic_promise.move_construct,
    basic_promise.set_value, basic_promise.BOOST_SPINLOCK_FUTURE_IMPL,
    lock_guard.of_promise, lock_guard.leave, lock_guard.unlock,
    lock_guard.unlock_p, lock_guard.unlock_f, World.set_promise, World.set_future, World.empty,
    value_storage.set_value, value_storage.type, _throw_error]

/-- C14, amended: after a move construction from a promise `P` whose guard is free, and
after a move assignment from it (the destination destroyed first, `P` being as required
when the construction starts), `P` is left with an empty carrier and all else unchanged,
its detached flag included; a later setter on it succeeds and stores into its own carrier
when it was not detached, and fails as `_throw_error(already_set)` when it was. -/
theorem C14_moved_from_promise (w : World T) (a o : Nat) (P : basic_promise T) (v : T)
    (e : error_code) (x : exception_ptr) (ha : a ≠ o) :
    (w.promises o = some P → promise_guard_free w P →
      moved_from (basic_promise.move_construct w a o) o P v e x) ∧
    ((basic_promise.destroy w a).1 = .returned () →
      (basic_promise.destroy w a).2.promises o = some P →
      promise_guard_free (basic_promise.destroy w a).2 P →
      moved_from (basic_promise.move_assign w a o) o P v e x) := by
  constructor
  · intro hP hg
    obtain ⟨h1, h2⟩ := move_construct_source w a o P hP hg ha
    exact moved_from_of _ o P v e x h1 h2 hg.1
  · intro hr hP hg
    obtain ⟨h1, h2⟩ := move_construct_source _ a o P hP hg ha
    have hm : basic_promise.move_assign w a o
        = basic_promise.move_construct (basic_promise.destroy w a).2 a o := by
      unfold basic_promise.move_assign
      generalize basic_promise.destroy w a = r at hr
      obtain ⟨r1, r2⟩ := r
      simp only at hr
      subst hr
      rfl
    rw [hm]
    exact moved_from_of _ o P v e x h1 h2 hg.1

/-- C14, amended, at the fresh promise at address 0, moved from by a construction at
address 1 and by an assignment to a second fresh promise at address 1. -/
theorem C14_moved_from_promise_witness :
    (1 : Nat) ≠ 0 ∧
    moved_from (basic_promise.move_construct world_fresh 1 0) 0
      { _storage := .empty, _need_locks := false, _detached := false,
        _lock := .unconstructed, is_consuming := true } 5 ⟨0, .generic⟩ .null ∧
    moved_from (basic_promise.move_assign (basic_promise.construct world_fresh 1 true) 1 0) 0
      { _storage := .empty, _need_locks := false, _detached := false,
        _lock := .unconstructed, is_consuming := true } 5 ⟨0, .generic⟩ .null :=
  ⟨by decide,
    (C14_moved_from_promise world_fresh 1 0 _ 5 ⟨0, .generic⟩ .null (by decide)).1
      world_fresh_promise ⟨rfl, fun _ hf => nomatch hf⟩,
    (C14_moved_from_promise (basic_promise.construct world_fresh 1 true) 1 0 _ 5
        ⟨0, .generic⟩ .null (by decide)).2
      (by simp [basic_promise.destroy, basic_promise.construct, world_fresh,
            lock_guard.of_promise, lock_guard.unlock, lock_guard.unlock_p, lock_guard.unlock_f,
            World.set_promise, value_storage.clear])
      (by simp [basic_promise.destroy, basic_promise.construct, world_fresh,
            lock_guard.of_promise, lock_guard.unlock, lock_guard.unlock_p, lock_guard.unlock_f,
            World.set_promise, value_storage.clear])
      ⟨rfl, fun _ hf => nomatch hf⟩⟩

/-- C15: when the pending future attached to a promise that is not detached is destroyed,
the destructor returns, the future is gone, and the promise is left with an empty carrier
(no longer `Pointer`) and not detached; a following `set_value`, `set_error` or
`set_exception` on the promise returns and stores the payload in the promise's own
carrier. -/
theorem C15_future_destroyed_pending (w : World T) (p f : Nat) (P : basic_promise T)
    (F : basic_future T) (v : T) (e : error_code) (x : exception_ptr)
    (h : attached_pair w p f P F) (hs : F._storage = .empty) (hd : P._detached = false) :
    (basic_future.destroy w f).1 = .returned () ∧
    (basic_future.destroy w f).2.futures f = none ∧
    (basic_future.destroy w f).2.promises p
      = some { P with _storage := .empty, _detached := false } ∧
    ((basic_promise.set_value (basic_future.destroy w f).2 p v).1 = .returned () ∧
     (basic_promise.set_value (basic_future.destroy w f).2 p v).2.promises p
       = some { P with _storage := .value v }) ∧
    ((basic_promise.set_error (basic_future.destroy w f).2 p e).1 = .returned () ∧
     (basic_promise.set_error (basic_future.destroy w f).2 p e).2.promises p
       = some { P with _storage := .error e }) ∧
    ((basic_promise.set_exception (basic_future.destroy w f).2 p x).1 = .returned () ∧
     (basic_promise.set_exception (basic_future.destroy w f).2 p x).2.promises p
       = some { P with _storage := .exception x }) := by
  have hPd : ({ P with _storage := .empty, _detached := false } : basic_promise T)
      = { P with _storage := .empty } := by
    cases P; simp_all
  have hdes : (basic_future.destroy w f).1 = .returned () ∧
      (basic_future.destroy w f).2.futures f = none ∧
      (basic_future.destroy w f).2.promises p = some { P with _storage := .empty } := by
    obtain ⟨hP, hF, hps, hp, hl, hfl, hnl⟩ := h
    obtain ⟨s, nl, d, l, c⟩ := P
    obtain ⟨fs, fnl, fl, fp, fc⟩ := F
    simp only [spinlock.at_rest] at hl hfl hps hp hnl hs hd
    subst hps hp hnl hs hd
    cases nl <;>
    simp_all [basic_future.destroy, basic_future.valid,
      lock_guard.of_future, lock_guard.leave, lock_guard.unlock, lock_guard.unlock_p,
      lock_guard.unlock_f, World.set_promise, World.set_future, World.count_acquisition,
      value_storage.clear]
  obtain ⟨h1, h2, h3⟩ := hdes
  have hl : spinlock.at_rest P._need_locks P._lock := h.2.2.2.2.1
  refine ⟨h1, h2, by rw [hPd]; exact h3, ?_, ?_, ?_⟩
  · have q := impl_local (fun s => s.set_value v) (.value v) rfl _ p _ h3 rfl hd hl
    exact ⟨q.1, q.2.1⟩
  · have q := impl_local (fun s => s.set_error e) (.error e) rfl _ p _ h3 rfl hd hl
    exact ⟨q.1, q.2.1⟩
  · have q := impl_local (fun s => s.set_exception x) (.exception x) rfl _ p _ h3 rfl hd hl
    exact ⟨q.1, q.2.1⟩

/-- C15 at the pending world: after the future is destroyed, `set_value(5)` stores 5 in
the promise. -/
theorem C15_future_destroyed_pending_witness :
    attached_pair world_pending 0 0
      { _storage := .pointer 0, _need_locks := true, _detached := false, _lock := .unlocked,
        is_consuming := true }
      { _storage := .empty, _need_locks := true, _lock := .unlocked, _promise := some 0,
        is_consuming := true } ∧
    (basic_promise.set_value (basic_future.destroy world_pending 0).2 0 5).2.promises 0
      = some { _storage := .value 5, _need_locks := true, _detached := false,
               _lock := .unlocked, is_consuming := true } :=
  have h : attached_pair world_pending 0 0
      { _storage := .pointer 0, _need_locks := true, _detached := false, _lock := .unlocked,
        is_consuming := true }
      { _storage := .empty, _need_locks := true, _lock := .unlocked, _promise := some 0,
        is_consuming := true } :=
    ⟨world_pending_promise, world_pending_future, rfl, rfl, rfl, rfl, rfl⟩
  ⟨h, (C15_future_destroyed_pending world_pending 0 0 _ _ 5 ⟨0, .generic⟩ .null h rfl
        rfl).2.2.2.1.2⟩

/-- C16: `valid()` is true exactly when the back-pointer is not null or the carrier holds
a value, an error or an exception; a default constructed future is not valid; a future
holding `Error(broken_promise)` with a null back-pointer is valid. -/
theorem C16_valid (F : basic_future T) (w : World T) (a : Nat) (c nl ic : Bool)
    (l : spinlock) :
    (F.valid = true ↔
      (F._promise ≠ none ∨ (∃ v, F._storage = .value v) ∨ (∃ e, F._storage = .error e) ∨
        ∃ x, F._storage = .exception x)) ∧
    ((basic_future.construct w a c).futures a).map basic_future.valid = some false ∧
    basic_future.valid
      ({ _storage := .error (make_error_code .broken_promise), _need_locks := nl, _lock := l,
         _promise := none, is_consuming := ic } : basic_future T) = true := by
  obtain ⟨fs, fnl, fl, fp, fc⟩ := F
  refine ⟨?_, ?_, ?_⟩
  · cases fp <;> cases fs <;>
      simp [basic_future.valid, basic_future.is_ready, value_storage.is_ready]
  · simp [basic_future.construct, World.set_future, basic_future.valid, basic_future.is_ready,
      value_storage.is_ready]
  · simp [basic_future.valid, basic_future.is_ready, value_storage.is_ready]

/-- C17: fails in the code for `get_error()` and `get_exception()`.  The member `wait()`
(which is `const` and yields no new world) returns on a ready future; on a future that is
not valid, `wait()` throws `no_state`, and `get()` throws `no_state` and hands back the
world it was given.  The calls `get_error()` and `get_exception()` are ill-formed and have
no behaviour; the statements of `_get_error_impl` and `_get_exception_impl`, run on a
future that is not valid, throw `no_state` and hand back the world they were given. -/
theorem C17_wait_and_no_state (w : World T) (f : Nat) (F : basic_future T)
    (hF : w.futures f = some F) :
    (F.is_ready = true → basic_future.wait w f = .returned ()) ∧
    basic_future.get_error w f = none ∧
    basic_future.get_exception w f = none ∧
    (F.valid = false →
      basic_future.wait w f = .thrown (.future_error (make_error_code .no_state)) ∧
      basic_future.get w f = (.thrown (.future_error (make_error_code .no_state)), w) ∧
      basic_future.get_error_statements w f
        = (.thrown (.future_error (make_error_code .no_state)), w) ∧
      basic_future.get_exception_statements w f
        = (.thrown (.future_error (make_error_code .no_state)), w)) := by
  obtain ⟨fs, fnl, fl, fp, fc⟩ := F
  refine ⟨?_, ?_, ?_, ?_⟩
  · intro h
    simp_all [basic_future.wait]
  · simp [basic_future.get_error, hF, future_policy._get_error, future_policy._get_error_impl,
      deduce, template_argument.has_pointer_type]
  · simp [basic_future.get_exception, hF, future_policy._get_exception,
      future_policy._get_exception_impl, deduce, template_argument.has_pointer_type]
  · intro h
    have hr : basic_future.is_ready
        ({ _storage := fs, _need_locks := fnl, _lock := fl, _promise := fp,
           is_consuming := fc } : basic_future T) = false := by
      cases fp <;> cases fs <;>
        simp_all [basic_future.valid, basic_future.is_ready, value_storage.is_ready]
    cases fc <;>
    simp_all [basic_future.wait, basic_future.get, basic_future.get_error_statements,
      basic_future.get_exception_statements, future_policy._get_value,
      shared_future_policy._get_value,
      future_policy._get_error_impl_statements, future_policy._get_exception_impl_statements]

/-- C17 at a default constructed future: `get()` throws `no_state` and changes nothing,
and the call `get_error()` is ill-formed. -/
theorem C17_wait_and_no_state_witness :
    (basic_future.construct (World.empty : World Nat) 0 true).futures 0
      = some { _storage := .empty, _need_locks := false, _lock := .unconstructed,
               _promise := none, is_consuming := true } ∧
    basic_future.get (basic_future.construct (World.empty : World Nat) 0 true) 0
      = (.thrown (.future_error (make_error_code .no_state)),
         basic_future.construct (World.empty : World Nat) 0 true) ∧
    basic_future.get_error (basic_future.construct (World.empty : World Nat) 0 true) 0
      = none :=
  have h : (basic_future.construct (World.empty : World Nat) 0 true).futures 0
      = some { _storage := .empty, _need_locks := false, _lock := .unconstructed,
               _promise := none, is_consuming := true } := by
    simp [basic_future.construct, World.set_future]
  ⟨h, ((C17_wait_and_no_state _ 0 _ h).2.2.2 rfl).2.1, (C17_wait_and_no_state _ 0 _ h).2.1⟩

/-- C18 fails on the code: on a consuming future holding `Error(e)` (`e` = 5 in the generic
category) `get()` throws a `system_error` carrying `e`, but the carrier afterwards still
holds `Error(e)`, and a further `get()` throws the same again instead of `no_state`;
likewise `get()` on a consuming future holding `Exception(x)` rethrows `x` and leaves the
carrier holding `Exception(x)`.  The clearing in `_pre_get_value` acts on the local copy
`_self`. -/
theorem C18_error_not_cleared :
    world_error_future.futures 0
      = some { _storage := .error ⟨5, .generic⟩, _need_locks := false, _lock := .unconstructed,
               _promise := none, is_consuming := true } ∧
    (basic_future.get world_error_future 0).1 = .thrown (.system_error ⟨5, .generic⟩) ∧
    (basic_future.get world_error_future 0).2.futures 0
      = some { _storage := .error ⟨5, .generic⟩, _need_locks := false, _lock := .unconstructed,
               _promise := none, is_consuming := true } ∧
    (basic_future.get (basic_future.get world_error_future 0).2 0).1
      = .thrown (.system_error ⟨5, .generic⟩) ∧
    world_exception_future.futures 0
      = some { _storage := .exception (.ref 7), _need_locks := false, _lock := .unconstructed,
               _promise := none, is_consuming := true } ∧
    (basic_future.get world_exception_future 0).1 = .thrown (.rethrown (.ref 7)) ∧
    (basic_future.get world_exception_future 0).2.futures 0
      = some { _storage := .exception (.ref 7), _need_locks := false, _lock := .unconstructed,
               _promise := none, is_consuming := true } := by
  simp [world_error_future, world_exception_future, world_fresh, basic_promise.construct,
    basic_promise.set_error, basic_promise.set_exception,
    basic_promise.BOOST_SPINLOCK_FUTURE_IMPL, basic_promise.get_future,
    basic_future.of_promise, basic_future.get, future_policy._get_value,
    future_policy._pre_get_value, basic_future.wait, rethrow_exception,
    lock_guard.of_promise, lock_guard.of_future, lock_guard.leave, lock_guard.unlock,
    lock_guard.unlock_p, lock_guard.unlock_f, World.set_promise, World.set_future, World.empty,
    value_storage.set_error, value_storage.set_exception, value_storage.clear,
    value_storage.type, value_storage.is_ready, basic_future.empty, basic_future.is_ready,
    basic_future.valid, basic_future.has_error, basic_future.has_exception,
    value_storage.has_error, value_storage.has_exception]

/-- C19: fails in the code.  On every future the calls `get_error()` and `get_exception()`
are ill-formed and have no behaviour.  The statements of `_get_error_impl` and
`_get_exception_impl`, run on a future whose guard is free, do what the claim says: when
the carrier is `Error(e)`, they return `e` and the reference made from `system_error(e)`;
when the carrier is `Exception(x)`, they return the code `exception_present` of the monad
category and `x`. -/
theorem C19_cross_category (w : World T) (f : Nat) (F : basic_future T)
    (hF : w.futures f = some F) (hg : future_guard_free w F) :
    basic_future.get_error w f = none ∧
    basic_future.get_exception w f = none ∧
    (∀ e, F._storage = .error e →
      (basic_future.get_error_statements w f).1 = .returned e ∧
      (basic_future.get_exception_statements w f).1 = .returned (.of_system_error e)) ∧
    (∀ x, F._storage = .exception x →
      (basic_future.get_error_statements w f).1
        = .returned ⟨monad_errc.exception_present.toInt, .monad⟩ ∧
      (basic_future.get_exception_statements w f).1 = .returned x) := by
  refine ⟨?_, ?_, ?_⟩
  · simp [basic_future.get_error, hF, future_policy._get_error, future_policy._get_error_impl,
      deduce, template_argument.has_pointer_type]
  · simp [basic_future.get_exception, hF, future_policy._get_exception,
      future_policy._get_exception_impl, deduce, template_argument.has_pointer_type]
  obtain ⟨fs, fnl, fl, fp, fc⟩ := F
  obtain ⟨hl, hg⟩ := hg
  simp only [spinlock.at_rest] at hl hg
  cases fp with
  | none =>
    constructor <;> intro y hy <;> simp only at hy <;> subst hy <;>
    cases fnl <;> cases fc <;>
    simp_all [lock_guard.of_future, lock_guard.leave, lock_guard.unlock,
      lock_guard.unlock_p, lock_guard.unlock_f, World.set_promise, World.set_future,
      World.count_acquisition, value_storage.is_ready, value_storage.clear,
      basic_future.is_ready, basic_future.valid, basic_future.get_error_statements,
      basic_future.get_exception_statements, future_policy._get_error_impl_statements,
      future_policy._get_exception_impl_statements, basic_future.wait]
  | some p =>
    obtain ⟨P, hP, hPl, hn⟩ := hg p rfl
    obtain ⟨s, nl, d, l, c⟩ := P
    simp only [spinlock.at_rest] at hPl hn
    constructor <;> intro y hy <;> simp only at hy <;> subst hy <;>
    cases fnl <;> cases nl <;> cases fc <;>
    simp_all [lock_guard.of_future, lock_guard.leave, lock_guard.unlock,
      lock_guard.unlock_p, lock_guard.unlock_f, World.set_promise, World.set_future,
      World.count_acquisition, value_storage.is_ready, value_storage.clear,
      basic_future.is_ready, basic_future.valid, basic_future.get_error_statements,
      basic_future.get_exception_statements, future_policy._get_error_impl_statements,
      future_policy._get_exception_impl_statements, basic_future.wait]

/-- C19 at a future holding the error 5 of the generic category: the calls `get_error()`
and `get_exception()` are ill-formed; the statements of `_get_exception_impl` return the
reference wrapping a system error built from the code. -/
theorem C19_cross_category_witness :
    world_error_future.futures 0
      = some { _storage := .error ⟨5, .generic⟩, _need_locks := false, _lock := .unconstructed,
               _promise := none, is_consuming := true } ∧
    basic_future.get_error world_error_future 0 = none ∧
    basic_future.get_exception world_error_future 0 = none ∧
    (basic_future.get_exception_statements world_error_future 0).1
      = .returned (.of_system_error ⟨5, .generic⟩) :=
  have h := C19_cross_category world_error_future 0 _ world_error_future_future
    ⟨rfl, fun _ hp => nomatch hp⟩
  ⟨world_error_future_future, h.1, h.2.1, (h.2.2.1 ⟨5, .generic⟩ rfl).2⟩

/-- C20 as stated fails: a fresh promise at address 0 emits its future, the still pending
future is destroyed, and `has_future()` on the promise is then not true, although a future
has been emitted. -/
theorem C20_counterexample :
    (basic_promise.get_future world_fresh 0 0).1 = .returned () ∧
    (basic_future.destroy world_pending 0).1 = .returned () ∧
    (basic_future.destroy world_pending 0).2.futures 0 = none ∧
    ¬ (((basic_future.destroy world_pending 0).2.promises 0).map basic_promise.has_future
        = some true) := by
  simp [world_pending, world_fresh, basic_promise.construct, basic_promise.get_future,
    basic_future.of_promise, basic_future.destroy, basic_future.valid,
    basic_promise.has_future, storage_type.future,
    lock_guard.of_promise, lock_guard.of_future, lock_guard.leave, lock_guard.unlock,
    lock_guard.unlock_p, lock_guard.unlock_f, World.set_promise, World.set_future, World.empty,
    World.count_acquisition, World.count_construction,
    value_storage.set_pointer, value_storage.clear, value_storage.type, basic_future.empty]

/-- C20, amended: `has_future()` is true exactly when the carrier is `Pointer` (a future is
attached) or the promise is detached.  It is false on a fresh promise, with or without a
stored payload; true while the emitted future is pending; true after the payload has been
handed over, in either order of `set_value` and `get_future`, and still true after that
future has been destroyed; and false again after a still pending future has been
destroyed. -/
theorem C20_has_future (w : World T) (p a : Nat) (v : T) (c : Bool) (P : basic_promise T) :
    (P.has_future = true ↔ ((∃ f, P._storage = .pointer f) ∨ P._detached = true)) ∧
    ((basic_promise.construct w p c).promises p).map basic_promise.has_future = some false ∧
    ((basic_promise.set_value (basic_promise.construct w p c) p v).2.promises p).map
      basic_promise.has_future = some false ∧
    ((basic_promise.get_future (basic_promise.construct w p c) p a).2.promises p).map
      basic_promise.has_future = some true ∧
    ((basic_promise.set_value
      (basic_promise.get_future (basic_promise.construct w p c) p a).2 p v).2.promises p).map
      basic_promise.has_future = some true ∧
    ((basic_promise.get_future
      (basic_promise.set_value (basic_promise.construct w p c) p v).2 p a).2.promises p).map
      basic_promise.has_future = some true ∧
    ((basic_future.destroy (basic_promise.set_value
      (basic_promise.get_future (basic_promise.construct w p c) p a).2 p v).2 a).2.promises p).map
      basic_promise.has_future = some true ∧
    ((basic_future.destroy (basic_promise.get_future
      (basic_promise.set_value (basic_promise.construct w p c) p v).2 p a).2 a).2.promises p).map
      basic_promise.has_future = some true ∧
    ((basic_future.destroy
      (basic_promise.get_future (basic_promise.construct w p c) p a).2 a).2.promises p).map
      basic_promise.has_future = some false := by
  refine ⟨?_, ?_⟩
  · obtain ⟨s, nl, d, l, ic⟩ := P
    cases s <;> cases d <;>
      simp [basic_promise.has_future, storage_type.future, value_storage.type]
  · simp [basic_promise.construct, basic_promise.set_value,
      basic_promise.BOOST_SPINLOCK_FUTURE_IMPL, basic_promise.get_future,
      basic_future.of_promise, basic_future.destroy, basic_future.valid,
      basic_future.is_ready, value_storage.is_ready,
      basic_promise.has_future, storage_type.future,
      lock_guard.of_promise, lock_guard.of_future, lock_guard.leave, lock_guard.unlock,
      lock_guard.unlock_p, lock_guard.unlock_f, World.set_promise, World.set_future,
      World.count_acquisition, World.count_construction, value_storage.set_value,
      value_storage.set_pointer, value_storage.clear, value_storage.type, basic_future.empty]

/-- C21 as stated fails: in the world with a pending promise at address 0 (its
`_need_locks` is on) and a fresh promise at address 1 (its `_need_locks` is off), the move
assignment of the second to the first returns and leaves the promise at address 0 with
`_need_locks` off. -/
theorem C21_counterexample :
    world_pending_and_fresh.promises 0
      = some { _storage := .pointer 0, _need_locks := true, _detached := false,
               _lock := .unlocked, is_consuming := true } ∧
    world_pending_and_fresh.promises 1
      = some { _storage := .empty, _need_locks := false, _detached := false,
               _lock := .unconstructed, is_consuming := true } ∧
    (basic_promise.move_assign world_pending_and_fresh 0 1).1 = .returned () ∧
    (basic_promise.move_assign world_pending_and_fresh 0 1).2.promises 0
      = some { _storage := .empty, _need_locks := false, _detached := false,
               _lock := .unconstructed, is_consuming := true } := by
  simp [world_pending_and_fresh, world_pending, world_fresh, basic_promise.construct,
    basic_promise.get_future, basic_future.of_promise, basic_promise.move_assign,
    basic_promise.move_construct, basic_promise.destroy, basic_future.is_ready,
    value_storage.is_ready, value_storage.set_error,
    lock_guard.of_promise, lock_guard.leave, lock_guard.unlock,
    lock_guard.unlock_p, lock_guard.unlock_f, World.set_promise, World.set_future, World.empty,
    World.count_acquisition, World.count_construction,
    value_storage.set_pointer, value_storage.clear, value_storage.type, basic_future.empty]

/-- C21, amended: under every public operation other than the swap of two futures, every
promise and every future other than the one the operation builds (for a move assignment:
the destination, destroyed and built anew from the source) keeps its `_need_locks`, except
that `get_future()` on a promise whose carrier is empty may switch the flag of that promise
from off to on. -/
theorem C21_need_locks_latch (w : World T) (op : public_op T)
    (hop : op.is_future_swap = false) :
    (∀ q P P1, w.promises q = some P → (op.run w).2.promises q = some P1 →
      op.builds_promise ≠ some q →
      P1._need_locks = P._need_locks ∨
        (P._need_locks = false ∧ P1._need_locks = true ∧ P._storage = .empty ∧
          ∃ a, op = .get_future q a)) ∧
    (∀ g F F1, w.futures g = some F → (op.run w).2.futures g = some F1 →
      op.builds_future ≠ some g → F1._need_locks = F._need_locks) := by
  have hop' : ∀ a o, op ≠ .future_swap a o := by
    intro a o h
    rw [h] at hop
    simp [public_op.is_future_swap] at hop
  obtain ⟨bp, hbp, hf⟩ := run_frame op w hop'
  constructor
  · intro q P P1 hP hP1 hq
    rcases hbp with rfl | ⟨p, a, rfl, rfl⟩
    · obtain ⟨P0, hP0, e⟩ := hf.1 q P1 hP1 (fun h => hq h.symm)
      rw [hP] at hP0
      cases hP0
      exact Or.inl e
    · by_cases hqp : q = p
      · subst hqp
        rcases get_future_flag w q a P P1 hP hP1 with e | ⟨e1, e2, e3⟩
        · exact Or.inl e
        · exact Or.inr ⟨e1, e2, e3, a, rfl⟩
      · obtain ⟨P0, hP0, e⟩ := hf.1 q P1 hP1 (fun h => hqp (Option.some.inj h))
        rw [hP] at hP0
        cases hP0
        exact Or.inl e
  · intro g F F1 hF hF1 hg
    obtain ⟨F0, hF0, e⟩ := hf.2.1 g F1 hF1 (fun h => hg h.symm)
    rw [hF] at hF0
    cases hF0
    exact e

/-- C21, amended, at the fresh promise at address 0: `get_future()` finds the carrier
empty and switches `_need_locks` from off to on. -/
theorem C21_need_locks_latch_witness :
    (public_op.get_future 0 0 : public_op Nat).is_future_swap = false ∧
    world_fresh.promises 0
      = some { _storage := .empty, _need_locks := false, _detached := false,
               _lock := .unconstructed, is_consuming := true } ∧
    ((public_op.get_future 0 0 : public_op Nat).run world_fresh).2.promises 0
      = some { _storage := .pointer 0, _need_locks := true, _detached := false,
               _lock := .unlocked, is_consuming := true } ∧
    ((true = false) ∨
      (false = false ∧ true = true ∧ (value_storage.empty : value_storage Nat) = .empty ∧
        ∃ a, (public_op.get_future 0 0 : public_op Nat) = .get_future 0 a)) :=
  ⟨rfl, world_fresh_promise, world_pending_promise,
    (C21_need_locks_latch world_fresh (.get_future 0 0) rfl).1 0 _ _ world_fresh_promise
      world_pending_promise (by simp [public_op.builds_promise])⟩

/-- C22: `share()` on a future that is not valid throws `no_state` and changes nothing;
on a valid future `F` whose guard is free it returns, the shared future built at `a` is `F`
with the same carrier and back-pointer and not consuming, an attached promise points to it,
and `F` is left empty, without promise, and not valid. -/
theorem C22_share (w : World T) (a f : Nat) (F : basic_future T)
    (hF : w.futures f = some F) (ha : a ≠ f) :
    (F.valid = false →
      basic_future.share w a f = (.thrown (.future_error (make_error_code .no_state)), w)) ∧
    (F.valid = true → future_movable w F →
      (basic_future.share w a f).1 = .returned () ∧
      (basic_future.share w a f).2.futures a = some { F with is_consuming := false } ∧
      (basic_future.share w a f).2.futures f
        = some { F with _storage := .empty, _promise := none } ∧
      basic_future.valid ({ F with _storage := .empty, _promise := none } : basic_future T)
        = false ∧
      (∀ p P, F._promise = some p → w.promises p = some P →
        (basic_future.share w a f).2.promises p = some { P with _storage := .pointer a })) := by
  constructor
  · intro hv
    simp [basic_future.share, hF, hv]
  · intro hv hm
    obtain ⟨h1, h2, h3, h4⟩ := future_move_construct_post w a f F hF ha hm
    have hs : basic_future.share w a f
        = (.returned (), (basic_future.move_construct w a f).2.set_future a
            (some { F with is_consuming := false })) := by
      unfold basic_future.share
      generalize basic_future.move_construct w a f = r at h1 h2
      obtain ⟨r1, r2⟩ := r
      simp only at h1 h2
      subst h1
      simp [hF, hv, h2]
    have ha' : ¬ f = a := fun h => ha h.symm
    rw [hs]
    refine ⟨rfl, ?_, ?_, ?_, ?_⟩
    · simp [World.set_future]
    · simp [World.set_future, ha', h3]
    · simp [basic_future.valid, basic_future.is_ready, value_storage.is_ready]
    · intro p P hp hP
      simpa [World.set_future] using h4 p P hp hP

/-- C22 at the pending world: `share()` of the future at address 0 into address 1 gives a
pending shared future attached to the promise, and leaves the source empty. -/
theorem C22_share_witness :
    world_pending.futures 0
      = some { _storage := .empty, _need_locks := true, _lock := .unlocked,
               _promise := some 0, is_consuming := true } ∧
    (basic_future.share world_pending 1 0).1 = .returned () ∧
    (basic_future.share world_pending 1 0).2.futures 1
      = some { _storage := .empty, _need_locks := true, _lock := .unlocked,
               _promise := some 0, is_consuming := false } ∧
    (basic_future.share world_pending 1 0).2.futures 0
      = some { _storage := .empty, _need_locks := true, _lock := .unlocked,
               _promise := none, is_consuming := true } ∧
    (basic_future.share world_pending 1 0).2.promises 0
      = some { _storage := .pointer 1, _need_locks := true, _detached := false,
               _lock := .unlocked, is_consuming := true } :=
  have h := (C22_share world_pending 1 0 _ world_pending_future (by decide)).2 rfl
    ⟨⟨rfl, by
        intro p hp
        cases hp
        exact ⟨_, world_pending_promise, rfl, fun _ => rfl⟩⟩,
      by
        intro p P hp hP
        cases hp
        rw [world_pending_promise] at hP
        cases hP
        exact ⟨0, rfl⟩⟩
  ⟨world_pending_future, h.1, h.2.1, h.2.2.1, h.2.2.2.2 0 _ rfl world_pending_promise⟩

/-- C23: for two distinct promises whose guards are free and which do not point to the
same future, `swap` returns and exchanges the carriers (and nothing else of the promises);
a future attached to the first now has the second as back-pointer and the other way
round, and is otherwise unchanged. -/
theorem C23_promise_swap (w : World T) (a b : Nat) (A B : basic_promise T)
    (hab : a ≠ b) (hA : w.promises a = some A) (hB : w.promises b = some B)
    (hgA : promise_guard_free w A) (hgB : promise_guard_free w B)
    (hd : ∀ f, A._storage = .pointer f → B._storage ≠ .pointer f) :
    (basic_promise.swap w a b).1 = .returned () ∧
    (basic_promise.swap w a b).2.promises a = some { A with _storage := B._storage } ∧
    (basic_promise.swap w a b).2.promises b = some { B with _storage := A._storage } ∧
    (∀ f F, A._storage = .pointer f → w.futures f = some F →
      (basic_promise.swap w a b).2.futures f = some { F with _promise := some b }) ∧
    (∀ f F, B._storage = .pointer f → w.futures f = some F →
      (basic_promise.swap w a b).2.futures f = some { F with _promise := some a }) := by
  obtain ⟨hlA, hgA⟩ := hgA
  obtain ⟨hlB, hgB⟩ := hgB
  obtain ⟨sa, nla, da, la, ca⟩ := A
  obtain ⟨sb, nlb, db, lb, cb⟩ := B
  simp only [spinlock.at_rest] at hlA hlB hgA hgB hd
  rw [hlA] at hA ⊢
  rw [hlB] at hB ⊢
  by_cases hpa : ∃ f, sa = .pointer f
  · obtain ⟨fa, hfa⟩ := hpa
    subst hfa
    obtain ⟨FA, hFA, hFAl, hna⟩ := hgA fa rfl
    by_cases hpb : ∃ f, sb = .pointer f
    · obtain ⟨fb, hfb⟩ := hpb
      subst hfb
      obtain ⟨FB, hFB, hFBl, hnb⟩ := hgB fb rfl
      have hne : fa ≠ fb := fun h => hd fa rfl (by rw [h])
      have key := promise_swap_both w a b fa fb nla da ca nlb db cb FA FB hab hne hA hB hFA hFB
        hFAl hFBl hna hnb
      refine ⟨key.1, key.2.1, key.2.2.1, ?_, ?_⟩
      · intro f F hf hF
        cases hf
        rw [hFA] at hF
        cases hF
        exact key.2.2.2.1
      · intro f F hf hF
        cases hf
        rw [hFB] at hF
        cases hF
        exact key.2.2.2.2
    · have hsb : ∀ f, sb ≠ .pointer f := fun f h => hpb ⟨f, h⟩
      have key := promise_swap_first w a b fa nla da ca nlb db cb sb FA hab hsb hA hB hFA
        hFAl hna
      refine ⟨key.1, key.2.1, key.2.2.1, ?_, ?_⟩
      · intro f F hf hF
        cases hf
        rw [hFA] at hF
        cases hF
        exact key.2.2.2
      · intro f F hf
        exact absurd hf (hsb f)
  · have hsa : ∀ f, sa ≠ .pointer f := fun f h => hpa ⟨f, h⟩
    by_cases hpb : ∃ f, sb = .pointer f
    · obtain ⟨fb, hfb⟩ := hpb
      subst hfb
      obtain ⟨FB, hFB, hFBl, hnb⟩ := hgB fb rfl
      have key := promise_swap_second w a b fb nla da ca nlb db cb sa FB hab hsa hA hB hFB
        hFBl hnb
      refine ⟨key.1, key.2.1, key.2.2.1, ?_, ?_⟩
      · intro f F hf
        exact absurd hf (hsa f)
      · intro f F hf hF
        cases hf
        rw [hFB] at hF
        cases hF
        exact key.2.2.2
    · have hsb : ∀ f, sb ≠ .pointer f := fun f h => hpb ⟨f, h⟩
      have key := promise_swap_neither w a b nla da ca nlb db cb sa sb hab hsa hsb hA hB
      refine ⟨key.1, key.2.1, key.2.2, ?_, ?_⟩
      · intro f F hf
        exact absurd hf (hsa f)
      · intro f F hf
        exact absurd hf (hsb f)

/-- C23 at a pending promise (address 0) and a fresh one (address 1): after the swap the
fresh promise holds the pointer and the future points to address 1. -/
theorem C23_promise_swap_witness :
    world_pending_and_fresh.promises 0
      = some { _storage := .pointer 0, _need_locks := true, _detached := false,
               _lock := .unlocked, is_consuming := true } ∧
    world_pending_and_fresh.promises 1
      = some { _storage := .empty, _need_locks := false, _detached := false,
               _lock := .unconstructed, is_consuming := true } ∧
    (basic_promise.swap world_pending_and_fresh 0 1).1 = .returned () ∧
    (basic_promise.swap world_pending_and_fresh 0 1).2.promises 0
      = some { _storage := .empty, _need_locks := true, _detached := false,
               _lock := .unlocked, is_consuming := true } ∧
    (basic_promise.swap world_pending_and_fresh 0 1).2.promises 1
      = some { _storage := .pointer 0, _need_locks := false, _detached := false,
               _lock := .unconstructed, is_consuming := true } ∧
    (basic_promise.swap world_pending_and_fresh 0 1).2.futures 0
      = some { _storage := .empty, _need_locks := true, _lock := .unlocked,
               _promise := some 1, is_consuming := true } :=
  have h := C23_promise_swap world_pending_and_fresh 0 1
    { _storage := .pointer 0, _need_locks := true, _detached := false,
      _lock := .unlocked, is_consuming := true }
    { _storage := .empty, _need_locks := false, _detached := false,
      _lock := .unconstructed, is_consuming := true }
    (by decide) rfl rfl
    ⟨rfl, by
      intro f hf
      cases hf
      exact ⟨{ _storage := .empty, _need_locks := true, _lock := .unlocked,
               _promise := some 0, is_consuming := true }, rfl, rfl, fun _ => rfl⟩⟩
    ⟨rfl, fun _ hf => nomatch hf⟩
    (fun _ _ hf => nomatch hf)
  ⟨rfl, rfl, h.1, h.2.1, h.2.2.1, h.2.2.2.1 0 _ rfl rfl⟩

/-- C24: in every world reachable from the empty one through the public operations, no
future has a carrier of type pointer. -/
theorem C24_pointer_never_leaks (w : World T) (h : reachable w) (f : Nat)
    (F : basic_future T) (hF : w.futures f = some F) :
    F._storage.type ≠ .pointer ∧ ∀ g, F._storage ≠ .pointer g := by
  have hn := reachable_no_pointer w h
  refine ⟨?_, fun g => hn f F g hF⟩
  cases hs : F._storage with
  | pointer g => exact absurd hs (hn f F g hF)
  | _ => simp [value_storage.type]

/-- C24 at the pending world, which is reachable: the carrier of the future is empty, not a
pointer. -/
theorem C24_pointer_never_leaks_witness :
    reachable world_pending ∧
    world_pending.futures 0
      = some { _storage := .empty, _need_locks := true, _lock := .unlocked,
               _promise := some 0, is_consuming := true } ∧
    (value_storage.empty : value_storage Nat).type ≠ .pointer :=
  ⟨world_pending_reachable, world_pending_future,
    (C24_pointer_never_leaks world_pending world_pending_reachable 0 _
      world_pending_future).1⟩

/-- C25: under every interleaving of the thread that constructs the guard from the promise
and the thread that constructs it from the attached future (both with `_need_locks` on),
the two threads are never both blocked in `lock()`; a thread that is blocked is no longer
blocked after two steps of the other thread, which releases what it holds; and from the
state reached some continuation brings both threads through their guard, with both locks
free. -/
theorem C25_guard_deadlock_free (schedule : List guard_side) :
    ¬ ((guard_pair.start.run schedule).blocked .promise = true ∧
       (guard_pair.start.run schedule).blocked .future = true) ∧
    (∀ t, (guard_pair.start.run schedule).blocked t = true →
      (((guard_pair.start.run schedule).step t.other).step t.other).blocked t = false) ∧
    (∃ rest : List guard_side,
      ((guard_pair.start.run schedule).run rest).promise_pc = .done ∧
      ((guard_pair.start.run schedule).run rest).future_pc = .done ∧
      ((guard_pair.start.run schedule).run rest).promise_lock = false ∧
      ((guard_pair.start.run schedule).run rest).future_lock = false) := by
  have h := guard_consistent_run schedule guard_pair.start (by decide)
  exact ⟨guard_not_both_blocked _ h, fun t hb => guard_unblocked _ t h hb,
    ⟨_, guard_finish _ h⟩⟩

/-- C26: for every `v`, a carrier constructed with the value `v` and moved into a second
carrier gives `v` from `get()` of the second, and the first is left empty; `test1` of the
test returns 5, and `main` returns 0. -/
theorem C26_carrier_move_round_trip (v : Int) :
    (value_storage.move (value_storage.construct_value v)).1.get = some v ∧
    (value_storage.move (value_storage.construct_value v)).2 = value_storage.empty ∧
    min_option_construct_value_move_destruct.test1 = some 5 ∧
    min_option_construct_value_move_destruct.main = 0 := by
  refine ⟨rfl, rfl, rfl, ?_⟩
  decide

/-- C27: `_throw_error` throws a `future_error` with `promise_already_satisfied` for
`already_set`, one with `no_state` for `no_state`, and aborts for every other code; `get()`
on a future holding the error `e` throws a `future_error` with `e` when the category of
`e` is the future category and a `system_error` with `e` otherwise. -/
theorem C27_error_dispatch (w : World T) (f : Nat) (F : basic_future T) (e : error_code)
    (hF : w.futures f = some F) (hs : F._storage = .error e) (hg : future_guard_free w F) :
    (_throw_error .already_set : Outcome Unit)
      = .thrown (.future_error (make_error_code .promise_already_satisfied)) ∧
    (_throw_error .no_state : Outcome Unit)
      = .thrown (.future_error (make_error_code .no_state)) ∧
    (∀ ec : monad_errc, ec ≠ .already_set → ec ≠ .no_state →
      (_throw_error ec : Outcome Unit) = .aborted) ∧
    (e.category = .future → (basic_future.get w f).1 = .thrown (.future_error e)) ∧
    (e.category ≠ .future → (basic_future.get w f).1 = .thrown (.system_error e)) := by
  refine ⟨rfl, rfl, ?_, ?_⟩
  · intro ec h1 h2
    cases ec <;> simp_all [_throw_error]
  · obtain ⟨fs, fnl, fl, fp, fc⟩ := F
    obtain ⟨hl, hg⟩ := hg
    simp only [spinlock.at_rest] at hl hg hs
    subst hs
    cases fp with
    | none =>
      constructor <;> intro hc <;>
      cases fnl <;> cases fc <;>
      simp_all [lock_guard.of_future, lock_guard.leave, lock_guard.unlock,
        lock_guard.unlock_p, lock_guard.unlock_f, World.set_promise, World.set_future,
        World.count_acquisition, value_storage.is_ready,
        basic_future.is_ready, basic_future.valid, basic_future.get,
        future_policy._get_value, shared_future_policy._get_value,
        future_policy._pre_get_value, basic_future.wait,
        basic_future.has_error, basic_future.has_exception, value_storage.has_error,
        value_storage.has_exception]
    | some p =>
      obtain ⟨P, hP, hPl, hn⟩ := hg p rfl
      obtain ⟨s, nl, d, l, c⟩ := P
      simp only [spinlock.at_rest] at hPl hn
      constructor <;> intro hc <;>
      cases fnl <;> cases nl <;> cases fc <;>
      simp_all [lock_guard.of_future, lock_guard.leave, lock_guard.unlock,
        lock_guard.unlock_p, lock_guard.unlock_f, World.set_promise, World.set_future,
        World.count_acquisition, value_storage.is_ready,
        basic_future.is_ready, basic_future.valid, basic_future.get,
        future_policy._get_value, shared_future_policy._get_value,
        future_policy._pre_get_value, basic_future.wait,
        basic_future.has_error, basic_future.has_exception, value_storage.has_error,
        value_storage.has_exception]

/-- C27 at a future holding the error 5 of the generic category: `get()` throws a
`system_error` with that code. -/
theorem C27_error_dispatch_witness :
    world_error_future.futures 0
      = some { _storage := .error ⟨5, .generic⟩, _need_locks := false, _lock := .unconstructed,
               _promise := none, is_consuming := true } ∧
    (basic_future.get world_error_future 0).1 = .thrown (.system_error ⟨5, .generic⟩) :=
  ⟨world_error_future_future,
    (C27_error_dispatch world_error_future 0 _ ⟨5, .generic⟩ world_error_future_future rfl
      ⟨rfl, fun _ hp => nomatch hp⟩).2.2.2.2 (by decide)⟩

/-- C28 fails in the code: a detached promise at address 0 is swapped with a promise at
address 1 whose future is pending.  The swap exchanges the carriers only, so the promise at
address 0 holds the pointer to the future and is still marked detached; its destructor
therefore skips the notification of the future, and in the world reached the future at
address 1 has a back-pointer to a promise that is no more (destroying the future is then
undefined). -/
theorem C28_swap_detached_dangles :
    reachable (basic_promise.destroy (basic_promise.swap world_detached_and_pending 0 1).2 0).2 ∧
    world_detached_and_pending.promises 0
      = some { _storage := .empty, _need_locks := false, _detached := true,
               _lock := .unconstructed, is_consuming := true } ∧
    world_detached_and_pending.promises 1
      = some { _storage := .pointer 1, _need_locks := true, _detached := false,
               _lock := .unlocked, is_consuming := true } ∧
    world_detached_and_pending.futures 1
      = some { _storage := .empty, _need_locks := true, _lock := .unlocked,
               _promise := some 1, is_consuming := true } ∧
    (basic_promise.swap world_detached_and_pending 0 1).1 = .returned () ∧
    (basic_promise.swap world_detached_and_pending 0 1).2.promises 0
      = some { _storage := .pointer 1, _need_locks := false, _detached := true,
               _lock := .unconstructed, is_consuming := true } ∧
    (basic_promise.swap world_detached_and_pending 0 1).2.futures 1
      = some { _storage := .empty, _need_locks := true, _lock := .unlocked,
               _promise := some 0, is_consuming := true } ∧
    (basic_promise.destroy (basic_promise.swap world_detached_and_pending 0 1).2 0).1
      = .returned () ∧
    (basic_promise.destroy (basic_promise.swap world_detached_and_pending 0 1).2 0).2.promises 0
      = none ∧
    (basic_promise.destroy (basic_promise.swap world_detached_and_pending 0 1).2 0).2.futures 1
      = some { _storage := .empty, _need_locks := true, _lock := .unlocked,
               _promise := some 0, is_consuming := true } ∧
    (basic_future.destroy
      (basic_promise.destroy (basic_promise.swap world_detached_and_pending 0 1).2 0).2 1).1
      = .undefined :=
  ⟨reachable.step _ (.promise_destroy 0)
      (reachable.step _ (.promise_swap 0 1) world_detached_and_pending_reachable rfl) rfl,
    rfl, rfl, rfl, rfl, rfl, rfl, rfl, rfl, rfl, rfl⟩

/-- C29 fails in the code: a pending promise at address 0 is swapped with a fresh promise
at address 1.  In the world reached the promise at address 1 holds the pointer to the
future with `_need_locks` off and its lock never constructed, while the future has
`_need_locks` on; the guard taken from the future then calls `try_lock` on the lock that
was never constructed. -/
theorem C29_swap_pointer_without_locks :
    reachable (basic_promise.swap world_pending_and_fresh 0 1).2 ∧
    (basic_promise.swap world_pending_and_fresh 0 1).1 = .returned () ∧
    (basic_promise.swap world_pending_and_fresh 0 1).2.promises 1
      = some { _storage := .pointer 0, _need_locks := false, _detached := false,
               _lock := .unconstructed, is_consuming := true } ∧
    (basic_promise.swap world_pending_and_fresh 0 1).2.futures 0
      = some { _storage := .empty, _need_locks := true, _lock := .unlocked,
               _promise := some 1, is_consuming := true } ∧
    lock_guard.of_future (basic_promise.swap world_pending_and_fresh 0 1).2 0 = .undefined ∧
    (basic_future.destroy (basic_promise.swap world_pending_and_fresh 0 1).2 0).1
      = .undefined :=
  ⟨reachable.step _ (.promise_swap 0 1) world_pending_and_fresh_reachable rfl,
    rfl, rfl, rfl, rfl, rfl⟩

/-- C30 fails in the code: a pending future at address 0 (`_need_locks` on) is swapped
with a ready-made future at address 1 (`_need_locks` off).  The first guard locks the
future and the promise at address 0, the second guard locks nothing; the flags are
exchanged while the guards are held, so releasing the second guard unlocks the lock of the
future at address 1, which was never constructed, and releasing the first guard leaves the
lock of the future at address 0 locked. -/
theorem C30_future_swap_unbalanced :
    reachable world_pending_and_ready ∧
    world_pending_and_ready.futures 0
      = some { _storage := .empty, _need_locks := true, _lock := .unlocked,
               _promise := some 0, is_consuming := true } ∧
    world_pending_and_ready.futures 1
      = some { _storage := .value 7, _need_locks := false, _lock := .unconstructed,
               _promise := none, is_consuming := true } ∧
    (basic_future.swap world_pending_and_ready 0 1).1 = .undefined ∧
    (basic_future.swap world_pending_and_ready 0 1).2.futures 0
      = some { _storage := .value 7, _need_locks := false, _lock := .locked,
               _promise := none, is_consuming := true } ∧
    (basic_future.swap world_pending_and_ready 0 1).2.futures 1
      = some { _storage := .empty, _need_locks := true, _lock := .unconstructed,
               _promise := some 0, is_consuming := true } ∧
    (match lock_guard.of_future world_pending_and_ready 0 with
      | .acquired h1 w1 =>
        (match lock_guard.of_future w1 1 with
          | .acquired h2 _ => some (h1, h2)
          | _ => none)
      | _ => none) = some (⟨some 0, some 0⟩, ⟨none, some 1⟩) ∧
    lock_guard.unlock ⟨none, some 1⟩ (basic_future.swap world_pending_and_ready 0 1).2
      = none ∧
    ((lock_guard.unlock ⟨some 0, some 0⟩
        (basic_future.swap world_pending_and_ready 0 1).2).map (fun w => w.futures 0))
      = some (some { _storage := .value 7, _need_locks := false, _lock := .locked,
                     _promise := none, is_consuming := true }) :=
  ⟨world_pending_and_ready_reachable, rfl, rfl, rfl, rfl, rfl, rfl, rfl, rfl⟩

/-- C31: fails in the code.  On every future the calls `get_error()` and `get_exception()`
are ill-formed and have no behaviour.  The statements of `_get_error_impl` and
`_get_exception_impl`, run on a consuming future whose guard is free, do what the claim
says: when the carrier is `Value(v)` they return the default error code and the null
reference, and when the carrier is `Exception(x)` the statements of `_get_error_impl`
return the code `exception_present` of the monad category; each of the three leaves the
future as it was, and a `get()` after it returns `v` (respectively rethrows `x`, when `x`
is not null). -/
theorem C31_observers_do_not_consume (w : World T) (f : Nat) (F : basic_future T)
    (hF : w.futures f = some F) (hc : F.is_consuming = true) (hg : future_guard_free w F) :
    basic_future.get_error w f = none ∧
    basic_future.get_exception w f = none ∧
    (∀ v, F._storage = .value v →
      (basic_future.get_error_statements w f).1 = .returned error_code.default ∧
      (basic_future.get_error_statements w f).2.futures f = some F ∧
      (basic_future.get (basic_future.get_error_statements w f).2 f).1 = .returned v ∧
      (basic_future.get_exception_statements w f).1 = .returned .null ∧
      (basic_future.get_exception_statements w f).2.futures f = some F ∧
      (basic_future.get (basic_future.get_exception_statements w f).2 f).1 = .returned v) ∧
    (∀ x, F._storage = .exception x →
      (basic_future.get_error_statements w f).1
        = .returned ⟨monad_errc.exception_present.toInt, .monad⟩ ∧
      (basic_future.get_error_statements w f).2.futures f = some F ∧
      (basic_future.get (basic_future.get_error_statements w f).2 f).1
        = rethrow_exception x ∧
      (x ≠ .null →
        (basic_future.get (basic_future.get_error_statements w f).2 f).1
          = .thrown (.rethrown x))) := by
  refine ⟨?_, ?_, ?_⟩
  · simp [basic_future.get_error, hF, future_policy._get_error, future_policy._get_error_impl,
      deduce, template_argument.has_pointer_type]
  · simp [basic_future.get_exception, hF, future_policy._get_exception,
      future_policy._get_exception_impl, deduce, template_argument.has_pointer_type]
  obtain ⟨fs, fnl, fl, fp, fc⟩ := F
  obtain ⟨hl, hg⟩ := hg
  simp only [spinlock.at_rest] at hl hg hc
  subst hc
  cases fp with
  | none =>
    constructor <;> intro y hy <;> simp only at hy <;> subst hy <;>
    cases fnl <;>
    simp_all [lock_guard.of_future, lock_guard.leave, lock_guard.unlock,
      lock_guard.unlock_p, lock_guard.unlock_f, World.set_promise, World.set_future,
      World.count_acquisition, value_storage.is_ready, value_storage.clear,
      basic_future.is_ready, basic_future.valid, basic_future.get_error_statements,
      basic_future.get_exception_statements, future_policy._get_error_impl_statements,
      future_policy._get_exception_impl_statements, basic_future.wait, basic_future.get,
      future_policy._get_value, future_policy._pre_get_value, rethrow_exception,
      basic_future.has_error, basic_future.has_exception, value_storage.has_error,
      value_storage.has_exception]
  | some p =>
    obtain ⟨P, hP, hPl, hn⟩ := hg p rfl
    obtain ⟨s, nl, d, l, c⟩ := P
    simp only [spinlock.at_rest] at hPl hn
    constructor <;> intro y hy <;> simp only at hy <;> subst hy <;>
    cases fnl <;> cases nl <;>
    simp_all [lock_guard.of_future, lock_guard.leave, lock_guard.unlock,
      lock_guard.unlock_p, lock_guard.unlock_f, World.set_promise, World.set_future,
      World.count_acquisition, value_storage.is_ready, value_storage.clear,
      basic_future.is_ready, basic_future.valid, basic_future.get_error_statements,
      basic_future.get_exception_statements, future_policy._get_error_impl_statements,
      future_policy._get_exception_impl_statements, basic_future.wait, basic_future.get,
      future_policy._get_value, future_policy._pre_get_value, rethrow_exception,
      basic_future.has_error, basic_future.has_exception, value_storage.has_error,
      value_storage.has_exception]

/-- C31 at the world after `p.set_value(5); f = p.get_future();`: the calls `get_error()`
and `get_exception()` are ill-formed; the statements of `_get_error_impl` return the
default error code, leave the future holding 5, and `get()` after them returns 5. -/
theorem C31_observers_do_not_consume_witness :
    world_value_then_future.futures 0
      = some { _storage := .value 5, _need_locks := false, _lock := .unconstructed,
               _promise := none, is_consuming := true } ∧
    basic_future.get_error world_value_then_future 0 = none ∧
    basic_future.get_exception world_value_then_future 0 = none ∧
    (basic_future.get_error_statements world_value_then_future 0).1
      = .returned error_code.default ∧
    (basic_future.get_error_statements world_value_then_future 0).2.futures 0
      = some { _storage := .value 5, _need_locks := false, _lock := .unconstructed,
               _promise := none, is_consuming := true } ∧
    (basic_future.get (basic_future.get_error_statements world_value_then_future 0).2 0).1
      = .returned 5 :=
  have h := C31_observers_do_not_consume world_value_then_future 0
    { _storage := .value 5, _need_locks := false, _lock := .unconstructed,
      _promise := none, is_consuming := true } rfl rfl
    ⟨rfl, fun _ hp => nomatch hp⟩
  ⟨rfl, h.1, h.2.1, (h.2.2.1 5 rfl).1, (h.2.2.1 5 rfl).2.1, (h.2.2.1 5 rfl).2.2.1⟩

end lightweight_futures
